import Mathlib

/-!
# Verification of parts of irishub

Three parts of the repository are embedded and verified here.

* `Oracle`: the oracle feed keeper (`app/v3/oracle/internal/keeper/keeper.go`): `CreateFeed`,
  `StartFeed`, `PauseFeed`, `EditFeed` and the response callback `HandlerResponse`.
  The two collaborators of the keeper, `types.GuardianKeeper` and `types.ServiceKeeper`, are
  Go interfaces; they are embedded as records of functions over an abstract collaborator state.
  `sdk.Context` is embedded as the record of the stores reachable through it, threaded
  explicitly through every operation, together with a trace of the calls made on the
  service keeper (the trace is what "calls the engine" refers to in the statements below).
  A Go result of type `sdk.Error` is an `Option` (`none` is `nil`).
* `Gov`: the validation of the governance messages (`app/v1/gov/msgs.go`). What the file uses
  and does not declare is a parameter of the validation functions.
* `Service`: the binding registry, the request-context engine and the fee settlement of the
  service module, whose sources are not at hand; this part is modelled from the specification
  and from the command-line test of the module (`tests/cli/service_test.go`).

The definitions of the three parts come first, their theorems after.
-/

namespace Oracle

/-! ## Data model -/

/-- An account address (`sdk.AccAddress`, a byte slice); `Equals` is equality of the bytes. -/
abbrev AccAddress := List Nat

/-- A coin set (`sdk.Coins`): denominations with their amounts. -/
abbrev Coins := List (String × Int)

/-- Lifecycle state of a request context (State ∈ {Running, Paused, Completed}). -/
inductive RequestContextState where
  | Running
  | Paused
  | Completed
  deriving DecidableEq, Repr

/-- The error values of the oracle module (`types.Err...`), each with the arguments its
constructor receives in the keeper, and the errors handed back by the service keeper. -/
inductive SdkError where
  | ErrNotProfiler (codespace : String) (creator : AccAddress)
  | ErrExistedFeedName (codespace : String) (feedName : String)
  | ErrUnknownFeedName (codespace : String) (feedName : String)
  | ErrUnauthorized (codespace : String) (feedName : String) (creator : AccAddress)
  | ErrInvalidFeedState (codespace : String) (feedName : String)
  | ErrInvalidAggregateFunc (codespace : String) (name : String)
  | service (code : Nat) (log : String)
  deriving DecidableEq, Repr

namespace types

/-- Modelled from the spec: the name constant of the oracle module (`types.ModuleName`, declared
in the types package, which is not part of the sources at hand). -/
def ModuleName : String := "oracle"

/-- Modelled from the spec: the codespace constant of the oracle module
(`types.DefaultCodespace`). -/
def DefaultCodespace : String := "oracle"

/-- The state constant `types.Running`. -/
def Running : RequestContextState := RequestContextState.Running

/-- The state constant `types.Pause` ("feeds start stopped", initialState = Paused). -/
def Pause : RequestContextState := RequestContextState.Paused

end types

/-- Modelled from the spec: the `Feed` record, with the fields the keeper writes in
`CreateFeed`. -/
structure Feed where
  FeedName : String
  AggregateFunc : String
  ValueJsonPath : String
  LatestHistory : Nat
  RequestContextID : List Nat
  Creator : AccAddress
  deriving DecidableEq, Repr

/-- Modelled from the spec: one stored feed result, keyed by (feed name, batch counter); the
results of the oracle store are kept oldest first. -/
structure FeedResult (β : Type) where
  FeedName : String
  BatchCounter : Nat
  Data : β
  deriving DecidableEq, Repr

/-- The fields of `types.MsgCreateFeed` read by `CreateFeed`. -/
structure MsgCreateFeed where
  FeedName : String
  AggregateFunc : String
  ValueJsonPath : String
  LatestHistory : Nat
  ServiceName : String
  Providers : List AccAddress
  Input : String
  Timeout : Int
  ServiceFeeCap : Coins
  RepeatedFrequency : Nat
  RepeatedTotal : Int
  ResponseThreshold : Nat
  Creator : AccAddress
  deriving DecidableEq, Repr

/-- The fields of `types.MsgStartFeed` read by `StartFeed`. -/
structure MsgStartFeed where
  FeedName : String
  Creator : AccAddress
  deriving DecidableEq, Repr

/-- The fields of `types.MsgPauseFeed` read by `PauseFeed`. -/
structure MsgPauseFeed where
  FeedName : String
  Creator : AccAddress
  deriving DecidableEq, Repr

/-- The fields of `types.MsgEditFeed` read by `EditFeed`. -/
structure MsgEditFeed where
  FeedName : String
  LatestHistory : Nat
  Providers : List AccAddress
  ServiceFeeCap : Coins
  RepeatedFrequency : Nat
  RepeatedTotal : Int
  Creator : AccAddress
  deriving DecidableEq, Repr

/-- The fields of a request context that the keeper reads (`State`, `BatchCounter`), with the
schedule fields that `UpdateRequestContext` rewrites. -/
structure RequestContext where
  State : RequestContextState
  BatchCounter : Nat
  Timeout : Int
  RepeatedFrequency : Nat
  RepeatedTotal : Int
  Providers : List AccAddress
  ServiceFeeCap : Coins
  deriving DecidableEq, Repr

/-- The argument list of `ServiceKeeper.CreateRequestContext`, in the order of the call. -/
structure CreateRequestContextArgs where
  serviceName : String
  providers : List AccAddress
  consumer : AccAddress
  input : String
  serviceFeeCap : Coins
  timeout : Int
  repeated : Bool
  repeatedFrequency : Nat
  repeatedTotal : Int
  state : RequestContextState
  responseThreshold : Nat
  moduleName : String
  deriving DecidableEq, Repr

/-- The argument list of `ServiceKeeper.UpdateRequestContext`, in the order of the call. -/
structure UpdateRequestContextArgs where
  requestContextID : List Nat
  providers : List AccAddress
  serviceFeeCap : Coins
  repeatedFrequency : Nat
  repeatedTotal : Int
  deriving DecidableEq, Repr

/-- A call made on the service keeper. -/
inductive ServiceCall where
  | CreateRequestContext (args : CreateRequestContextArgs)
  | GetRequestContext (requestContextID : List Nat)
  | StartRequestContext (requestContextID : List Nat)
  | PauseRequestContext (requestContextID : List Nat)
  | UpdateRequestContext (args : UpdateRequestContextArgs)
  deriving DecidableEq, Repr

/-- The interface `types.GuardianKeeper`. `GetProfiler` returns `(profile, exists)`; the keeper
discards the profile, so only the `exists` flag is kept. -/
structure GuardianKeeper (γ : Type) where
  GetProfiler : γ → AccAddress → Bool

/-- The interface `types.ServiceKeeper`, over the state `σ` of the service module. The
operations that return only an error give `none` for `nil`. -/
structure ServiceKeeper (σ : Type) where
  CreateRequestContext : σ → CreateRequestContextArgs → Except SdkError (List Nat) × σ
  GetRequestContext : σ → List Nat → Option RequestContext
  StartRequestContext : σ → List Nat → Option SdkError × σ
  PauseRequestContext : σ → List Nat → Option SdkError × σ
  UpdateRequestContext : σ → UpdateRequestContextArgs → Option SdkError × σ

/-- The stores reachable through `sdk.Context`: the guardian and service module states, the
feed records and feed results of the oracle store, and the trace of service-keeper calls. -/
structure Context (γ σ β : Type) where
  guardian : γ
  service : σ
  feeds : List Feed
  results : List (FeedResult β)
  calls : List ServiceCall

/-- The keeper: its two collaborators, the JSON-path extractor `gjson.Get` and the lookup
`types.GetAggregateFunc` of the aggregation functions (values of `types.ArgsType` are `α`,
aggregated values are `β`). -/
structure Keeper (γ σ α β : Type) where
  gk : GuardianKeeper γ
  sk : ServiceKeeper σ
  gjsonGet : String → String → α
  GetAggregateFunc : String → Except SdkError (List α → β)

variable {γ σ α β : Type}

/-! ## The oracle store -/

/-- Modelled from the spec: `GetFeed`, the lookup of the `Feed` record keyed by name. -/
def GetFeed (ctx : Context γ σ β) (feedName : String) : Option Feed :=
  ctx.feeds.find? (fun f => decide (f.FeedName = feedName))

/-- Modelled from the spec: `GetFeedByReqCtxID`, the lookup of the feed that references a
request-context ID. -/
def GetFeedByReqCtxID (ctx : Context γ σ β) (requestContextID : List Nat) : Option Feed :=
  ctx.feeds.find? (fun f => decide (f.RequestContextID = requestContextID))

/-- Modelled from the spec: `setFeed`, which stores a `Feed` record keyed by its name,
replacing the record of that name if there is one. -/
def setFeed (ctx : Context γ σ β) (feed : Feed) : Context γ σ β :=
  { ctx with feeds := feed :: ctx.feeds.filter (fun f => decide (f.FeedName ≠ feed.FeedName)) }

/-- Removes the `count` oldest results of the feed `feedName` from a list of results kept
oldest first (all of them when there are fewer). -/
def dropOldest (feedName : String) : Nat → List (FeedResult β) → List (FeedResult β)
  | 0, rs => rs
  | _ + 1, [] => []
  | n + 1, r :: rs =>
    if r.FeedName = feedName then dropOldest feedName n rs
    else r :: dropOldest feedName (n + 1) rs

/-- Modelled from the spec: `deleteOldestFeedResult`, which deletes the `count` oldest stored
results of a feed; `count` is a Go `int`, and a count that is not positive deletes nothing. -/
def deleteOldestFeedResult (ctx : Context γ σ β) (feedName : String) (count : Int) :
    Context γ σ β :=
  { ctx with results := dropOldest feedName count.toNat ctx.results }

/-- Modelled from the spec: `setFeedResult`, which appends the result keyed by
(feed name, batch counter), trimming older entries beyond the history bound. A value already
stored under the same key is replaced. -/
def setFeedResult (ctx : Context γ σ β) (feedName : String) (batchCounter : Nat)
    (latestHistory : Nat) (data : β) : Context γ σ β :=
  let older := ctx.results.filter
    (fun r => !(decide (r.FeedName = feedName) && decide (r.BatchCounter = batchCounter)))
  let n := (older.filter (fun r => decide (r.FeedName = feedName))).length
  { ctx with results := dropOldest feedName (n + 1 - latestHistory) older
      ++ [{ FeedName := feedName, BatchCounter := batchCounter, Data := data }] }

/-- The stored result of a feed at a batch counter. -/
def GetFeedResult (ctx : Context γ σ β) (feedName : String) (batchCounter : Nat) : Option β :=
  (ctx.results.find?
    (fun r => decide (r.FeedName = feedName) && decide (r.BatchCounter = batchCounter))).map
    (fun r => r.Data)

/-- The stored results of one feed, oldest first. -/
def feedResults (ctx : Context γ σ β) (feedName : String) : List (FeedResult β) :=
  ctx.results.filter (fun r => decide (r.FeedName = feedName))

/-! ## Calls on the service keeper, recorded in the trace -/

/-- The call `k.sk.CreateRequestContext(ctx, ...)`. -/
def Keeper.CreateRequestContext (k : Keeper γ σ α β) (ctx : Context γ σ β)
    (args : CreateRequestContextArgs) : Except SdkError (List Nat) × Context γ σ β :=
  let r := k.sk.CreateRequestContext ctx.service args
  (r.1, { ctx with service := r.2, calls := ctx.calls ++ [ServiceCall.CreateRequestContext args] })

/-- The call `k.sk.GetRequestContext(ctx, id)`. -/
def Keeper.GetRequestContext (k : Keeper γ σ α β) (ctx : Context γ σ β)
    (requestContextID : List Nat) : Option RequestContext × Context γ σ β :=
  (k.sk.GetRequestContext ctx.service requestContextID,
    { ctx with calls := ctx.calls ++ [ServiceCall.GetRequestContext requestContextID] })

/-- The call `k.sk.StartRequestContext(ctx, id)`. -/
def Keeper.StartRequestContext (k : Keeper γ σ α β) (ctx : Context γ σ β)
    (requestContextID : List Nat) : Option SdkError × Context γ σ β :=
  let r := k.sk.StartRequestContext ctx.service requestContextID
  (r.1, { ctx with service := r.2,
                   calls := ctx.calls ++ [ServiceCall.StartRequestContext requestContextID] })

/-- The call `k.sk.PauseRequestContext(ctx, id)`. -/
def Keeper.PauseRequestContext (k : Keeper γ σ α β) (ctx : Context γ σ β)
    (requestContextID : List Nat) : Option SdkError × Context γ σ β :=
  let r := k.sk.PauseRequestContext ctx.service requestContextID
  (r.1, { ctx with service := r.2,
                   calls := ctx.calls ++ [ServiceCall.PauseRequestContext requestContextID] })

/-- The call `k.sk.UpdateRequestContext(ctx, ...)`. -/
def Keeper.UpdateRequestContext (k : Keeper γ σ α β) (ctx : Context γ σ β)
    (args : UpdateRequestContextArgs) : Option SdkError × Context γ σ β :=
  let r := k.sk.UpdateRequestContext ctx.service args
  (r.1, { ctx with service := r.2, calls := ctx.calls ++ [ServiceCall.UpdateRequestContext args] })

/-- The calls made on the service keeper between two contexts. -/
def newCalls (before after : Context γ σ β) : List ServiceCall :=
  after.calls.drop before.calls.length

/-! ## The keeper operations -/

/-- The arguments with which `CreateFeed` calls `CreateRequestContext`. -/
def createFeedArgs (msg : MsgCreateFeed) : CreateRequestContextArgs :=
  { serviceName := msg.ServiceName
    providers := msg.Providers
    consumer := msg.Creator
    input := msg.Input
    serviceFeeCap := msg.ServiceFeeCap
    timeout := msg.Timeout
    repeated := true
    repeatedFrequency := msg.RepeatedFrequency
    repeatedTotal := msg.RepeatedTotal
    state := types.Pause
    responseThreshold := msg.ResponseThreshold
    moduleName := types.ModuleName }

/-- `CreateFeed` create a stopped feed. -/
def Keeper.CreateFeed (k : Keeper γ σ α β) (ctx : Context γ σ β) (msg : MsgCreateFeed) :
    Option SdkError × Context γ σ β :=
  if !k.gk.GetProfiler ctx.guardian msg.Creator then
    (some (SdkError.ErrNotProfiler types.DefaultCodespace msg.Creator), ctx)
  else
    match GetFeed ctx msg.FeedName with
    | some _ => (some (SdkError.ErrExistedFeedName types.DefaultCodespace msg.FeedName), ctx)
    | none =>
      match k.CreateRequestContext ctx (createFeedArgs msg) with
      | (Except.error err, ctx1) => (some err, ctx1)
      | (Except.ok requestContextID, ctx1) =>
        (none, setFeed ctx1
          { FeedName := msg.FeedName
            AggregateFunc := msg.AggregateFunc
            ValueJsonPath := msg.ValueJsonPath
            LatestHistory := msg.LatestHistory
            RequestContextID := requestContextID
            Creator := msg.Creator })

/-- `StartFeed` start a stopped feed. -/
def Keeper.StartFeed (k : Keeper γ σ α β) (ctx : Context γ σ β) (msg : MsgStartFeed) :
    Option SdkError × Context γ σ β :=
  match GetFeed ctx msg.FeedName with
  | none => (some (SdkError.ErrUnknownFeedName types.DefaultCodespace msg.FeedName), ctx)
  | some feed =>
    if msg.Creator ≠ feed.Creator then
      (some (SdkError.ErrUnauthorized types.DefaultCodespace msg.FeedName msg.Creator), ctx)
    else
      match k.GetRequestContext ctx feed.RequestContextID with
      | (none, ctx1) =>
        (some (SdkError.ErrUnknownFeedName types.DefaultCodespace msg.FeedName), ctx1)
      | (some reqCtx, ctx1) =>
        if reqCtx.State = types.Running then
          (some (SdkError.ErrInvalidFeedState types.DefaultCodespace msg.FeedName), ctx1)
        else
          match k.StartRequestContext ctx1 feed.RequestContextID with
          | (some err, ctx2) => (some err, ctx2)
          | (none, ctx2) => (none, ctx2)

/-- `PauseFeed` pause a running feed. -/
def Keeper.PauseFeed (k : Keeper γ σ α β) (ctx : Context γ σ β) (msg : MsgPauseFeed) :
    Option SdkError × Context γ σ β :=
  match GetFeed ctx msg.FeedName with
  | none => (some (SdkError.ErrUnknownFeedName types.DefaultCodespace msg.FeedName), ctx)
  | some feed =>
    if msg.Creator ≠ feed.Creator then
      (some (SdkError.ErrUnauthorized types.DefaultCodespace msg.FeedName msg.Creator), ctx)
    else
      match k.GetRequestContext ctx feed.RequestContextID with
      | (none, ctx1) =>
        (some (SdkError.ErrUnknownFeedName types.DefaultCodespace msg.FeedName), ctx1)
      | (some reqCtx, ctx1) =>
        if reqCtx.State ≠ types.Running then
          (some (SdkError.ErrInvalidFeedState types.DefaultCodespace msg.FeedName), ctx1)
        else
          match k.PauseRequestContext ctx1 feed.RequestContextID with
          | (some err, ctx2) => (some err, ctx2)
          | (none, ctx2) => (none, ctx2)

/-- The Go conversion `int(x)` of a `uint64` (a 64-bit two's-complement `int`). -/
def intOfUint64 (x : Nat) : Int :=
  if x % 2 ^ 64 < 2 ^ 63 then ((x % 2 ^ 64 : Nat) : Int) else ((x % 2 ^ 64 : Nat) : Int) - 2 ^ 64

/-- The `uint64` subtraction `a - b`. -/
def subUint64 (a b : Nat) : Nat :=
  (a % 2 ^ 64 + 2 ^ 64 - b % 2 ^ 64) % 2 ^ 64

/-- The first part of `EditFeed` after authorisation: the history bound of the feed is replaced
when `msg.LatestHistory > 1`, deleting the excess oldest results when it shrinks. -/
def editLatestHistory (ctx : Context γ σ β) (feed : Feed) (msg : MsgEditFeed) :
    Feed × Context γ σ β :=
  if msg.LatestHistory > 1 then
    let ctx1 :=
      if msg.LatestHistory ≠ feed.LatestHistory ∧ msg.LatestHistory < feed.LatestHistory then
        deleteOldestFeedResult ctx feed.FeedName
          (intOfUint64 (subUint64 feed.LatestHistory msg.LatestHistory))
      else ctx
    ({ feed with LatestHistory := msg.LatestHistory }, ctx1)
  else (feed, ctx)

/-- `EditFeed` edit a feed. -/
def Keeper.EditFeed (k : Keeper γ σ α β) (ctx : Context γ σ β) (msg : MsgEditFeed) :
    Option SdkError × Context γ σ β :=
  match GetFeed ctx msg.FeedName with
  | none => (some (SdkError.ErrUnknownFeedName types.DefaultCodespace msg.FeedName), ctx)
  | some feed =>
    if msg.Creator ≠ feed.Creator then
      (some (SdkError.ErrUnauthorized types.DefaultCodespace msg.FeedName msg.Creator), ctx)
    else
      match editLatestHistory ctx feed msg with
      | (feed1, ctx1) =>
        match k.UpdateRequestContext ctx1
            { requestContextID := feed1.RequestContextID
              providers := msg.Providers
              serviceFeeCap := msg.ServiceFeeCap
              repeatedFrequency := msg.RepeatedFrequency
              repeatedTotal := msg.RepeatedTotal } with
        | (some err, ctx2) => (some err, ctx2)
        | (none, ctx2) => (none, setFeed ctx2 feed1)

/-- `HandlerResponse` is responsible for processing the data returned from the service module,
processed by the aggregate function, and then saved. -/
def Keeper.HandlerResponse (k : Keeper γ σ α β) (ctx : Context γ σ β)
    (requestContextID : List Nat) (responseOutput : List String) : Context γ σ β :=
  if responseOutput.length = 0 then ctx
  else
    match GetFeedByReqCtxID ctx requestContextID with
    | none => ctx
    | some feed =>
      match k.GetRequestContext ctx requestContextID with
      | (none, ctx1) => ctx1
      | (some reqCtx, ctx1) =>
        match k.GetAggregateFunc feed.AggregateFunc with
        | Except.error _ => ctx1
        | Except.ok aggregate =>
          let data := responseOutput.foldl
            (fun acc jsonStr => acc ++ [k.gjsonGet jsonStr feed.ValueJsonPath]) []
          let result := aggregate data
          setFeedResult ctx1 feed.FeedName reqCtx.BatchCounter feed.LatestHistory result

/-! ## A small instance: a guardian store, a service module and a keeper over them -/

/-- A guardian store that is the list of the profiler addresses. -/
def listGuardian : GuardianKeeper (List AccAddress) :=
  { GetProfiler := fun profilers addr => decide (addr ∈ profilers) }

/-- Replaces the request context stored under an ID. -/
def putContext (id : List Nat) (rc : RequestContext) :
    List (List Nat × RequestContext) → List (List Nat × RequestContext)
  | [] => []
  | e :: es => if e.1 = id then (id, rc) :: es else e :: putContext id rc es

/-- A service module whose state is the list of its request contexts by ID. Creation needs a
non-empty provider list and, for a repeated context, a frequency that is at least the timeout;
an update needs an existing context and, when it changes the frequency, a frequency that is at
least the timeout of the context. -/
def listService : ServiceKeeper (List (List Nat × RequestContext)) :=
  { CreateRequestContext := fun s args =>
      if args.providers = [] then (Except.error (SdkError.service 1 "no providers"), s)
      else if args.repeated = true ∧ (args.repeatedFrequency : Int) < args.timeout then
        (Except.error (SdkError.service 2 "invalid frequency"), s)
      else
        (Except.ok [s.length],
          s ++ [([s.length],
            { State := args.state
              BatchCounter := 0
              Timeout := args.timeout
              RepeatedFrequency := args.repeatedFrequency
              RepeatedTotal := args.repeatedTotal
              Providers := args.providers
              ServiceFeeCap := args.serviceFeeCap })])
    GetRequestContext := fun s id => (s.find? (fun e => decide (e.1 = id))).map (fun e => e.2)
    StartRequestContext := fun s id =>
      match (s.find? (fun e => decide (e.1 = id))).map (fun e => e.2) with
      | none => (some (SdkError.service 3 "unknown request context"), s)
      | some rc => (none, putContext id { rc with State := RequestContextState.Running } s)
    PauseRequestContext := fun s id =>
      match (s.find? (fun e => decide (e.1 = id))).map (fun e => e.2) with
      | none => (some (SdkError.service 3 "unknown request context"), s)
      | some rc => (none, putContext id { rc with State := RequestContextState.Paused } s)
    UpdateRequestContext := fun s args =>
      match (s.find? (fun e => decide (e.1 = args.requestContextID))).map (fun e => e.2) with
      | none => (some (SdkError.service 3 "unknown request context"), s)
      | some rc =>
        if 0 < args.repeatedFrequency ∧ (args.repeatedFrequency : Int) < rc.Timeout then
          (some (SdkError.service 2 "invalid frequency"), s)
        else
          (none, putContext args.requestContextID
            { rc with
              RepeatedFrequency :=
                if 0 < args.repeatedFrequency then args.repeatedFrequency
                else rc.RepeatedFrequency
              RepeatedTotal := if args.repeatedTotal = 0 then rc.RepeatedTotal
                else args.repeatedTotal
              Providers := if args.providers = [] then rc.Providers else args.providers
              ServiceFeeCap := if args.serviceFeeCap = [] then rc.ServiceFeeCap
                else args.serviceFeeCap } s) }

/-- A keeper over the two instances above. The extractor reads the length of the payload and
the only aggregation function is "sum". -/
def listKeeper : Keeper (List AccAddress) (List (List Nat × RequestContext)) Int Int :=
  { gk := listGuardian
    sk := listService
    gjsonGet := fun jsonStr _ => (jsonStr.length : Int)
    GetAggregateFunc := fun name =>
      if name = "sum" then Except.ok List.sum
      else Except.error (SdkError.ErrInvalidAggregateFunc types.DefaultCodespace name) }

/-- The address of the profiler of the sample store. -/
def alice : AccAddress := [1]

/-- An address that is not a profiler. -/
def bob : AccAddress := [2]

/-- A request context with timeout 10 and frequency 20 in the given state. -/
def sampleRequestContext (st : RequestContextState) (batchCounter : Nat) : RequestContext :=
  { State := st
    BatchCounter := batchCounter
    Timeout := 10
    RepeatedFrequency := 20
    RepeatedTotal := 10
    Providers := [[7], [8]]
    ServiceFeeCap := [("iris", 10)] }

/-- The feed "btc" of the sample store, created by alice over the request context `[0]`. -/
def btcFeed (latestHistory : Nat) : Feed :=
  { FeedName := "btc"
    AggregateFunc := "sum"
    ValueJsonPath := "data.price"
    LatestHistory := latestHistory
    RequestContextID := [0]
    Creator := alice }

/-- A store with no feed, in which alice is a profiler. -/
def emptyStore : Context (List AccAddress) (List (List Nat × RequestContext)) Int :=
  { guardian := [alice], service := [], feeds := [], results := [], calls := [] }

/-- A store holding the feed "btc" with history bound `latestHistory`, three stored results
(batches 1 to 3) and its request context in state `st` at batch 3. -/
def btcStore (st : RequestContextState) (latestHistory : Nat) :
    Context (List AccAddress) (List (List Nat × RequestContext)) Int :=
  { guardian := [alice]
    service := [([0], sampleRequestContext st 3)]
    feeds := [btcFeed latestHistory]
    results := [{ FeedName := "btc", BatchCounter := 1, Data := 11 },
                { FeedName := "btc", BatchCounter := 2, Data := 12 },
                { FeedName := "btc", BatchCounter := 3, Data := 13 }]
    calls := [] }

/-- A message creating the feed "btc" over two providers. -/
def createBtc (creator : AccAddress) (providers : List AccAddress) : MsgCreateFeed :=
  { FeedName := "btc"
    AggregateFunc := "sum"
    ValueJsonPath := "data.price"
    LatestHistory := 5
    ServiceName := "price"
    Providers := providers
    Input := "{}"
    Timeout := 10
    ServiceFeeCap := [("iris", 10)]
    RepeatedFrequency := 20
    RepeatedTotal := 10
    ResponseThreshold := 1
    Creator := creator }

/-- A message editing the feed "btc". -/
def editBtc (creator : AccAddress) (latestHistory frequency : Nat) : MsgEditFeed :=
  { FeedName := "btc"
    LatestHistory := latestHistory
    Providers := []
    ServiceFeeCap := []
    RepeatedFrequency := frequency
    RepeatedTotal := 0
    Creator := creator }

end Oracle

namespace Gov

/-! ## Governance messages (`app/v1/gov/msgs.go`): data model -/

/-- A proposal kind (`ProposalKind`, a byte). -/
abbrev ProposalKind := Nat

/-- A usage type of a tax-usage proposal (`UsageType`, a byte). -/
abbrev UsageType := Nat

/-- A vote option (`VoteOption`, a byte). -/
abbrev VoteOption := Nat

/-- One parameter change of a proposal (`Param`). -/
structure Param where
  Subspace : String
  Key : String
  Value : String
  deriving DecidableEq, Repr

/-- The parameter changes of a proposal (`Params`). -/
abbrev Params := List Param

/-- Modelled from the spec: `sdk.Dec`, an exact fixed-precision decimal, held as the integer
number of units of `10 ^ (-Precision)`. -/
structure Dec where
  raw : Int
  deriving DecidableEq, Repr

/-- Modelled from the spec: the number of decimal places of `sdk.Dec`. -/
def Precision : Nat := 10

/-- Modelled from the spec: the decimal `i` (`sdk.NewDec`). -/
def NewDec (i : Int) : Dec := { raw := i * 10 ^ Precision }

/-- Modelled from the spec: the decimal `i / 10 ^ prec` (`sdk.NewDecWithPrec`). -/
def NewDecWithPrec (i : Int) (prec : Nat) : Dec := { raw := i * 10 ^ (Precision - prec) }

/-- Modelled from the spec: the exact comparison `d.LT(d2)`. -/
def Dec.LT (d d2 : Dec) : Bool := decide (d.raw < d2.raw)

/-- Modelled from the spec: the exact comparison `d.LTE(d2)`. -/
def Dec.LTE (d d2 : Dec) : Bool := decide (d.raw ≤ d2.raw)

/-- Modelled from the spec: the exact comparison `d.GT(d2)`. -/
def Dec.GT (d d2 : Dec) : Bool := decide (d.raw > d2.raw)

/-- Modelled from the spec: the exact comparison `d.GTE(d2)`. -/
def Dec.GTE (d d2 : Dec) : Bool := decide (d.raw ≥ d2.raw)

/-- An `sdk.Error` produced outside the gov module, by its codespace, code and log. -/
structure ForeignError where
  codespace : String
  code : Nat
  log : String
  deriving DecidableEq, Repr

/-- The error values returned by the validation functions of `msgs.go`, each with the arguments
its constructor receives there (an address or coin set stands for its `String()` rendering). -/
inductive Error where
  | ErrInvalidTitle (codespace : String) (title : String)
  | ErrInvalidDescription (codespace : String) (description : String)
  | ErrInvalidProposalType (codespace : String) (proposalType : ProposalKind)
  | ErrInvalidAddress (address : Oracle.AccAddress)
  | ErrInvalidCoins (coins : Oracle.Coins)
  | ErrInvalidLength (codespace : String) (code : Nat) (descriptor : String) (got max : Nat)
  | ErrEmptyParam (codespace : String)
  | ErrInvalidParamNum (codespace : String)
  | ErrInvalidUpgradeThreshold (codespace : String) (threshold : Dec)
  | ErrInvalidUsageType (codespace : String) (usage : UsageType)
  | ErrInvalidPercent (codespace : String) (percent : Dec)
  | ErrUnknownProposal (codespace : String) (proposalID : Nat)
  | ErrInvalidVote (codespace : String) (option : VoteOption)
  | foreign (err : ForeignError)
  deriving DecidableEq, Repr

/-- The asset family constant used in `msgs.go` (`asset.FUNGIBLE`), among the families. -/
inductive AssetFamily where
  | FUNGIBLE
  | other (family : Nat)
  deriving DecidableEq, Repr

/-- The asset source constant used in `msgs.go` (`asset.EXTERNAL`), among the sources. -/
inductive AssetSource where
  | EXTERNAL
  | other (source : Nat)
  deriving DecidableEq, Repr

/-- The message built by `asset.NewMsgIssueToken`, with its arguments in the order of the
call. -/
structure MsgIssueToken where
  Family : AssetFamily
  Source : AssetSource
  Gateway : String
  Symbol : String
  SymbolAtSource : String
  Name : String
  Decimal : Nat
  SymbolMinAlias : String
  InitialSupply : Nat
  MaxSupply : Nat
  Mintable : Bool
  Owner : Oracle.AccAddress
  deriving DecidableEq, Repr

/-- What `msgs.go` uses and does not declare: the constants and predicates of the gov package,
the coin-set checks of the sdk types package, and the constants and the issue-token validation
of the asset package. -/
structure Env where
  DefaultCodespace : String
  CodeInvalidProposal : Nat
  ProposalTypeParameterChange : ProposalKind
  ValidProposalType : ProposalKind → Bool
  UsageTypeBurn : UsageType
  ValidUsageType : UsageType → Bool
  ValidVoteOption : VoteOption → Bool
  IsValid : Oracle.Coins → Bool
  IsNotNegative : Oracle.Coins → Bool
  CodeInvalidAssetSource : Nat
  MaximumAssetMaxSupply : Nat
  issueTokenValidateBasic : MsgIssueToken → Option ForeignError

/-- `MsgSubmitProposal`. -/
structure MsgSubmitProposal where
  Title : String
  Description : String
  ProposalType : ProposalKind
  Proposer : Oracle.AccAddress
  InitialDeposit : Oracle.Coins
  Params : Params
  deriving DecidableEq, Repr

/-- `MsgSubmitSoftwareUpgradeProposal`, which embeds a `MsgSubmitProposal`. -/
structure MsgSubmitSoftwareUpgradeProposal where
  MsgSubmitProposal : MsgSubmitProposal
  Version : Nat
  Software : String
  SwitchHeight : Nat
  Threshold : Dec
  deriving DecidableEq, Repr

/-- `MsgSubmitTxTaxUsageProposal`, which embeds a `MsgSubmitProposal`. -/
structure MsgSubmitTxTaxUsageProposal where
  MsgSubmitProposal : MsgSubmitProposal
  Usage : UsageType
  DestAddress : Oracle.AccAddress
  Percent : Dec
  deriving DecidableEq, Repr

/-- `MsgSubmitAddTokenProposal`, which embeds a `MsgSubmitProposal`. -/
structure MsgSubmitAddTokenProposal where
  MsgSubmitProposal : MsgSubmitProposal
  Symbol : String
  SymbolAtSource : String
  Name : String
  Decimal : Nat
  SymbolMinAlias : String
  InitialSupply : Nat
  deriving DecidableEq, Repr

/-- A Go result of type `sdk.Error`: `none` is `nil`. -/
abbrev ErrorResult := Option Error

/-- `MsgDeposit`; `ProposalID` is a `uint64`. -/
structure MsgDeposit where
  ProposalID : Nat
  Depositor : Oracle.AccAddress
  Amount : Oracle.Coins
  deriving DecidableEq, Repr

/-- `MsgVote`; `ProposalID` is a `uint64`. -/
structure MsgVote where
  ProposalID : Nat
  Voter : Oracle.AccAddress
  Option : VoteOption
  deriving DecidableEq, Repr

/-- The result of a Go call that may dereference a nil error: it returns an `sdk.Error`
(`none` is `nil`) or stops with a nil-pointer panic. -/
inductive Outcome where
  | returned (err : Option Error)
  | nilDereference
  deriving DecidableEq, Repr

/-! ## Governance messages: validation -/

/-- The length `len(s)` of a Go string, in bytes. -/
def len (s : String) : Nat := s.utf8ByteSize

/-- `MsgSubmitProposal.EnsureLength`. -/
def MsgSubmitProposal.EnsureLength (env : Env) (msg : MsgSubmitProposal) : Option Error :=
  if len msg.Title > 70 then
    some (Error.ErrInvalidLength env.DefaultCodespace env.CodeInvalidProposal "title"
      (len msg.Title) 70)
  else if len msg.Description > 280 then
    some (Error.ErrInvalidLength env.DefaultCodespace env.CodeInvalidProposal "description"
      (len msg.Description) 280)
  else none

/-- `MsgSubmitProposal.ValidateBasic`. -/
def MsgSubmitProposal.ValidateBasic (env : Env) (msg : MsgSubmitProposal) : Option Error :=
  if len msg.Title = 0 then
    some (Error.ErrInvalidTitle env.DefaultCodespace msg.Title)
  else if len msg.Description = 0 then
    some (Error.ErrInvalidDescription env.DefaultCodespace msg.Description)
  else if !env.ValidProposalType msg.ProposalType then
    some (Error.ErrInvalidProposalType env.DefaultCodespace msg.ProposalType)
  else if msg.Proposer.length = 0 then
    some (Error.ErrInvalidAddress msg.Proposer)
  else if !env.IsValid msg.InitialDeposit then
    some (Error.ErrInvalidCoins msg.InitialDeposit)
  else if !env.IsNotNegative msg.InitialDeposit then
    some (Error.ErrInvalidCoins msg.InitialDeposit)
  else
    match msg.EnsureLength env with
    | some err => some err
    | none =>
      if msg.ProposalType = env.ProposalTypeParameterChange then
        if msg.Params.length = 0 then some (Error.ErrEmptyParam env.DefaultCodespace)
        else if msg.Params.length > 1 then some (Error.ErrInvalidParamNum env.DefaultCodespace)
        else none
      else none

/-- `MsgSubmitSoftwareUpgradeProposal.ValidateBasic`. -/
def MsgSubmitSoftwareUpgradeProposal.ValidateBasic (env : Env)
    (msg : MsgSubmitSoftwareUpgradeProposal) : Option Error :=
  match msg.MsgSubmitProposal.ValidateBasic env with
  | some err => some err
  | none =>
    if len msg.Software > 70 then
      some (Error.ErrInvalidLength env.DefaultCodespace env.CodeInvalidProposal "software"
        (len msg.Software) 70)
    else if msg.Threshold.LT (NewDecWithPrec 80 2) || msg.Threshold.GTE (NewDec 1) then
      some (Error.ErrInvalidUpgradeThreshold env.DefaultCodespace msg.Threshold)
    else none

/-- `MsgSubmitTxTaxUsageProposal.ValidateBasic`. -/
def MsgSubmitTxTaxUsageProposal.ValidateBasic (env : Env)
    (msg : MsgSubmitTxTaxUsageProposal) : Option Error :=
  match msg.MsgSubmitProposal.ValidateBasic env with
  | some err => some err
  | none =>
    if !env.ValidUsageType msg.Usage then
      some (Error.ErrInvalidUsageType env.DefaultCodespace msg.Usage)
    else if msg.Usage ≠ env.UsageTypeBurn ∧ msg.DestAddress.length = 0 then
      some (Error.ErrInvalidAddress msg.DestAddress)
    else if msg.Percent.LTE (NewDec 0) || msg.Percent.GT (NewDec 1) then
      some (Error.ErrInvalidPercent env.DefaultCodespace msg.Percent)
    else none

/-- The message that `MsgSubmitAddTokenProposal.ValidateBasic` hands to the asset package. -/
def MsgSubmitAddTokenProposal.issueToken (env : Env) (msg : MsgSubmitAddTokenProposal) :
    MsgIssueToken :=
  { Family := AssetFamily.FUNGIBLE
    Source := AssetSource.EXTERNAL
    Gateway := ""
    Symbol := msg.Symbol
    SymbolAtSource := msg.SymbolAtSource
    Name := msg.Name
    Decimal := msg.Decimal
    SymbolMinAlias := msg.SymbolMinAlias
    InitialSupply := msg.InitialSupply
    MaxSupply := env.MaximumAssetMaxSupply
    Mintable := false
    Owner := [] }

/-- `MsgSubmitAddTokenProposal.ValidateBasic`. The call `err.Code()` is made without a nil
check, so a nil result of the issue-token validation ends in a nil dereference. -/
def MsgSubmitAddTokenProposal.ValidateBasic (env : Env) (msg : MsgSubmitAddTokenProposal) :
    Outcome :=
  match msg.MsgSubmitProposal.ValidateBasic env with
  | some err => Outcome.returned (some err)
  | none =>
    match env.issueTokenValidateBasic (msg.issueToken env) with
    | none => Outcome.nilDereference
    | some err =>
      if err.code = env.CodeInvalidAssetSource then Outcome.returned none
      else Outcome.returned (some (Error.foreign err))

/-- `MsgDeposit.ValidateBasic`. -/
def MsgDeposit.ValidateBasic (env : Env) (msg : MsgDeposit) : Option Error :=
  if msg.Depositor.length = 0 then
    some (Error.ErrInvalidAddress msg.Depositor)
  else if !env.IsValid msg.Amount then
    some (Error.ErrInvalidCoins msg.Amount)
  else if !env.IsNotNegative msg.Amount then
    some (Error.ErrInvalidCoins msg.Amount)
  else if msg.ProposalID < 0 then
    some (Error.ErrUnknownProposal env.DefaultCodespace msg.ProposalID)
  else none

/-- `MsgVote.ValidateBasic`. -/
def MsgVote.ValidateBasic (env : Env) (msg : MsgVote) : ErrorResult :=
  if msg.Voter.length = 0 then
    some (Error.ErrInvalidAddress msg.Voter)
  else if msg.ProposalID < 0 then
    some (Error.ErrUnknownProposal env.DefaultCodespace msg.ProposalID)
  else if !env.ValidVoteOption msg.Option then
    some (Error.ErrInvalidVote env.DefaultCodespace msg.Option)
  else none

/-- Returns the error of the first check that fails, in the order of the list. -/
def firstFailing : List (Bool × Error) → Option Error
  | [] => none
  | (failed, err) :: rest => if failed then some err else firstFailing rest

/-- The checks of `MsgSubmitProposal.ValidateBasic` in the order "title between 1 and 70 bytes,
description between 1 and 280 bytes, proposal type, proposer, initial deposit, parameters", the
first failing check deciding the error. -/
def MsgSubmitProposal.ValidateBasic_inListedOrder (env : Env) (msg : MsgSubmitProposal) :
    Option Error :=
  firstFailing
    [(decide (len msg.Title = 0), Error.ErrInvalidTitle env.DefaultCodespace msg.Title),
     (decide (len msg.Title > 70),
        Error.ErrInvalidLength env.DefaultCodespace env.CodeInvalidProposal "title"
          (len msg.Title) 70),
     (decide (len msg.Description = 0),
        Error.ErrInvalidDescription env.DefaultCodespace msg.Description),
     (decide (len msg.Description > 280),
        Error.ErrInvalidLength env.DefaultCodespace env.CodeInvalidProposal "description"
          (len msg.Description) 280),
     (!env.ValidProposalType msg.ProposalType,
        Error.ErrInvalidProposalType env.DefaultCodespace msg.ProposalType),
     (decide (msg.Proposer.length = 0), Error.ErrInvalidAddress msg.Proposer),
     (!env.IsValid msg.InitialDeposit, Error.ErrInvalidCoins msg.InitialDeposit),
     (!env.IsNotNegative msg.InitialDeposit, Error.ErrInvalidCoins msg.InitialDeposit),
     (decide (msg.ProposalType = env.ProposalTypeParameterChange ∧ msg.Params.length = 0),
        Error.ErrEmptyParam env.DefaultCodespace),
     (decide (msg.ProposalType = env.ProposalTypeParameterChange ∧ msg.Params.length > 1),
        Error.ErrInvalidParamNum env.DefaultCodespace)]

/-! ## Governance messages: an instance of the environment and sample messages -/

/-- Whether the denominations of a coin set strictly increase. -/
def denomsIncrease : Oracle.Coins → Bool
  | [] => true
  | [_] => true
  | c :: d :: rest => decide (c.1 < d.1) && denomsIncrease (d :: rest)

/-- An instance of the environment. A coin set is valid when its denominations strictly
increase and no amount is zero, and not negative when no amount is below zero; the proposal
kinds are 1 to 6 with 1 the parameter change, the usage types 1 to 3 with 1 the burn, the vote
options 1 to 4; the issue-token validation rejects an empty symbol and otherwise the external
source. -/
def sampleEnv : Env :=
  { DefaultCodespace := "gov"
    CodeInvalidProposal := 8
    ProposalTypeParameterChange := 1
    ValidProposalType := fun pt => decide (1 ≤ pt ∧ pt ≤ 6)
    UsageTypeBurn := 1
    ValidUsageType := fun u => decide (1 ≤ u ∧ u ≤ 3)
    ValidVoteOption := fun o => decide (1 ≤ o ∧ o ≤ 4)
    IsValid := fun coins => denomsIncrease coins && coins.all (fun c => decide (c.2 ≠ 0))
    IsNotNegative := fun coins => coins.all (fun c => decide (0 ≤ c.2))
    CodeInvalidAssetSource := 103
    MaximumAssetMaxSupply := 1000000000000
    issueTokenValidateBasic := fun m =>
      if m.Symbol = "" then some { codespace := "asset", code := 110, log := "invalid symbol" }
      else some { codespace := "asset", code := 103, log := "invalid source" } }

/-- A plain-text proposal (kind 2) by the proposer `[1]` with the given title and deposit. -/
def sampleProposal (title : String) (proposalType : ProposalKind) (deposit : Oracle.Coins) :
    MsgSubmitProposal :=
  { Title := title
    Description := "a description"
    ProposalType := proposalType
    Proposer := [1]
    InitialDeposit := deposit
    Params := [] }

/-- A title of 71 bytes. -/
def longTitle : String := String.mk (List.replicate 71 'a')

end Gov

namespace Service

/-! ## The service module: binding registry, request-context engine and fee settlement

The sources of the service module are not at hand; the definitions of this part are modelled
from the specification (§3 data model, §4.1 binding registry, §4.2 request-context engine,
§4.3 response and fee settlement) and from what the command-line test of the module
(`tests/cli/service_test.go`) shows of it. Amounts are numbers of base units of one
denomination, times are block heights (§5: scheduling is purely height-driven). The callback
dispatch (§4.4) acts on the store of the owning module and is left out. A message that fails
leaves no state behind (§5), so an operation returns either an error or the next state. -/

/-- Modelled from the spec: the batch sub-state, BatchState ∈ {BatchRunning,
BatchCompleted}. -/
inductive BatchState where
  | BatchRunning
  | BatchCompleted
  deriving DecidableEq, Repr

/-- Modelled from the spec: what `UpdateBinding` does with an update that would leave the
deposit of an available binding below the minimum for its pricing. The spec names no outcome
for this case and leaves it open: the update is rejected with `InsufficientDeposit`, or it is
accepted and the binding is unavailable without having been disabled, or it is accepted and the
binding is disabled. -/
inductive ShortDeposit where
  | rejected
  | unavailable
  | disabled
  deriving DecidableEq, Repr

/-- Modelled from the spec: the module parameters, "injected configuration" (§9): the global
min-deposit multiplier, the cool-down of `RefundDeposit` in blocks and the number of missed
responses at which a binding is disabled. With them come the two choices that the module needs
and the spec leaves open: the batch state with which a context is stored before its first
batch, and the outcome of an update that leaves a deposit short. -/
structure Params where
  MinDepositMultiple : Nat
  RefundCooldown : Nat
  MaxMisses : Nat
  DormantBatchState : BatchState
  ShortDeposit : ShortDeposit
  deriving DecidableEq, Repr

/-- Modelled from the spec: `ServiceBinding`, keyed by (service name, provider): deposit,
pricing (the declared price), withdraw address, availability flag and disabled-timestamp (zero
while available), with the count of missed responses that the penalty policy needs. -/
structure ServiceBinding where
  ServiceName : String
  Provider : Oracle.AccAddress
  Deposit : Nat
  Pricing : Nat
  WithdrawAddress : Oracle.AccAddress
  Available : Bool
  DisabledTime : Nat
  Misses : Nat
  deriving DecidableEq, Repr

/-- Modelled from the spec: `CompactRequest`, one outstanding obligation of one provider within
one batch, identified inside its context by batch counter and provider index, with the fee
actually charged, the expiration height and the super-mode flag; `Expired` is the mark set by
the per-block tick ("mark it expired"). -/
structure CompactRequest where
  BatchCounter : Nat
  ProviderIndex : Nat
  Provider : Oracle.AccAddress
  Consumer : Oracle.AccAddress
  Input : String
  ServiceFee : Nat
  ExpirationHeight : Nat
  SuperMode : Bool
  Expired : Bool
  deriving DecidableEq, Repr

/-- Modelled from the spec: `RequestContext`, with its spec, schedule and progress fields, the
start height of its current batch (from which the next batch is scheduled) and the requests of
its current batch that have not been answered (requests are keyed under their context ID). An
answered request is deleted. An expired request is marked: it is no longer pending and cannot
be answered; where the spec deletes it with its batch, the mark is kept here until the next
batch replaces the requests, so that the state shows which requests of a completed batch went
unanswered. -/
structure RequestContext where
  ServiceName : String
  Providers : List Oracle.AccAddress
  Consumer : Oracle.AccAddress
  Input : String
  ServiceFeeCap : Nat
  Timeout : Nat
  SuperMode : Bool
  ModuleName : String
  ResponseThreshold : Nat
  Repeated : Bool
  RepeatedFrequency : Nat
  RepeatedTotal : Int
  BatchCounter : Nat
  BatchRequestCount : Nat
  BatchResponseCount : Nat
  BatchState : BatchState
  State : Oracle.RequestContextState
  BatchStartHeight : Nat
  Requests : List CompactRequest
  deriving DecidableEq, Repr

/-- Modelled from the spec: the payload of a response, an output or an error string,
"mutually exclusive — exactly one populated". -/
inductive Payload where
  | output (data : String)
  | error (reason : String)
  deriving DecidableEq, Repr

/-- Modelled from the spec: `Response`, the append-only record of an answer. -/
structure Response where
  RequestContextID : Nat
  BatchCounter : Nat
  ProviderIndex : Nat
  Provider : Oracle.AccAddress
  Consumer : Oracle.AccAddress
  Payload : Payload
  deriving DecidableEq, Repr

/-- Modelled from the spec: `ServiceFees`, the accumulator of an account: `IncomingFee`
(earned by answering, pending withdrawal) and `ReturnedFee` (returned to a consumer whose
request went unanswered). -/
structure ServiceFees where
  IncomingFee : Nat
  ReturnedFee : Nat
  deriving DecidableEq, Repr

/-- Modelled from the spec: the errors named in §4 and §7. -/
inductive Error where
  | DuplicateService
  | UnknownService
  | InsufficientDeposit
  | DuplicateBinding
  | UnknownBinding
  | InsufficientBalance
  | AlreadyDisabled
  | AlreadyAvailable
  | StillAvailable
  | CooldownNotElapsed
  | InvalidProviders
  | InvalidFrequency
  | InvalidThreshold
  | InsufficientProviders
  | UnknownContext
  | InvalidState
  | UpdateNotPermitted
  | UnknownRequest
  deriving DecidableEq, Repr

/-- Modelled from the spec: the state of the service module in the ledger store, with the
balances and the module escrow of the bank and the current block height. -/
structure State where
  params : Params
  height : Nat
  services : List String
  bindings : List ServiceBinding
  contexts : List (Nat × RequestContext)
  nextID : Nat
  responses : List Response
  fees : List (Oracle.AccAddress × ServiceFees)
  balances : List (Oracle.AccAddress × Nat)
  escrow : Nat
  deriving DecidableEq, Repr

/-- Modelled from the spec: the state before the first block, at height 1, with no service,
binding, request context or fee. -/
def genesis (params : Params) (balances : List (Oracle.AccAddress × Nat)) : State :=
  { params := params, height := 1, services := [], bindings := [], contexts := [], nextID := 0,
    responses := [], fees := [], balances := balances, escrow := 0 }

/-! ### The bank -/

/-- Modelled from the spec: the balance of an account in the bank. -/
def balanceOf (balances : List (Oracle.AccAddress × Nat)) (addr : Oracle.AccAddress) : Nat :=
  match balances.find? (fun e => decide (e.1 = addr)) with
  | some e => e.2
  | none => 0

/-- Modelled from the spec: the bank sets the balance of an account. -/
def setBalance (balances : List (Oracle.AccAddress × Nat)) (addr : Oracle.AccAddress)
    (amount : Nat) : List (Oracle.AccAddress × Nat) :=
  (addr, amount) :: balances.filter (fun e => decide (e.1 ≠ addr))

/-- Modelled from the spec: the bank moves an amount from an account into the module escrow;
the caller has checked the balance. -/
def toEscrow (s : State) (addr : Oracle.AccAddress) (amount : Nat) : State :=
  { s with balances := setBalance s.balances addr (balanceOf s.balances addr - amount)
           escrow := s.escrow + amount }

/-- Modelled from the spec: the bank moves an amount from the module escrow to an account. -/
def fromEscrow (s : State) (addr : Oracle.AccAddress) (amount : Nat) : State :=
  { s with balances := setBalance s.balances addr (balanceOf s.balances addr + amount)
           escrow := s.escrow - amount }

/-! ### The fee accumulators (§3, §4.3) -/

/-- Modelled from the spec: the `ServiceFees` accumulator of an account, zero when none is
stored. -/
def feesOf (fees : List (Oracle.AccAddress × ServiceFees)) (addr : Oracle.AccAddress) :
    ServiceFees :=
  match fees.find? (fun e => decide (e.1 = addr)) with
  | some e => e.2
  | none => { IncomingFee := 0, ReturnedFee := 0 }

/-- Modelled from the spec: the write of the accumulator of an account. -/
def setFees (fees : List (Oracle.AccAddress × ServiceFees)) (addr : Oracle.AccAddress)
    (f : ServiceFees) : List (Oracle.AccAddress × ServiceFees) :=
  (addr, f) :: fees.filter (fun e => decide (e.1 ≠ addr))

/-- Modelled from the spec: "`IncomingFee` += charged fee" for the provider of an answered
request. -/
def addIncomingFee (fees : List (Oracle.AccAddress × ServiceFees)) (provider : Oracle.AccAddress)
    (amount : Nat) : List (Oracle.AccAddress × ServiceFees) :=
  setFees fees provider
    { IncomingFee := (feesOf fees provider).IncomingFee + amount
      ReturnedFee := (feesOf fees provider).ReturnedFee }

/-- Modelled from the spec: the escrowed fee of an unanswered request "moves to the consumer's
`ReturnedFee`". -/
def addReturnedFee (fees : List (Oracle.AccAddress × ServiceFees)) (consumer : Oracle.AccAddress)
    (amount : Nat) : List (Oracle.AccAddress × ServiceFees) :=
  setFees fees consumer
    { IncomingFee := (feesOf fees consumer).IncomingFee
      ReturnedFee := (feesOf fees consumer).ReturnedFee + amount }

/-- Modelled from the spec: `WithdrawFees(provider)`, the "atomic transfer from the
`ServiceFees` accumulator to the real account balance; zero balance after is not an error". -/
def WithdrawFees (s : State) (provider : Oracle.AccAddress) : Except Error State :=
  Except.ok
    { fromEscrow s provider (feesOf s.fees provider).IncomingFee with
      fees := setFees s.fees provider
        { IncomingFee := 0, ReturnedFee := (feesOf s.fees provider).ReturnedFee } }

/-- Modelled from the spec: `RefundFees(consumer)`, the transfer of the returned fees of a
consumer to its account. -/
def RefundFees (s : State) (consumer : Oracle.AccAddress) : Except Error State :=
  Except.ok
    { fromEscrow s consumer (feesOf s.fees consumer).ReturnedFee with
      fees := setFees s.fees consumer
        { IncomingFee := (feesOf s.fees consumer).IncomingFee, ReturnedFee := 0 } }

/-! ### The binding registry (§4.1) -/

/-- Modelled from the spec: the minimum required deposit, "a function of pricing and a global
min-deposit multiplier". -/
def minDeposit (params : Params) (pricing : Nat) : Nat :=
  params.MinDepositMultiple * pricing

/-- Modelled from the spec: the lookup of a binding by its key (service name, provider). -/
def getBinding (bindings : List ServiceBinding) (service : String)
    (provider : Oracle.AccAddress) : Option ServiceBinding :=
  bindings.find? (fun b => decide (b.ServiceName = service) && decide (b.Provider = provider))

/-- Modelled from the spec: the write of a binding under its key (service name, provider). -/
def setBinding (bindings : List ServiceBinding) (b : ServiceBinding) : List ServiceBinding :=
  bindings.map (fun b0 =>
    if b0.ServiceName = b.ServiceName ∧ b0.Provider = b.Provider then b else b0)

/-- Modelled from the spec: `Define(name, …)` fails with `DuplicateService` if the name
exists. -/
def Define (s : State) (name : String) : Except Error State :=
  if name ∈ s.services then Except.error Error.DuplicateService
  else Except.ok { s with services := s.services ++ [name] }

/-- Modelled from the spec: `Bind(service, provider, deposit, pricing)` fails with
`UnknownService`, `InsufficientDeposit` (deposit below the pricing-derived minimum) or
`DuplicateBinding`; the deposit moves into the module escrow and the new binding is available,
with the provider as withdraw address. -/
def Bind (s : State) (service : String) (provider : Oracle.AccAddress) (deposit pricing : Nat) :
    Except Error State :=
  if service ∉ s.services then Except.error Error.UnknownService
  else if deposit < minDeposit s.params pricing then Except.error Error.InsufficientDeposit
  else if (getBinding s.bindings service provider).isSome then
    Except.error Error.DuplicateBinding
  else if balanceOf s.balances provider < deposit then Except.error Error.InsufficientBalance
  else
    Except.ok
      { toEscrow s provider deposit with
        bindings := s.bindings ++
          [{ ServiceName := service, Provider := provider, Deposit := deposit,
             Pricing := pricing, WithdrawAddress := provider, Available := true,
             DisabledTime := 0, Misses := 0 }] }

/-- Modelled from the spec: `UpdateBinding(service, provider, Δdeposit, pricing?)` adds to the
deposit, replaces the pricing when one is given and recomputes availability as
"deposit ≥ minimum and not disabled"; a binding that was unavailable only for its deposit
becomes available again. For an update that would leave the deposit of an available binding
below the minimum the spec names no outcome: the parameter `ShortDeposit` has it rejected with
`InsufficientDeposit`, or accepted with the recomputed flag, or accepted with the binding
disabled at the current height. -/
def UpdateBinding (s : State) (service : String) (provider : Oracle.AccAddress) (added : Nat)
    (pricing : Option Nat) : Except Error State :=
  match getBinding s.bindings service provider with
  | none => Except.error Error.UnknownBinding
  | some b =>
    if balanceOf s.balances provider < added then Except.error Error.InsufficientBalance
    else if b.Available = true ∧
        b.Deposit + added < minDeposit s.params (pricing.getD b.Pricing) ∧
        s.params.ShortDeposit = ShortDeposit.rejected then
      Except.error Error.InsufficientDeposit
    else if b.Available = true ∧
        b.Deposit + added < minDeposit s.params (pricing.getD b.Pricing) ∧
        s.params.ShortDeposit = ShortDeposit.disabled then
      Except.ok
        { toEscrow s provider added with
          bindings := setBinding s.bindings
            ({ b with
              Deposit := b.Deposit + added
              Pricing := pricing.getD b.Pricing
              Available := false
              DisabledTime := s.height }) }
    else
      Except.ok
        { toEscrow s provider added with
          bindings := setBinding s.bindings
            ({ b with
              Deposit := b.Deposit + added
              Pricing := pricing.getD b.Pricing
              Available :=
                decide (minDeposit s.params (pricing.getD b.Pricing) ≤ b.Deposit + added)
                  && decide (b.DisabledTime = 0) }) }

/-- Modelled from the spec: the withdraw address "defaults to provider, may be redirected". -/
def SetWithdrawAddress (s : State) (service : String) (provider withdraw : Oracle.AccAddress) :
    Except Error State :=
  match getBinding s.bindings service provider with
  | none => Except.error Error.UnknownBinding
  | some b =>
    Except.ok
      { s with bindings := setBinding s.bindings ({ b with WithdrawAddress := withdraw }) }

/-- Modelled from the spec: `Disable` makes the binding unavailable and stamps it with the
time of disablement; disabling a disabled binding is an error. -/
def Disable (s : State) (service : String) (provider : Oracle.AccAddress) : Except Error State :=
  match getBinding s.bindings service provider with
  | none => Except.error Error.UnknownBinding
  | some b =>
    if b.DisabledTime ≠ 0 then Except.error Error.AlreadyDisabled
    else
      Except.ok
        { s with
          bindings :=
            setBinding s.bindings ({ b with Available := false, DisabledTime := s.height }) }

/-- Modelled from the spec: `Enable` "requires restoring the deposit to at least the minimum":
the amount supplied is added to the deposit, the binding becomes available and its
disabled-timestamp zero; enabling an available binding is an error. -/
def Enable (s : State) (service : String) (provider : Oracle.AccAddress) (added : Nat) :
    Except Error State :=
  match getBinding s.bindings service provider with
  | none => Except.error Error.UnknownBinding
  | some b =>
    if b.Available = true then Except.error Error.AlreadyAvailable
    else if b.Deposit + added < minDeposit s.params b.Pricing then
      Except.error Error.InsufficientDeposit
    else if balanceOf s.balances provider < added then Except.error Error.InsufficientBalance
    else
      Except.ok
        { toEscrow s provider added with
          bindings := setBinding s.bindings
            ({ b with Deposit := b.Deposit + added, Available := true, DisabledTime := 0 }) }

/-- Modelled from the spec: `RefundDeposit` "fails with `StillAvailable` if not disabled, or
`CooldownNotElapsed` if fewer than a fixed number of blocks have passed since disablement; on
success it zeroes the deposit and transfers it from escrow to the withdraw address". -/
def RefundDeposit (s : State) (service : String) (provider : Oracle.AccAddress) :
    Except Error State :=
  match getBinding s.bindings service provider with
  | none => Except.error Error.UnknownBinding
  | some b =>
    if b.DisabledTime = 0 then Except.error Error.StillAvailable
    else if s.height - b.DisabledTime < s.params.RefundCooldown then
      Except.error Error.CooldownNotElapsed
    else
      Except.ok
        { fromEscrow s b.WithdrawAddress b.Deposit with
          bindings := setBinding s.bindings ({ b with Deposit := 0 }) }

/-- Modelled from the spec: the missed-response penalty of a provider, "auto-disable on
repeated misses — policy threshold is a module parameter". -/
def penalize (params : Params) (height : Nat) (service : String) (provider : Oracle.AccAddress)
    (bindings : List ServiceBinding) : List ServiceBinding :=
  bindings.map (fun b =>
    if b.ServiceName = service ∧ b.Provider = provider then
      if b.Available = true ∧ params.MaxMisses ≤ b.Misses + 1 then
        { b with Misses := b.Misses + 1, Available := false, DisabledTime := height }
      else { b with Misses := b.Misses + 1 }
    else b)

/-! ### The request-context engine (§4.2, §4.3) -/

/-- Modelled from the spec: the lookup of a request context by its ID. -/
def getContext (contexts : List (Nat × RequestContext)) (id : Nat) : Option RequestContext :=
  (contexts.find? (fun e => decide (e.1 = id))).map (fun e => e.2)

/-- Modelled from the spec: an update of every stored request context, keeping the IDs. -/
def mapContexts (f : Nat → RequestContext → RequestContext)
    (contexts : List (Nat × RequestContext)) : List (Nat × RequestContext) :=
  contexts.map (fun e => (e.1, f e.1 e.2))

/-- Modelled from the spec: the write of a request context under its ID. -/
def setContext (contexts : List (Nat × RequestContext)) (id : Nat) (c : RequestContext) :
    List (Nat × RequestContext) :=
  mapContexts (fun i c0 => if i = id then c else c0) contexts

/-- Modelled from the spec: the fee charged for one request,
"charge = min(feeCap, provider's declared price) unless super-mode", in which the consumer is
exempt from the fee. -/
def charge (superMode : Bool) (feeCap price : Nat) : Nat :=
  if superMode = true then 0 else min feeCap price

/-- Modelled from the spec: the selection of the batch build, the candidate providers (with
their indices and declared prices) whose binding exists and is available. -/
def selectProviders (bindings : List ServiceBinding) (service : String) :
    Nat → List Oracle.AccAddress → List (Nat × Oracle.AccAddress × Nat)
  | _, [] => []
  | i, p :: ps =>
    match getBinding bindings service p with
    | some b =>
      if b.Available = true then
        (i, p, b.Pricing) :: selectProviders bindings service (i + 1) ps
      else selectProviders bindings service (i + 1) ps
    | none => selectProviders bindings service (i + 1) ps

/-- Modelled from the spec: the requests and counters of a new batch. Providers whose binding
is missing or unavailable are skipped; with no eligible provider, or fewer than the threshold,
there is no batch (`InsufficientProviders`, here `none`). Otherwise one request per selected
provider is created with its charge and expiration = current height + timeout, `BatchCounter`
is incremented, the counts are reset to (n, 0) and `BatchState` is `BatchRunning`. -/
def newBatch (bindings : List ServiceBinding) (height : Nat) (c : RequestContext) :
    Option RequestContext :=
  let selected := selectProviders bindings c.ServiceName 0 c.Providers
  if selected.length = 0 ∨ selected.length < c.ResponseThreshold then none
  else
    some
      { c with
        BatchCounter := c.BatchCounter + 1
        BatchRequestCount := selected.length
        BatchResponseCount := 0
        BatchState := BatchState.BatchRunning
        BatchStartHeight := height
        Requests := selected.map (fun ipf =>
          { BatchCounter := c.BatchCounter + 1
            ProviderIndex := ipf.1
            Provider := ipf.2.1
            Consumer := c.Consumer
            Input := c.Input
            ServiceFee := charge c.SuperMode c.ServiceFeeCap ipf.2.2
            ExpirationHeight := height + c.Timeout
            SuperMode := c.SuperMode
            Expired := false }) }

/-- The sum of the fees charged for the requests of a context. -/
def batchFee (c : RequestContext) : Nat :=
  (c.Requests.map (fun r => r.ServiceFee)).sum

/-- Modelled from the spec: the batch build, "triggered on creation/resume/repeat-tick": the
new batch of `newBatch`, with the charge of each of its requests debited from the consumer into
escrow; a batch that the consumer cannot pay fails with the resource error "insufficient
balance for fee" (§7) and debits nothing. -/
def buildBatch (s : State) (c : RequestContext) : Except Error (RequestContext × State) :=
  match newBatch s.bindings s.height c with
  | none => Except.error Error.InsufficientProviders
  | some c1 =>
    if balanceOf s.balances c.Consumer < batchFee c1 then
      Except.error Error.InsufficientBalance
    else Except.ok (c1, toEscrow s c.Consumer (batchFee c1))

/-- Modelled from the spec: the finalisation of a batch. The batch is marked completed and the
finite remaining-run count is decremented ("decremented each batch": the test of the module
still reads the full count while batch 1 runs); "if `Repeated` and runs remain (or unbounded)
and `State = Running`" the context stays running for the next batch, "else set
`State = Completed`". -/
def finalize (c : RequestContext) : RequestContext :=
  { c with
    BatchState := BatchState.BatchCompleted
    RepeatedTotal := if 0 < c.RepeatedTotal then c.RepeatedTotal - 1 else c.RepeatedTotal
    State :=
      if c.Repeated = true ∧
          (if 0 < c.RepeatedTotal then c.RepeatedTotal - 1 else c.RepeatedTotal) ≠ 0 ∧
          c.State = Oracle.RequestContextState.Running
      then Oracle.RequestContextState.Running
      else Oracle.RequestContextState.Completed }

/-- Modelled from the spec: a running batch is finalised "when all requests in a batch are
finalized (responded or expired)" (§2): when `BatchResponseCount` reaches `BatchRequestCount`,
or when every request that is still unanswered has expired. An expired request does not count
as a response (§8: one response and one expiry give `BatchResponseCount = 1`), and the
response threshold, which §4.2 joins to the second case, decides whether the completed batch is
sufficient for the callback, not whether it completes. A context without batch has nothing to
finalise. -/
def settle (c : RequestContext) : RequestContext :=
  if c.BatchCounter ≠ 0 ∧ c.BatchState = BatchState.BatchRunning ∧
      (c.BatchResponseCount = c.BatchRequestCount ∨
        c.Requests.all (fun r => r.Expired) = true) then
    finalize c
  else c

/-- Modelled from the spec: the arguments of `CreateRequestContext`, in the order of §4.2,
followed by the super-mode flag that the stored context shows (`requestContext.SuperMode` in
the test of the module). -/
structure CreateArgs where
  service : String
  providers : List Oracle.AccAddress
  consumer : Oracle.AccAddress
  input : String
  feeCap : Nat
  timeout : Nat
  repeated : Bool
  frequency : Nat
  total : Int
  initialState : Oracle.RequestContextState
  threshold : Nat
  moduleName : String
  superMode : Bool
  deriving DecidableEq, Repr

/-- Modelled from the spec: the context of `CreateRequestContext` before any batch, dormant
with `BatchCounter = 0`, no request and zero counts. The spec leaves the batch state of a
context without batch open: it is the parameter `idle`. -/
def dormantContext (idle : BatchState) (args : CreateArgs) : RequestContext :=
  { ServiceName := args.service
    Providers := args.providers
    Consumer := args.consumer
    Input := args.input
    ServiceFeeCap := args.feeCap
    Timeout := args.timeout
    SuperMode := args.superMode
    ModuleName := args.moduleName
    ResponseThreshold := args.threshold
    Repeated := args.repeated
    RepeatedFrequency := args.frequency
    RepeatedTotal := args.total
    BatchCounter := 0
    BatchRequestCount := 0
    BatchResponseCount := 0
    BatchState := idle
    State := args.initialState
    BatchStartHeight := 0
    Requests := [] }

/-- Modelled from the spec: `CreateRequestContext` "validates service exists, providers are
non-empty, frequency ≥ timeout when repeated, threshold ≤ len(providers); allocates a fresh ID;
if `initialState = Running` immediately builds batch 1, else leaves the context dormant with
`BatchCounter = 0`". When the build of batch 1 fails, the message fails with the error of the
build and leaves no context behind (§5). -/
def CreateRequestContext (s : State) (args : CreateArgs) : Except Error (Nat × State) :=
  if args.service ∉ s.services then Except.error Error.UnknownService
  else if args.providers = [] then Except.error Error.InvalidProviders
  else if args.repeated = true ∧ args.frequency < args.timeout then
    Except.error Error.InvalidFrequency
  else if args.providers.length < args.threshold then Except.error Error.InvalidThreshold
  else if args.initialState = Oracle.RequestContextState.Running then
    match buildBatch s (dormantContext s.params.DormantBatchState args) with
    | Except.error e => Except.error e
    | Except.ok (c, s1) =>
      Except.ok (s.nextID,
        { s1 with contexts := (s.nextID, c) :: s.contexts, nextID := s.nextID + 1 })
  else
    Except.ok (s.nextID,
      { s with
        contexts := (s.nextID, dormantContext s.params.DormantBatchState args) :: s.contexts
        nextID := s.nextID + 1 })

/-- Modelled from the spec: `PauseRequestContext`; pausing a context that is not running (an
already-paused context, §7) is a state error. -/
def PauseRequestContext (s : State) (id : Nat) : Except Error State :=
  match getContext s.contexts id with
  | none => Except.error Error.UnknownContext
  | some c =>
    if c.State ≠ Oracle.RequestContextState.Running then Except.error Error.InvalidState
    else
      Except.ok
        { s with
          contexts :=
            setContext s.contexts id ({ c with State := Oracle.RequestContextState.Paused }) }

/-- Modelled from the spec: `StartRequestContext`; only a paused context can be resumed
("calling twice is an error", a completed context is not re-opened). The resume triggers a
batch build when no batch of the context is running; when that build fails, the message fails
with the error of the build. -/
def StartRequestContext (s : State) (id : Nat) : Except Error State :=
  match getContext s.contexts id with
  | none => Except.error Error.UnknownContext
  | some c =>
    if c.State ≠ Oracle.RequestContextState.Paused then Except.error Error.InvalidState
    else if c.BatchCounter = 0 ∨ c.BatchState = BatchState.BatchCompleted then
      match buildBatch s ({ c with State := Oracle.RequestContextState.Running }) with
      | Except.error e => Except.error e
      | Except.ok (c1, s1) => Except.ok { s1 with contexts := setContext s.contexts id c1 }
    else
      Except.ok
        { s with
          contexts :=
            setContext s.contexts id ({ c with State := Oracle.RequestContextState.Running }) }

/-- Modelled from the spec: `UpdateRequestContext(contextID, providers, feeCap, frequency,
total)`, "permitted only on a context whose current batch is not actively running half-through
responses"; a completed context is read-only; an empty or zero argument leaves the parameter as
it is, and the changes apply from the next batch build. -/
def UpdateRequestContext (s : State) (id : Nat) (providers : List Oracle.AccAddress)
    (feeCap frequency : Nat) (total : Int) : Except Error State :=
  match getContext s.contexts id with
  | none => Except.error Error.UnknownContext
  | some c =>
    if c.State = Oracle.RequestContextState.Completed then Except.error Error.InvalidState
    else if c.BatchState = BatchState.BatchRunning ∧ 0 < c.BatchResponseCount then
      Except.error Error.UpdateNotPermitted
    else if 0 < frequency ∧ frequency < c.Timeout then Except.error Error.InvalidFrequency
    else if providers ≠ [] ∧ providers.length < c.ResponseThreshold then
      Except.error Error.InvalidThreshold
    else
      Except.ok
        { s with
          contexts :=
            setContext s.contexts id
              ({ c with
                Providers := if providers = [] then c.Providers else providers
                ServiceFeeCap := if feeCap = 0 then c.ServiceFeeCap else feeCap
                RepeatedFrequency := if frequency = 0 then c.RepeatedFrequency else frequency
                RepeatedTotal := if total = 0 then c.RepeatedTotal else total }) }

/-- Modelled from the spec: `HandleResponse` "fails with `UnknownRequest` if no matching
CompactRequest is pending; writes a Response record; increments `BatchResponseCount`; releases
the provider's escrowed `IncomingFee` += charged fee for that request", whether the response
carries an output or an error; the answered request is deleted and the batch is finalised when
no request of it is left open. A request that already expired is not pending. -/
def HandleResponse (s : State) (id batchCounter providerIndex : Nat) (payload : Payload) :
    Except Error State :=
  match getContext s.contexts id with
  | none => Except.error Error.UnknownRequest
  | some c =>
    match c.Requests.find? (fun r => decide (r.BatchCounter = batchCounter) &&
        decide (r.ProviderIndex = providerIndex) && !r.Expired) with
    | none => Except.error Error.UnknownRequest
    | some r =>
      Except.ok
        { s with
          responses := s.responses ++
            [{ RequestContextID := id, BatchCounter := batchCounter,
               ProviderIndex := providerIndex, Provider := r.Provider, Consumer := r.Consumer,
               Payload := payload }]
          fees := addIncomingFee s.fees r.Provider r.ServiceFee
          contexts := setContext s.contexts id
            (settle
              { c with
                BatchResponseCount := c.BatchResponseCount + 1
                Requests := c.Requests.eraseP (fun r0 =>
                  decide (r0.BatchCounter = batchCounter) &&
                    decide (r0.ProviderIndex = providerIndex) && !r0.Expired) }) }

/-- Modelled from the spec: whether the per-block tick at `height` expires a request, one
"whose expiration height equals the current height" and that is not yet marked. -/
def expiresAt (height : Nat) (r : CompactRequest) : Bool :=
  decide (r.ExpirationHeight = height) && !r.Expired

/-- Modelled from the spec: the expiry step of the per-block tick on one context: "for every
CompactRequest whose expiration height equals the current height and which has not yet received
a response, mark it expired", then finalise the batch when no request of it is left open. The
count of responses stays as it is (§8: a batch with one response and one expired request
completes with `BatchResponseCount = 1`). -/
def expireContext (height : Nat) (c : RequestContext) : RequestContext :=
  settle
    { c with
      Requests := c.Requests.map (fun r =>
        if expiresAt height r = true then { r with Expired := true } else r) }

/-- Modelled from the spec: the requests that the tick at `height` expires, in store order. -/
def expiringAt (height : Nat) : List (Nat × RequestContext) → List CompactRequest
  | [] => []
  | e :: es => e.2.Requests.filter (expiresAt height) ++ expiringAt height es

/-- Modelled from the spec: the escrowed fee of each expired request "moves to the consumer's
`ReturnedFee`". -/
def returnFees (fees : List (Oracle.AccAddress × ServiceFees)) :
    List CompactRequest → List (Oracle.AccAddress × ServiceFees)
  | [] => fees
  | r :: rs => returnFees (addReturnedFee fees r.Consumer r.ServiceFee) rs

/-- Modelled from the spec: the (service, provider) pairs whose requests the tick at `height`
expires. -/
def missedAt (height : Nat) : List (Nat × RequestContext) → List (String × Oracle.AccAddress)
  | [] => []
  | e :: es =>
    ((e.2.Requests.filter (expiresAt height)).map (fun r => (e.2.ServiceName, r.Provider)))
      ++ missedAt height es

/-- Modelled from the spec: the missed-response penalty applied for each missed request. -/
def penalizeAll (params : Params) (height : Nat) :
    List (String × Oracle.AccAddress) → List ServiceBinding → List ServiceBinding
  | [], bindings => bindings
  | m :: ms, bindings => penalizeAll params height ms (penalize params height m.1 m.2 bindings)

/-- Modelled from the spec: whether the next batch of a context is due at `height`: the context
is running and repeated with runs remaining, its batch is completed, and the height is the
scheduled one, "batch-start height + frequency". -/
def isDue (height : Nat) (c : RequestContext) : Bool :=
  decide (c.State = Oracle.RequestContextState.Running) &&
    decide (c.BatchState = BatchState.BatchCompleted) && c.Repeated &&
    decide (c.RepeatedTotal ≠ 0) && decide (height = c.BatchStartHeight + c.RepeatedFrequency)

/-- Modelled from the spec: the lazy build of the scheduled batches, context by context in
store order, each build debiting its consumer; the state threads the bank through the builds.
When the build of a context fails, the context "transitions to `Completed`". -/
def buildDue : List (Nat × RequestContext) → State → List (Nat × RequestContext) × State
  | [], s => ([], s)
  | e :: es, s =>
    if isDue s.height e.2 = true then
      match buildBatch s e.2 with
      | Except.ok (c1, s1) => ((e.1, c1) :: (buildDue es s1).1, (buildDue es s1).2)
      | Except.error _ =>
        ((e.1, { e.2 with State := Oracle.RequestContextState.Completed }) :: (buildDue es s).1,
          (buildDue es s).2)
    else (e :: (buildDue es s).1, (buildDue es s).2)

/-- Modelled from the spec: the state after the expiry step of the tick: requests that expire
at the current height are marked, their providers penalised and their fees returned, and the
batches with no request left open are finalised. -/
def expireAll (s : State) : State :=
  { s with
    bindings := penalizeAll s.params s.height (missedAt s.height s.contexts) s.bindings
    fees := returnFees s.fees (expiringAt s.height s.contexts)
    contexts := mapContexts (fun _ c => expireContext s.height c) s.contexts }

/-- Modelled from the spec: the per-block tick, invoked once per block at its end: the expiry
step, then the builds of the batches scheduled for the current height, and the next block
begins. -/
def tick (s : State) : State :=
  { (buildDue (expireAll s).contexts (expireAll s)).2 with
    contexts := (buildDue (expireAll s).contexts (expireAll s)).1
    height := s.height + 1 }

/-- Modelled from the spec: the state after `n` blocks without message. -/
def ticks : Nat → State → State
  | 0, s => s
  | n + 1, s => ticks n (tick s)

/-- The call of the scenario of §8: a repeated context over two providers, created running,
with threshold 0, timeout 10, frequency 20 and total 10. -/
def scenarioArgs (service : String) (providerA providerB consumer : Oracle.AccAddress)
    (input : String) (feeCap : Nat) (moduleName : String) (superMode : Bool) : CreateArgs :=
  { service := service
    providers := [providerA, providerB]
    consumer := consumer
    input := input
    feeCap := feeCap
    timeout := 10
    repeated := true
    frequency := 20
    total := 10
    initialState := Oracle.RequestContextState.Running
    threshold := 0
    moduleName := moduleName
    superMode := superMode }

/-- The context of the scenario during its first batch, started at `height`, with the requests
`pending` (provider index, provider, declared price) still unanswered and `answered` responses
counted. -/
def scenarioRunning (args : CreateArgs) (height : Nat)
    (pending : List (Nat × Oracle.AccAddress × Nat)) (answered : Nat) : RequestContext :=
  { dormantContext BatchState.BatchRunning args with
    BatchCounter := 1
    BatchRequestCount := 2
    BatchResponseCount := answered
    BatchState := BatchState.BatchRunning
    BatchStartHeight := height
    Requests := pending.map (fun ipf =>
      { BatchCounter := 1
        ProviderIndex := ipf.1
        Provider := ipf.2.1
        Consumer := args.consumer
        Input := args.input
        ServiceFee := charge args.superMode args.feeCap ipf.2.2
        ExpirationHeight := height + args.timeout
        SuperMode := args.superMode
        Expired := false }) }

/-- The context of the scenario once both providers have answered its first batch: the batch
is completed and nine runs remain. -/
def scenarioCompleted (args : CreateArgs) (height : Nat) : RequestContext :=
  { dormantContext BatchState.BatchRunning args with
    BatchCounter := 1
    BatchRequestCount := 2
    BatchResponseCount := 2
    BatchState := BatchState.BatchCompleted
    RepeatedTotal := 9
    BatchStartHeight := height
    Requests := [] }

/-- The state after a message: the new state when it succeeds, the old one when it fails. -/
def afterOk (s : State) (result : Except Error State) : State :=
  match result with
  | Except.ok s1 => s1
  | Except.error _ => s

/-- Sample parameters: minimum deposit 10 times the price, cool-down of 5 blocks, disabling at
the third missed response, dormant contexts stored as `BatchRunning`, updates that leave a
deposit short rejected. -/
def sampleParams : Params :=
  { MinDepositMultiple := 10, RefundCooldown := 5, MaxMisses := 3,
    DormantBatchState := BatchState.BatchRunning, ShortDeposit := ShortDeposit.rejected }

/-- The account foo of the sample states. -/
def foo : Oracle.AccAddress := [10]

/-- The account bar of the sample states. -/
def bar : Oracle.AccAddress := [11]

/-- The genesis of the sample states: foo and bar hold 1000 units each. -/
def state0 : State := genesis sampleParams [(foo, 1000), (bar, 1000)]

/-- The service "test" is defined. -/
def state1 : State := afterOk state0 (Define state0 "test")

/-- Foo binds "test" with deposit 100 at price 10. -/
def state2 : State := afterOk state1 (Bind state1 "test" foo 100 10)

/-- Bar binds "test" with deposit 100 at price 10. -/
def state3 : State := afterOk state2 (Bind state2 "test" bar 100 10)

/-- The sample parameters with the other accepting outcome of an update that leaves a deposit
short: the binding is unavailable without having been disabled. -/
def looseParams : Params := { sampleParams with ShortDeposit := ShortDeposit.unavailable }

/-- Under `looseParams`, "test" is defined and bar binds it with deposit 100 at price 10. -/
def stateLoose : State :=
  afterOk (afterOk (genesis looseParams [(bar, 1000)])
      (Define (genesis looseParams [(bar, 1000)]) "test"))
    (Bind (afterOk (genesis looseParams [(bar, 1000)])
      (Define (genesis looseParams [(bar, 1000)]) "test")) "test" bar 100 10)

/-- Under `looseParams`, bar raises its price to 20 without adding to its deposit. -/
def stateRaised : State := afterOk stateLoose (UpdateBinding stateLoose "test" bar 0 (some 20))

/-- Modelled from the spec: one transition of the service module, a message that succeeds or
the per-block tick. -/
inductive Step : State → State → Prop where
  | define (s s1 : State) (name : String) (h : Define s name = Except.ok s1) : Step s s1
  | bind (s s1 : State) (service : String) (provider : Oracle.AccAddress) (deposit pricing : Nat)
      (h : Bind s service provider deposit pricing = Except.ok s1) : Step s s1
  | updateBinding (s s1 : State) (service : String) (provider : Oracle.AccAddress)
      (added : Nat) (pricing : Option Nat)
      (h : UpdateBinding s service provider added pricing = Except.ok s1) : Step s s1
  | setWithdrawAddress (s s1 : State) (service : String)
      (provider withdraw : Oracle.AccAddress)
      (h : SetWithdrawAddress s service provider withdraw = Except.ok s1) : Step s s1
  | disable (s s1 : State) (service : String) (provider : Oracle.AccAddress)
      (h : Disable s service provider = Except.ok s1) : Step s s1
  | enable (s s1 : State) (service : String) (provider : Oracle.AccAddress) (added : Nat)
      (h : Enable s service provider added = Except.ok s1) : Step s s1
  | refundDeposit (s s1 : State) (service : String) (provider : Oracle.AccAddress)
      (h : RefundDeposit s service provider = Except.ok s1) : Step s s1
  | withdrawFees (s s1 : State) (provider : Oracle.AccAddress)
      (h : WithdrawFees s provider = Except.ok s1) : Step s s1
  | refundFees (s s1 : State) (consumer : Oracle.AccAddress)
      (h : RefundFees s consumer = Except.ok s1) : Step s s1
  | create (s s1 : State) (args : CreateArgs) (id : Nat)
      (h : CreateRequestContext s args = Except.ok (id, s1)) : Step s s1
  | pause (s s1 : State) (id : Nat) (h : PauseRequestContext s id = Except.ok s1) : Step s s1
  | start (s s1 : State) (id : Nat) (h : StartRequestContext s id = Except.ok s1) : Step s s1
  | update (s s1 : State) (id : Nat) (providers : List Oracle.AccAddress)
      (feeCap frequency : Nat) (total : Int)
      (h : UpdateRequestContext s id providers feeCap frequency total = Except.ok s1) :
      Step s s1
  | respond (s s1 : State) (id batchCounter providerIndex : Nat) (payload : Payload)
      (h : HandleResponse s id batchCounter providerIndex payload = Except.ok s1) : Step s s1
  | tick (s : State) : Step s (tick s)

/-- Modelled from the spec: the states reachable from a genesis state. -/
inductive Reachable (params : Params) (balances : List (Oracle.AccAddress × Nat)) :
    State → Prop where
  | genesis : Reachable params balances (genesis params balances)
  | step (s s1 : State) (hs : Reachable params balances s) (h : Step s s1) :
      Reachable params balances s1

end Service

namespace Oracle

variable {γ σ α β : Type}

/-! ## Properties of the oracle store -/

theorem getFeed_setFeed_same (ctx : Context γ σ β) (feed : Feed) :
    GetFeed (setFeed ctx feed) feed.FeedName = some feed := by
  simp [GetFeed, setFeed]

theorem getFeed_setFeed_other (ctx : Context γ σ β) (feed : Feed) (name : String)
    (h : name ≠ feed.FeedName) : GetFeed (setFeed ctx feed) name = GetFeed ctx name := by
  have hne : ¬ feed.FeedName = name := fun e => h e.symm
  simp only [GetFeed, setFeed, List.find?_cons, decide_eq_false hne, List.find?_filter]
  congr 1
  funext a
  by_cases hn : a.FeedName = name
  · have hf : ¬ a.FeedName = feed.FeedName := fun e => h (hn.symm.trans e)
    simp [hn, hf]
    exact h
  · simp [hn]

theorem foldl_append_singleton_eq_map {A B : Type} (f : A → B) (xs : List A) (acc : List B) :
    xs.foldl (fun acc x => acc ++ [f x]) acc = acc ++ xs.map f := by
  induction xs generalizing acc with
  | nil => simp
  | cons x xs ih => simp [ih]

/-! ## CreateFeed -/

/-- C1: when the creator of a `MsgCreateFeed` is a profiler and the feed name is unused,
`CreateFeed` makes exactly one call on the service keeper, `CreateRequestContext`, with
`repeated = true`, initial state `Paused`, the oracle module name, and the service name,
providers, creator (as consumer), input, fee cap, timeout, frequency, total and threshold of
the message; if that call returns an error, `CreateFeed` returns the same error and the feed
records and feed results are as before. -/
theorem CreateFeed_calls_CreateRequestContext (k : Keeper γ σ α β) (ctx : Context γ σ β)
    (msg : MsgCreateFeed)
    (hprofiler : k.gk.GetProfiler ctx.guardian msg.Creator = true)
    (hunused : GetFeed ctx msg.FeedName = none) :
    (k.CreateFeed ctx msg).2.calls = ctx.calls ++ [ServiceCall.CreateRequestContext
      { serviceName := msg.ServiceName
        providers := msg.Providers
        consumer := msg.Creator
        input := msg.Input
        serviceFeeCap := msg.ServiceFeeCap
        timeout := msg.Timeout
        repeated := true
        repeatedFrequency := msg.RepeatedFrequency
        repeatedTotal := msg.RepeatedTotal
        state := RequestContextState.Paused
        responseThreshold := msg.ResponseThreshold
        moduleName := types.ModuleName }] ∧
    ∀ err, (k.sk.CreateRequestContext ctx.service (createFeedArgs msg)).1 = Except.error err →
      (k.CreateFeed ctx msg).1 = some err ∧
      (k.CreateFeed ctx msg).2.feeds = ctx.feeds ∧
      (k.CreateFeed ctx msg).2.results = ctx.results := by
  unfold Keeper.CreateFeed
  simp only [hprofiler, hunused, Bool.not_true, Bool.false_eq_true, if_false]
  cases hr : (k.sk.CreateRequestContext ctx.service (createFeedArgs msg)).1 with
  | error e =>
    simp only [Keeper.CreateRequestContext, hr]
    simp [createFeedArgs, types.Pause]
  | ok id =>
    simp only [Keeper.CreateRequestContext, hr]
    simp [createFeedArgs, types.Pause, setFeed]

/-- C1, at a concrete input: alice, a profiler, creates "btc" with an empty provider list, which
the sample service module rejects. -/
theorem CreateFeed_calls_CreateRequestContext_witness :
    listKeeper.gk.GetProfiler emptyStore.guardian (createBtc alice []).Creator = true ∧
    GetFeed emptyStore (createBtc alice []).FeedName = none ∧
    (listKeeper.CreateFeed emptyStore (createBtc alice [])).1
      = some (SdkError.service 1 "no providers") ∧
    (listKeeper.CreateFeed emptyStore (createBtc alice [])).2.feeds = [] ∧
    (listKeeper.CreateFeed emptyStore (createBtc alice [])).2.calls.length = 1 := by
  have h := CreateFeed_calls_CreateRequestContext listKeeper emptyStore (createBtc alice [])
    (by decide) (by decide)
  refine ⟨by decide, by decide, ?_, ?_, ?_⟩
  · exact (h.2 (SdkError.service 1 "no providers") rfl).1
  · exact (h.2 (SdkError.service 1 "no providers") rfl).2.1
  · rw [h.1]; rfl

/-- C2: when `CreateFeed` returns nil, the service keeper returned an ID for the request
context, `GetFeed(msg.FeedName)` then finds the feed holding the aggregate function, JSON path,
history bound and creator of the message and exactly that ID, and the record of every other
feed name is as before. -/
theorem CreateFeed_stores_feed (k : Keeper γ σ α β) (ctx : Context γ σ β) (msg : MsgCreateFeed)
    (hnil : (k.CreateFeed ctx msg).1 = none) :
    ∃ requestContextID,
      (k.sk.CreateRequestContext ctx.service (createFeedArgs msg)).1
        = Except.ok requestContextID ∧
      GetFeed (k.CreateFeed ctx msg).2 msg.FeedName = some
        { FeedName := msg.FeedName
          AggregateFunc := msg.AggregateFunc
          ValueJsonPath := msg.ValueJsonPath
          LatestHistory := msg.LatestHistory
          RequestContextID := requestContextID
          Creator := msg.Creator } ∧
      ∀ name, name ≠ msg.FeedName →
        GetFeed (k.CreateFeed ctx msg).2 name = GetFeed ctx name := by
  unfold Keeper.CreateFeed at hnil ⊢
  cases hp : k.gk.GetProfiler ctx.guardian msg.Creator with
  | false => simp [hp] at hnil
  | true =>
    cases hf : GetFeed ctx msg.FeedName with
    | some f => simp [hp, hf] at hnil
    | none =>
      cases hr : (k.sk.CreateRequestContext ctx.service (createFeedArgs msg)).1 with
      | error e => simp [hp, hf, Keeper.CreateRequestContext, hr] at hnil
      | ok id =>
        refine ⟨id, rfl, ?_, ?_⟩
        · simp only [hp, hf, Keeper.CreateRequestContext, hr, Bool.not_true,
            Bool.false_eq_true, if_false]
          exact getFeed_setFeed_same _ _
        · intro name hname
          simp only [hp, hf, Keeper.CreateRequestContext, hr, Bool.not_true,
            Bool.false_eq_true, if_false]
          rw [getFeed_setFeed_other _ _ _ hname]
          rfl

/-- C2, at a concrete input: alice creates "btc" over two providers; the sample service module
allots the ID `[0]`. -/
theorem CreateFeed_stores_feed_witness :
    (listKeeper.CreateFeed emptyStore (createBtc alice [[7], [8]])).1 = none ∧
    ∃ requestContextID,
      (listKeeper.sk.CreateRequestContext emptyStore.service
        (createFeedArgs (createBtc alice [[7], [8]]))).1 = Except.ok requestContextID ∧
      GetFeed (listKeeper.CreateFeed emptyStore (createBtc alice [[7], [8]])).2 "btc" = some
        { FeedName := "btc"
          AggregateFunc := "sum"
          ValueJsonPath := "data.price"
          LatestHistory := 5
          RequestContextID := requestContextID
          Creator := alice } ∧
      ∀ name, name ≠ "btc" →
        GetFeed (listKeeper.CreateFeed emptyStore (createBtc alice [[7], [8]])).2 name
          = GetFeed emptyStore name :=
  ⟨by decide, CreateFeed_stores_feed listKeeper emptyStore (createBtc alice [[7], [8]])
    (by decide)⟩

/-- C3: `CreateFeed` returns `ErrNotProfiler` when the creator has no profiler entry and
otherwise `ErrExistedFeedName` when a feed of that name exists; in both cases the context is
returned as it was: no call is made on the service keeper and no feed record changes. -/
theorem CreateFeed_rejects (k : Keeper γ σ α β) (ctx : Context γ σ β) (msg : MsgCreateFeed)
    (h : k.gk.GetProfiler ctx.guardian msg.Creator = false ∨
      (GetFeed ctx msg.FeedName).isSome = true) :
    (k.CreateFeed ctx msg).1 = some
      (if k.gk.GetProfiler ctx.guardian msg.Creator = false
        then SdkError.ErrNotProfiler types.DefaultCodespace msg.Creator
        else SdkError.ErrExistedFeedName types.DefaultCodespace msg.FeedName) ∧
    (k.CreateFeed ctx msg).2 = ctx ∧
    newCalls ctx (k.CreateFeed ctx msg).2 = [] ∧
    ∀ name, GetFeed (k.CreateFeed ctx msg).2 name = GetFeed ctx name := by
  have key : (k.CreateFeed ctx msg).1 = some
      (if k.gk.GetProfiler ctx.guardian msg.Creator = false
        then SdkError.ErrNotProfiler types.DefaultCodespace msg.Creator
        else SdkError.ErrExistedFeedName types.DefaultCodespace msg.FeedName) ∧
      (k.CreateFeed ctx msg).2 = ctx := by
    unfold Keeper.CreateFeed
    cases hp : k.gk.GetProfiler ctx.guardian msg.Creator with
    | false => simp
    | true =>
      cases hf : GetFeed ctx msg.FeedName with
      | some f => simp
      | none => simp [hp, hf] at h
  refine ⟨key.1, key.2, ?_, ?_⟩
  · rw [key.2]; simp [newCalls]
  · intro name; rw [key.2]

/-- C3, at two concrete inputs: bob, who is no profiler, and alice creating "btc" a second
time. -/
theorem CreateFeed_rejects_witness :
    (listKeeper.gk.GetProfiler emptyStore.guardian (createBtc bob [[7]]).Creator = false ∧
      (listKeeper.CreateFeed emptyStore (createBtc bob [[7]])).1
        = some (SdkError.ErrNotProfiler types.DefaultCodespace bob)) ∧
    ((GetFeed (btcStore RequestContextState.Paused 3) (createBtc alice [[7]]).FeedName).isSome
        = true ∧
      (listKeeper.CreateFeed (btcStore RequestContextState.Paused 3) (createBtc alice [[7]])).1
        = some (SdkError.ErrExistedFeedName types.DefaultCodespace "btc") ∧
      GetFeed (listKeeper.CreateFeed (btcStore RequestContextState.Paused 3)
        (createBtc alice [[7]])).2 "btc" = some (btcFeed 3)) := by
  refine ⟨⟨by decide, ?_⟩, by decide, ?_, ?_⟩
  · exact (CreateFeed_rejects listKeeper emptyStore (createBtc bob [[7]])
      (Or.inl (by decide))).1
  · exact (CreateFeed_rejects listKeeper (btcStore RequestContextState.Paused 3)
      (createBtc alice [[7]]) (Or.inr (by decide))).1
  · rw [(CreateFeed_rejects listKeeper (btcStore RequestContextState.Paused 3)
      (createBtc alice [[7]]) (Or.inr (by decide))).2.2.2 "btc"]
    decide

/-! ## StartFeed, PauseFeed and the authorisation of EditFeed -/

/-- C4: for `StartFeed`, `PauseFeed` and `EditFeed`, a message naming a feed that does not
exist gets `ErrUnknownFeedName` and a message whose creator differs from the creator of the
feed gets `ErrUnauthorized`; in both cases the context is returned as it was, so no call is
made on the service keeper and no feed record or feed result changes. -/
theorem feed_operations_need_creator (k : Keeper γ σ α β) (ctx : Context γ σ β)
    (name : String) (creator : AccAddress) (edit : MsgEditFeed)
    (h : GetFeed ctx name = none ∨
      ∃ feed, GetFeed ctx name = some feed ∧ creator ≠ feed.Creator) :
    ∃ err : SdkError,
      err = (if (GetFeed ctx name).isSome = true
        then SdkError.ErrUnauthorized types.DefaultCodespace name creator
        else SdkError.ErrUnknownFeedName types.DefaultCodespace name) ∧
      k.StartFeed ctx { FeedName := name, Creator := creator } = (some err, ctx) ∧
      k.PauseFeed ctx { FeedName := name, Creator := creator } = (some err, ctx) ∧
      k.EditFeed ctx { edit with FeedName := name, Creator := creator } = (some err, ctx) := by
  refine ⟨_, rfl, ?_⟩
  rcases h with h | ⟨feed, hfeed, hne⟩
  · simp [Keeper.StartFeed, Keeper.PauseFeed, Keeper.EditFeed, h]
  · simp [Keeper.StartFeed, Keeper.PauseFeed, Keeper.EditFeed, hfeed, hne]

/-- C4, at two concrete inputs: the unknown feed "eth", and bob acting on alice's feed
"btc". -/
theorem feed_operations_need_creator_witness :
    (GetFeed (btcStore RequestContextState.Paused 3) "eth" = none ∧
      listKeeper.StartFeed (btcStore RequestContextState.Paused 3)
          { FeedName := "eth", Creator := alice }
        = (some (SdkError.ErrUnknownFeedName types.DefaultCodespace "eth"),
            btcStore RequestContextState.Paused 3)) ∧
    ((∃ feed, GetFeed (btcStore RequestContextState.Paused 3) "btc" = some feed ∧
        bob ≠ feed.Creator) ∧
      listKeeper.EditFeed (btcStore RequestContextState.Paused 3) (editBtc bob 2 0)
        = (some (SdkError.ErrUnauthorized types.DefaultCodespace "btc" bob),
            btcStore RequestContextState.Paused 3)) := by
  refine ⟨⟨by decide, ?_⟩, ⟨btcFeed 3, by decide, by decide⟩, ?_⟩
  · obtain ⟨err, herr, hs, _, _⟩ := feed_operations_need_creator listKeeper
      (btcStore RequestContextState.Paused 3) "eth" alice (editBtc alice 2 0)
      (Or.inl (by decide))
    rw [hs, herr]; rfl
  · obtain ⟨err, herr, _, _, he⟩ := feed_operations_need_creator listKeeper
      (btcStore RequestContextState.Paused 3) "btc" bob (editBtc bob 2 0)
      (Or.inr ⟨btcFeed 3, by decide, by decide⟩)
    rw [show editBtc bob 2 0 = { editBtc bob 2 0 with FeedName := "btc", Creator := bob }
      from rfl, he, herr]
    rfl

/-- C8: for a message from the creator of an existing feed, `StartFeed` returns
`ErrInvalidFeedState` when the request context of the feed is `Running` and `PauseFeed` returns
`ErrInvalidFeedState` when it is in any other state, and both return `ErrUnknownFeedName` when
the request context does not exist; the only call made on the service keeper is the
`GetRequestContext` lookup, so neither `StartRequestContext` nor `PauseRequestContext` is
called. -/
theorem feed_operations_check_state (k : Keeper γ σ α β) (ctx : Context γ σ β)
    (name : String) (creator : AccAddress) (feed : Feed)
    (hfeed : GetFeed ctx name = some feed) (hcreator : creator = feed.Creator) :
    (∀ reqCtx, k.sk.GetRequestContext ctx.service feed.RequestContextID = some reqCtx →
      (reqCtx.State = RequestContextState.Running →
        k.StartFeed ctx { FeedName := name, Creator := creator }
          = (some (SdkError.ErrInvalidFeedState types.DefaultCodespace name),
              { ctx with calls := ctx.calls
                  ++ [ServiceCall.GetRequestContext feed.RequestContextID] })) ∧
      (reqCtx.State ≠ RequestContextState.Running →
        k.PauseFeed ctx { FeedName := name, Creator := creator }
          = (some (SdkError.ErrInvalidFeedState types.DefaultCodespace name),
              { ctx with calls := ctx.calls
                  ++ [ServiceCall.GetRequestContext feed.RequestContextID] }))) ∧
    (k.sk.GetRequestContext ctx.service feed.RequestContextID = none →
      k.StartFeed ctx { FeedName := name, Creator := creator }
        = (some (SdkError.ErrUnknownFeedName types.DefaultCodespace name),
            { ctx with calls := ctx.calls
                ++ [ServiceCall.GetRequestContext feed.RequestContextID] }) ∧
      k.PauseFeed ctx { FeedName := name, Creator := creator }
        = (some (SdkError.ErrUnknownFeedName types.DefaultCodespace name),
            { ctx with calls := ctx.calls
                ++ [ServiceCall.GetRequestContext feed.RequestContextID] })) := by
  refine ⟨fun reqCtx hget => ⟨fun hst => ?_, fun hst => ?_⟩, fun hget => ⟨?_, ?_⟩⟩
  · simp [Keeper.StartFeed, hfeed, hcreator, Keeper.GetRequestContext, hget, hst, types.Running]
  · simp [Keeper.PauseFeed, hfeed, hcreator, Keeper.GetRequestContext, hget, hst, types.Running]
  · simp [Keeper.StartFeed, hfeed, hcreator, Keeper.GetRequestContext, hget]
  · simp [Keeper.PauseFeed, hfeed, hcreator, Keeper.GetRequestContext, hget]

/-- C8, at concrete inputs: alice starts "btc" while its request context is running, and pauses
it while the request context is already paused. -/
theorem feed_operations_check_state_witness :
    GetFeed (btcStore RequestContextState.Running 3) "btc" = some (btcFeed 3) ∧
    alice = (btcFeed 3).Creator ∧
    (listKeeper.StartFeed (btcStore RequestContextState.Running 3)
        { FeedName := "btc", Creator := alice }).1
      = some (SdkError.ErrInvalidFeedState types.DefaultCodespace "btc") ∧
    (listKeeper.PauseFeed (btcStore RequestContextState.Paused 3)
        { FeedName := "btc", Creator := alice }).1
      = some (SdkError.ErrInvalidFeedState types.DefaultCodespace "btc") := by
  refine ⟨by decide, by decide, ?_, ?_⟩
  · rw [((feed_operations_check_state listKeeper (btcStore RequestContextState.Running 3)
      "btc" alice (btcFeed 3) (by decide) (by decide)).1
      (sampleRequestContext RequestContextState.Running 3) (by decide)).1 (by decide)]
  · rw [((feed_operations_check_state listKeeper (btcStore RequestContextState.Paused 3)
      "btc" alice (btcFeed 3) (by decide) (by decide)).1
      (sampleRequestContext RequestContextState.Paused 3) (by decide)).2 (by decide)]

/-- C9, on the code: alice starts her feed "btc" whose request context is `Paused`, and
`StartFeed` calls `StartRequestContext` although the state of the context is not `Running`;
she pauses it while the request context is `Running`, and `PauseFeed` calls
`PauseRequestContext` although the state is `Running`. -/
theorem StartFeed_calls_start_when_not_running :
    GetFeed (btcStore RequestContextState.Paused 3) "btc" = some (btcFeed 3) ∧
    alice = (btcFeed 3).Creator ∧
    listKeeper.sk.GetRequestContext (btcStore RequestContextState.Paused 3).service
        (btcFeed 3).RequestContextID
      = some (sampleRequestContext RequestContextState.Paused 3) ∧
    (sampleRequestContext RequestContextState.Paused 3).State ≠ RequestContextState.Running ∧
    ServiceCall.StartRequestContext (btcFeed 3).RequestContextID ∈
      newCalls (btcStore RequestContextState.Paused 3)
        (listKeeper.StartFeed (btcStore RequestContextState.Paused 3)
          { FeedName := "btc", Creator := alice }).2 ∧
    GetFeed (btcStore RequestContextState.Running 3) "btc" = some (btcFeed 3) ∧
    listKeeper.sk.GetRequestContext (btcStore RequestContextState.Running 3).service
        (btcFeed 3).RequestContextID
      = some (sampleRequestContext RequestContextState.Running 3) ∧
    (sampleRequestContext RequestContextState.Running 3).State = RequestContextState.Running ∧
    ServiceCall.PauseRequestContext (btcFeed 3).RequestContextID ∈
      newCalls (btcStore RequestContextState.Running 3)
        (listKeeper.PauseFeed (btcStore RequestContextState.Running 3)
          { FeedName := "btc", Creator := alice }).2 := by
  refine ⟨by decide, by decide, by decide, by decide, by decide, by decide, by decide,
    by decide, ?_⟩
  decide

/-- C9, as the code has it: for a message from the creator of an existing feed, `PauseFeed`
calls `PauseRequestContext` exactly when the request context of the feed exists and is
`Running`, and `StartFeed` calls `StartRequestContext` exactly when the request context exists
and is not `Running`; the call is made on the request context of the feed. -/
theorem feed_operations_call_engine_iff (k : Keeper γ σ α β) (ctx : Context γ σ β)
    (name : String) (creator : AccAddress) (feed : Feed)
    (hfeed : GetFeed ctx name = some feed) (hcreator : creator = feed.Creator) :
    (∀ id, ServiceCall.PauseRequestContext id ∈
        newCalls ctx (k.PauseFeed ctx { FeedName := name, Creator := creator }).2 ↔
      id = feed.RequestContextID ∧
        ∃ reqCtx, k.sk.GetRequestContext ctx.service feed.RequestContextID = some reqCtx ∧
          reqCtx.State = RequestContextState.Running) ∧
    (∀ id, ServiceCall.StartRequestContext id ∈
        newCalls ctx (k.StartFeed ctx { FeedName := name, Creator := creator }).2 ↔
      id = feed.RequestContextID ∧
        ∃ reqCtx, k.sk.GetRequestContext ctx.service feed.RequestContextID = some reqCtx ∧
          reqCtx.State ≠ RequestContextState.Running) := by
  constructor
  · intro id
    cases hget : k.sk.GetRequestContext ctx.service feed.RequestContextID with
    | none =>
      simp [Keeper.PauseFeed, hfeed, hcreator, Keeper.GetRequestContext, hget, newCalls]
    | some reqCtx =>
      by_cases hst : reqCtx.State = RequestContextState.Running
      · cases hp : (k.sk.PauseRequestContext ctx.service feed.RequestContextID).1 <;>
          simp [Keeper.PauseFeed, hfeed, hcreator, Keeper.GetRequestContext, hget, newCalls,
            hst, types.Running, Keeper.PauseRequestContext, hp, eq_comm]
      · simp [Keeper.PauseFeed, hfeed, hcreator, Keeper.GetRequestContext, hget, newCalls,
          hst, types.Running]
  · intro id
    cases hget : k.sk.GetRequestContext ctx.service feed.RequestContextID with
    | none =>
      simp [Keeper.StartFeed, hfeed, hcreator, Keeper.GetRequestContext, hget, newCalls]
    | some reqCtx =>
      by_cases hst : reqCtx.State = RequestContextState.Running
      · simp [Keeper.StartFeed, hfeed, hcreator, Keeper.GetRequestContext, hget, newCalls,
          hst, types.Running]
      · have hst2 : ¬ RequestContextState.Running = reqCtx.State := fun e => hst e.symm
        cases hp : (k.sk.StartRequestContext ctx.service feed.RequestContextID).1 <;>
          simp [Keeper.StartFeed, hfeed, hcreator, Keeper.GetRequestContext, hget, newCalls,
            hst, hst2, types.Running, Keeper.StartRequestContext, hp, eq_comm]

/-- C9 as the code has it, at a concrete input: alice pauses "btc" while its request context
is running. -/
theorem feed_operations_call_engine_iff_witness :
    GetFeed (btcStore RequestContextState.Running 3) "btc" = some (btcFeed 3) ∧
    alice = (btcFeed 3).Creator ∧
    ServiceCall.PauseRequestContext [0] ∈
      newCalls (btcStore RequestContextState.Running 3)
        (listKeeper.PauseFeed (btcStore RequestContextState.Running 3)
          { FeedName := "btc", Creator := alice }).2 :=
  ⟨by decide, by decide,
    ((feed_operations_call_engine_iff listKeeper (btcStore RequestContextState.Running 3)
      "btc" alice (btcFeed 3) (by decide) (by decide)).1 [0]).2
      ⟨by decide, sampleRequestContext RequestContextState.Running 3, by decide, by decide⟩⟩

/-! ## EditFeed -/

theorem getFeed_some_name (ctx : Context γ σ β) (name : String) (feed : Feed)
    (h : GetFeed ctx name = some feed) : feed.FeedName = name := by
  have := List.find?_some h
  simpa using this

theorem dropOldest_sublist (name : String) (c : Nat) (l : List (FeedResult β)) :
    (dropOldest name c l).Sublist l := by
  induction l generalizing c with
  | nil => cases c <;> simp [dropOldest]
  | cons r rs ih =>
    cases c with
    | zero => simp [dropOldest]
    | succ n =>
      by_cases hr : r.FeedName = name
      · simp only [dropOldest, hr, if_true]
        exact (ih n).trans (List.sublist_cons_self r rs)
      · simp only [dropOldest, hr, if_false]
        exact (ih (n + 1)).cons₂ r

theorem filter_dropOldest_same (name : String) (c : Nat) (l : List (FeedResult β)) :
    (dropOldest name c l).filter (fun r => decide (r.FeedName = name))
      = (l.filter (fun r => decide (r.FeedName = name))).drop c := by
  induction l generalizing c with
  | nil => cases c <;> simp [dropOldest]
  | cons r rs ih =>
    cases c with
    | zero => simp [dropOldest]
    | succ n =>
      by_cases hr : r.FeedName = name
      · simp [dropOldest, hr, ih n]
      · simp [dropOldest, hr, ih (n + 1)]

theorem filter_dropOldest_other (name other : String) (h : other ≠ name) (c : Nat)
    (l : List (FeedResult β)) :
    (dropOldest name c l).filter (fun r => decide (r.FeedName = other))
      = l.filter (fun r => decide (r.FeedName = other)) := by
  induction l generalizing c with
  | nil => cases c <;> simp [dropOldest]
  | cons r rs ih =>
    cases c with
    | zero => simp [dropOldest]
    | succ n =>
      by_cases hr : r.FeedName = name
      · have ho : ¬ r.FeedName = other := fun e => h (e.symm.trans hr)
        simp only [dropOldest, if_pos hr, ih n, List.filter_cons, decide_eq_false ho]
        simp
      · simp only [dropOldest, if_neg hr, List.filter_cons, ih (n + 1)]

theorem subUint64_of_lt (a b : Nat) (hlt : b < a) (h : a - b < 2 ^ 63) :
    subUint64 a b = a - b := by
  unfold subUint64
  omega

theorem intOfUint64_sub (a b : Nat) (hlt : b < a) (h : a - b < 2 ^ 63) :
    intOfUint64 (subUint64 a b) = ((a - b : Nat) : Int) := by
  rw [subUint64_of_lt a b hlt h]
  unfold intOfUint64
  have hm : (a - b) % 2 ^ 64 = a - b := Nat.mod_eq_of_lt (by omega)
  rw [hm, if_pos h]

/-- The `int` count of line 139 is negative when the difference of the two bounds reaches 2^63:
for a stored bound of 2^63 + 2 and a new bound of 2 it is −2^63. -/
theorem intOfUint64_sub_wraps :
    intOfUint64 (subUint64 (2 ^ 63 + 2) 2) = -(2 ^ 63 : Int) := by
  norm_num [intOfUint64, subUint64]

theorem editLatestHistory_service (ctx : Context γ σ β) (feed : Feed) (msg : MsgEditFeed) :
    (editLatestHistory ctx feed msg).2.service = ctx.service ∧
    (editLatestHistory ctx feed msg).2.feeds = ctx.feeds ∧
    (editLatestHistory ctx feed msg).1.FeedName = feed.FeedName ∧
    (editLatestHistory ctx feed msg).1.RequestContextID = feed.RequestContextID := by
  unfold editLatestHistory
  split
  · split <;> simp [deleteOldestFeedResult]
  · simp

theorem editLatestHistory_results (ctx : Context γ σ β) (feed : Feed) (msg : MsgEditFeed) :
    (editLatestHistory ctx feed msg).2.results =
      if 1 < msg.LatestHistory ∧ msg.LatestHistory < feed.LatestHistory then
        dropOldest feed.FeedName
          (intOfUint64 (subUint64 feed.LatestHistory msg.LatestHistory)).toNat ctx.results
      else ctx.results := by
  unfold editLatestHistory
  by_cases h1 : msg.LatestHistory > 1
  · by_cases h2 : msg.LatestHistory < feed.LatestHistory
    · have h3 : msg.LatestHistory ≠ feed.LatestHistory := by omega
      have h1b : 1 < msg.LatestHistory := h1
      simp [h1b, h2, h3, deleteOldestFeedResult]
    · have h1b : 1 < msg.LatestHistory := h1
      simp [h1b, h2]
  · have h1b : ¬ 1 < msg.LatestHistory := h1
    simp [h1b]

theorem EditFeed_authorised (k : Keeper γ σ α β) (ctx : Context γ σ β) (msg : MsgEditFeed)
    (feed : Feed) (hfeed : GetFeed ctx msg.FeedName = some feed)
    (hcreator : msg.Creator = feed.Creator) :
    k.EditFeed ctx msg =
      match k.UpdateRequestContext (editLatestHistory ctx feed msg).2
          { requestContextID := feed.RequestContextID
            providers := msg.Providers
            serviceFeeCap := msg.ServiceFeeCap
            repeatedFrequency := msg.RepeatedFrequency
            repeatedTotal := msg.RepeatedTotal } with
      | (some err, ctx2) => (some err, ctx2)
      | (none, ctx2) => (none, setFeed ctx2 (editLatestHistory ctx feed msg).1) := by
  simp only [Keeper.EditFeed, hfeed, hcreator, ne_eq, not_true_eq_false, if_false,
    (editLatestHistory_service ctx feed msg).2.2.2]

/-- C5, on the code: alice edits her feed "btc", whose stored history bound is 3 and which has
three stored results, with `LatestHistory = 1`; the service keeper accepts the update and
`EditFeed` returns nil, yet no result is deleted and the stored bound is still 3. -/
theorem EditFeed_ignores_history_one :
    GetFeed (btcStore RequestContextState.Paused 3) (editBtc alice 1 0).FeedName
      = some (btcFeed 3) ∧
    (editBtc alice 1 0).Creator = (btcFeed 3).Creator ∧
    1 ≤ (editBtc alice 1 0).LatestHistory ∧
    (editBtc alice 1 0).LatestHistory < (btcFeed 3).LatestHistory ∧
    (listKeeper.EditFeed (btcStore RequestContextState.Paused 3) (editBtc alice 1 0)).1 = none ∧
    (listKeeper.EditFeed (btcStore RequestContextState.Paused 3) (editBtc alice 1 0)).2.results
      = (btcStore RequestContextState.Paused 3).results ∧
    GetFeed (listKeeper.EditFeed (btcStore RequestContextState.Paused 3) (editBtc alice 1 0)).2
      "btc" = some (btcFeed 3) ∧
    (btcFeed 3).LatestHistory ≠ (editBtc alice 1 0).LatestHistory := by
  refine ⟨by decide, by decide, by decide, by decide, by decide, by decide, by decide,
    by decide⟩

/-- C5, as the code has it: for an `EditFeed` by the creator of the feed whose
`msg.LatestHistory` is greater than 1 and strictly smaller than the stored bound, the keeper
calls `deleteOldestFeedResult` once, with the count `int(stored − new)` of line 139, and leaves
the results of every other feed alone, whatever the service keeper answers; whenever
stored − new is below 2^63 that count is stored − new and the (stored − new) oldest results of
the feed are deleted; and when `UpdateRequestContext` succeeds, `EditFeed` returns nil and the
stored feed is the old one with `LatestHistory` set to `msg.LatestHistory`. -/
theorem EditFeed_shrinks_history (k : Keeper γ σ α β) (ctx : Context γ σ β) (msg : MsgEditFeed)
    (feed : Feed) (hfeed : GetFeed ctx msg.FeedName = some feed)
    (hcreator : msg.Creator = feed.Creator)
    (hmin : 1 < msg.LatestHistory)
    (hshrink : msg.LatestHistory < feed.LatestHistory) :
    (k.EditFeed ctx msg).2.results
      = (deleteOldestFeedResult ctx feed.FeedName
          (intOfUint64 (subUint64 feed.LatestHistory msg.LatestHistory))).results ∧
    (feed.LatestHistory - msg.LatestHistory < 2 ^ 63 →
      intOfUint64 (subUint64 feed.LatestHistory msg.LatestHistory)
        = ((feed.LatestHistory - msg.LatestHistory : Nat) : Int) ∧
      feedResults (k.EditFeed ctx msg).2 feed.FeedName
        = (feedResults ctx feed.FeedName).drop (feed.LatestHistory - msg.LatestHistory)) ∧
    (∀ other, other ≠ feed.FeedName →
      feedResults (k.EditFeed ctx msg).2 other = feedResults ctx other) ∧
    ((k.sk.UpdateRequestContext ctx.service
        { requestContextID := feed.RequestContextID
          providers := msg.Providers
          serviceFeeCap := msg.ServiceFeeCap
          repeatedFrequency := msg.RepeatedFrequency
          repeatedTotal := msg.RepeatedTotal }).1 = none →
      (k.EditFeed ctx msg).1 = none ∧
      GetFeed (k.EditFeed ctx msg).2 msg.FeedName
        = some { feed with LatestHistory := msg.LatestHistory }) := by
  have hres := editLatestHistory_results ctx feed msg
  rw [if_pos ⟨hmin, hshrink⟩] at hres
  have hsrv := editLatestHistory_service ctx feed msg
  have hfst : (editLatestHistory ctx feed msg).1
      = { feed with LatestHistory := msg.LatestHistory } := by
    have h1 : msg.LatestHistory > 1 := hmin
    simp [editLatestHistory, h1]
  have hresults : (k.EditFeed ctx msg).2.results
      = dropOldest feed.FeedName
          (intOfUint64 (subUint64 feed.LatestHistory msg.LatestHistory)).toNat ctx.results := by
    rw [EditFeed_authorised k ctx msg feed hfeed hcreator]
    cases hu : (k.sk.UpdateRequestContext (editLatestHistory ctx feed msg).2.service
        { requestContextID := feed.RequestContextID
          providers := msg.Providers
          serviceFeeCap := msg.ServiceFeeCap
          repeatedFrequency := msg.RepeatedFrequency
          repeatedTotal := msg.RepeatedTotal }).1 <;>
      simp [Keeper.UpdateRequestContext, hu, setFeed, hres]
  refine ⟨?_, ?_, ?_, ?_⟩
  · rw [hresults]; simp [deleteOldestFeedResult]
  · intro hexact
    have hcount := intOfUint64_sub _ _ hshrink hexact
    refine ⟨hcount, ?_⟩
    simp only [feedResults, hresults, hcount, Int.toNat_ofNat]
    exact filter_dropOldest_same _ _ _
  · intro other hother
    simp only [feedResults, hresults]
    exact filter_dropOldest_other _ _ hother _ _
  · intro hu
    rw [← hsrv.1] at hu
    rw [EditFeed_authorised k ctx msg feed hfeed hcreator]
    simp only [Keeper.UpdateRequestContext, hu, hfst]
    refine ⟨trivial, ?_⟩
    have hname := getFeed_some_name ctx msg.FeedName feed hfeed
    rw [← hname]
    exact getFeed_setFeed_same _ { feed with LatestHistory := msg.LatestHistory }

/-- C5 as the code has it, at a concrete input: alice shrinks the history bound of "btc" from
3 to 2; the oldest of the three stored results is deleted. -/
theorem EditFeed_shrinks_history_witness :
    GetFeed (btcStore RequestContextState.Paused 3) (editBtc alice 2 0).FeedName
      = some (btcFeed 3) ∧
    (editBtc alice 2 0).Creator = (btcFeed 3).Creator ∧
    1 < (editBtc alice 2 0).LatestHistory ∧
    (editBtc alice 2 0).LatestHistory < (btcFeed 3).LatestHistory ∧
    (btcFeed 3).LatestHistory - (editBtc alice 2 0).LatestHistory < 2 ^ 63 ∧
    feedResults (listKeeper.EditFeed (btcStore RequestContextState.Paused 3)
        (editBtc alice 2 0)).2 "btc"
      = [{ FeedName := "btc", BatchCounter := 2, Data := 12 },
         { FeedName := "btc", BatchCounter := 3, Data := 13 }] ∧
    GetFeed (listKeeper.EditFeed (btcStore RequestContextState.Paused 3)
        (editBtc alice 2 0)).2 "btc" = some (btcFeed 2) := by
  have h := EditFeed_shrinks_history listKeeper (btcStore RequestContextState.Paused 3)
    (editBtc alice 2 0) (btcFeed 3) (by decide) (by decide) (by decide) (by decide)
  refine ⟨by decide, by decide, by decide, by decide, by decide, ?_, ?_⟩
  · rw [show "btc" = (btcFeed 3).FeedName from rfl, (h.2.1 (by decide)).2]; decide
  · exact (h.2.2.2 (by decide)).2

/-- C10, on the code: alice shrinks the history bound of "btc" from 3 to 2 in a message whose
frequency the service keeper rejects; `EditFeed` returns that error, and the oldest stored
result of the feed has been deleted all the same. -/
theorem EditFeed_error_after_delete :
    (listKeeper.EditFeed (btcStore RequestContextState.Paused 3) (editBtc alice 2 5)).1
      = some (SdkError.service 2 "invalid frequency") ∧
    (btcStore RequestContextState.Paused 3).results
      = [{ FeedName := "btc", BatchCounter := 1, Data := 11 },
         { FeedName := "btc", BatchCounter := 2, Data := 12 },
         { FeedName := "btc", BatchCounter := 3, Data := 13 }] ∧
    (listKeeper.EditFeed (btcStore RequestContextState.Paused 3) (editBtc alice 2 5)).2.results
      = [{ FeedName := "btc", BatchCounter := 2, Data := 12 },
         { FeedName := "btc", BatchCounter := 3, Data := 13 }] ∧
    (listKeeper.EditFeed (btcStore RequestContextState.Paused 3) (editBtc alice 2 5)).2.results
      ≠ (btcStore RequestContextState.Paused 3).results := by
  refine ⟨by decide, by decide, by decide, by decide⟩

/-- C10, as the code has it: when `EditFeed` returns an error, the feed records are those
before the call, and the stored feed results are those before the call unless the message comes
from the creator of the feed and shrinks its history bound (1 < new < stored): then the error
is the one of `UpdateRequestContext`, and the results are those left by the deletion of the
excess oldest results of the feed, which the keeper does not undo. -/
theorem EditFeed_error_store (k : Keeper γ σ α β) (ctx : Context γ σ β) (msg : MsgEditFeed)
    (err : SdkError) (herr : (k.EditFeed ctx msg).1 = some err) :
    (k.EditFeed ctx msg).2.feeds = ctx.feeds ∧
    (∀ name, GetFeed (k.EditFeed ctx msg).2 name = GetFeed ctx name) ∧
    ((GetFeed ctx msg.FeedName = none ∨
        ∃ feed, GetFeed ctx msg.FeedName = some feed ∧ msg.Creator ≠ feed.Creator) →
      (k.EditFeed ctx msg).2 = ctx) ∧
    (∀ feed, GetFeed ctx msg.FeedName = some feed → msg.Creator = feed.Creator →
      (k.EditFeed ctx msg).2.results =
        if 1 < msg.LatestHistory ∧ msg.LatestHistory < feed.LatestHistory then
          dropOldest feed.FeedName
            (intOfUint64 (subUint64 feed.LatestHistory msg.LatestHistory)).toNat ctx.results
        else ctx.results) := by
  have hfeeds : (k.EditFeed ctx msg).2.feeds = ctx.feeds ∧
      (∀ feed, GetFeed ctx msg.FeedName = some feed → msg.Creator = feed.Creator →
        (k.EditFeed ctx msg).2.results = (editLatestHistory ctx feed msg).2.results) := by
    cases hfeed : GetFeed ctx msg.FeedName with
    | none => simp [Keeper.EditFeed, hfeed]
    | some feed =>
      by_cases hc : msg.Creator = feed.Creator
      · rw [EditFeed_authorised k ctx msg feed hfeed hc] at herr ⊢
        cases hu : (k.sk.UpdateRequestContext (editLatestHistory ctx feed msg).2.service
            { requestContextID := feed.RequestContextID
              providers := msg.Providers
              serviceFeeCap := msg.ServiceFeeCap
              repeatedFrequency := msg.RepeatedFrequency
              repeatedTotal := msg.RepeatedTotal }).1 with
        | none => simp [Keeper.UpdateRequestContext, hu] at herr
        | some e =>
          simp [Keeper.UpdateRequestContext, hu, (editLatestHistory_service ctx feed msg).2.1]
      · simp [Keeper.EditFeed, hfeed, hc]
  refine ⟨hfeeds.1, ?_, ?_, ?_⟩
  · intro name
    simp only [GetFeed, hfeeds.1]
  · rintro (h | ⟨feed, hfeed, hne⟩)
    · simp [Keeper.EditFeed, h]
    · simp [Keeper.EditFeed, hfeed, hne]
  · intro feed hfeed hc
    rw [hfeeds.2 feed hfeed hc]
    exact editLatestHistory_results ctx feed msg

/-- C10 as the code has it, at a concrete input: the rejected edit of "btc" above leaves the
feed record as it was. -/
theorem EditFeed_error_store_witness :
    (listKeeper.EditFeed (btcStore RequestContextState.Paused 3) (editBtc alice 2 5)).1
      = some (SdkError.service 2 "invalid frequency") ∧
    (listKeeper.EditFeed (btcStore RequestContextState.Paused 3) (editBtc alice 2 5)).2.feeds
      = [btcFeed 3] :=
  ⟨by decide,
    (EditFeed_error_store listKeeper (btcStore RequestContextState.Paused 3)
      (editBtc alice 2 5) (SdkError.service 2 "invalid frequency") (by decide)).1⟩

/-! ## HandlerResponse -/

theorem setFeedResult_results (ctx : Context γ σ β) (name : String) (bc latestHistory : Nat)
    (data : β) :
    ∃ kept : List (FeedResult β),
      kept.Sublist ctx.results ∧
      (∀ r ∈ kept, ¬ (r.FeedName = name ∧ r.BatchCounter = bc)) ∧
      (kept.filter (fun r => decide (r.FeedName = name))).length ≤ latestHistory - 1 ∧
      (setFeedResult ctx name bc latestHistory data).results
        = kept ++ [{ FeedName := name, BatchCounter := bc, Data := data }] := by
  refine ⟨dropOldest name
    (((ctx.results.filter (fun r =>
        !(decide (r.FeedName = name) && decide (r.BatchCounter = bc)))).filter
          (fun r => decide (r.FeedName = name))).length + 1 - latestHistory)
    (ctx.results.filter (fun r =>
        !(decide (r.FeedName = name) && decide (r.BatchCounter = bc)))), ?_, ?_, ?_, rfl⟩
  · exact (dropOldest_sublist _ _ _).trans (List.filter_sublist _)
  · intro r hr hkey
    have hmem := (dropOldest_sublist _ _ _).subset hr
    have := (List.mem_filter.mp hmem).2
    simp [hkey.1, hkey.2] at this
  · rw [filter_dropOldest_same, List.length_drop]
    omega

theorem getFeedResult_append (ctx : Context γ σ β) (name : String) (bc : Nat) (data : β)
    (kept : List (FeedResult β))
    (hkept : ∀ r ∈ kept, ¬ (r.FeedName = name ∧ r.BatchCounter = bc))
    (hres : ctx.results = kept ++ [{ FeedName := name, BatchCounter := bc, Data := data }]) :
    GetFeedResult ctx name bc = some data := by
  have hnone : kept.find?
      (fun r => decide (r.FeedName = name) && decide (r.BatchCounter = bc)) = none := by
    rw [List.find?_eq_none]
    intro r hr
    simpa using hkept r hr
  simp [GetFeedResult, hres, List.find?_append, hnone]

/-- C6: for a non-empty list of response outputs, when a feed references the context ID, the
context exists and the aggregate function of the feed resolves, `HandlerResponse` stores the
value `aggregate d`, where `d` lists in order the values extracted from the outputs at the JSON
path of the feed, through one `setFeedResult` under (feed name, batch counter of the context)
with the history bound of the feed: the results become results kept from before, none of them
under that key, followed by the one new result, which is found under its key; at most
`LatestHistory` results of the feed remain (one if the bound is 0), and the feed records do not
change. -/
theorem HandlerResponse_stores_aggregate (k : Keeper γ σ α β) (ctx : Context γ σ β)
    (requestContextID : List Nat) (responseOutput : List String) (feed : Feed)
    (reqCtx : RequestContext) (aggregate : List α → β)
    (hne : responseOutput ≠ [])
    (hfeed : GetFeedByReqCtxID ctx requestContextID = some feed)
    (hctx : k.sk.GetRequestContext ctx.service requestContextID = some reqCtx)
    (hagg : k.GetAggregateFunc feed.AggregateFunc = Except.ok aggregate) :
    ∃ d : List α,
      d = responseOutput.map (fun jsonStr => k.gjsonGet jsonStr feed.ValueJsonPath) ∧
      d.length = responseOutput.length ∧
      (k.HandlerResponse ctx requestContextID responseOutput).results
        = (setFeedResult ctx feed.FeedName reqCtx.BatchCounter feed.LatestHistory
            (aggregate d)).results ∧
      (∃ kept : List (FeedResult β),
        kept.Sublist ctx.results ∧
        (∀ r ∈ kept, ¬ (r.FeedName = feed.FeedName ∧ r.BatchCounter = reqCtx.BatchCounter)) ∧
        (k.HandlerResponse ctx requestContextID responseOutput).results
          = kept ++ [{ FeedName := feed.FeedName, BatchCounter := reqCtx.BatchCounter,
                       Data := aggregate d }]) ∧
      GetFeedResult (k.HandlerResponse ctx requestContextID responseOutput) feed.FeedName
        reqCtx.BatchCounter = some (aggregate d) ∧
      (feedResults (k.HandlerResponse ctx requestContextID responseOutput)
        feed.FeedName).length ≤ max 1 feed.LatestHistory ∧
      (k.HandlerResponse ctx requestContextID responseOutput).feeds = ctx.feeds := by
  have hlen : ¬ responseOutput.length = 0 := by
    intro h0; exact hne (List.length_eq_zero.mp h0)
  have hrun : k.HandlerResponse ctx requestContextID responseOutput
      = setFeedResult
          { ctx with calls := ctx.calls ++ [ServiceCall.GetRequestContext requestContextID] }
          feed.FeedName reqCtx.BatchCounter feed.LatestHistory
          (aggregate (responseOutput.map
            (fun jsonStr => k.gjsonGet jsonStr feed.ValueJsonPath))) := by
    simp only [Keeper.HandlerResponse, hlen, if_false, hfeed, Keeper.GetRequestContext, hctx,
      hagg, foldl_append_singleton_eq_map, List.nil_append]
  obtain ⟨kept, hsub, hkey, hcount, hres⟩ := setFeedResult_results ctx feed.FeedName
    reqCtx.BatchCounter feed.LatestHistory
    (aggregate (responseOutput.map (fun jsonStr => k.gjsonGet jsonStr feed.ValueJsonPath)))
  have hsame : (k.HandlerResponse ctx requestContextID responseOutput).results
      = (setFeedResult ctx feed.FeedName reqCtx.BatchCounter feed.LatestHistory
          (aggregate (responseOutput.map
            (fun jsonStr => k.gjsonGet jsonStr feed.ValueJsonPath)))).results := by
    rw [hrun]; rfl
  refine ⟨_, rfl, by simp, hsame, ⟨kept, hsub, hkey, hsame.trans hres⟩, ?_, ?_, ?_⟩
  · exact getFeedResult_append _ _ _ _ kept hkey (hsame.trans hres)
  · have hone : (List.filter (fun r => decide (r.FeedName = feed.FeedName))
        [({ FeedName := feed.FeedName, BatchCounter := reqCtx.BatchCounter,
            Data := aggregate (responseOutput.map
              (fun jsonStr => k.gjsonGet jsonStr feed.ValueJsonPath)) } : FeedResult β)]).length
        = 1 := by simp
    simp only [feedResults, hsame.trans hres, List.filter_append, List.length_append, hone]
    have hmax : feed.LatestHistory - 1 + 1 ≤ max 1 feed.LatestHistory := by
      rcases Nat.eq_zero_or_pos feed.LatestHistory with h0 | hpos
      · simp [h0]
      · have : feed.LatestHistory - 1 + 1 = feed.LatestHistory := by omega
        rw [this]; exact le_max_right _ _
    exact le_trans (Nat.add_le_add_right hcount 1) hmax
  · rw [hrun]; rfl

/-- C6, at a concrete input: two responses for the request context of "btc", which is at
batch 3 with history bound 3; the sum of the extracted values replaces the result of batch 3
and the results of batches 1 and 2 are kept. -/
theorem HandlerResponse_stores_aggregate_witness :
    ["ab", "cde"] ≠ [] ∧
    GetFeedByReqCtxID (btcStore RequestContextState.Running 3) [0] = some (btcFeed 3) ∧
    listKeeper.sk.GetRequestContext (btcStore RequestContextState.Running 3).service [0]
      = some (sampleRequestContext RequestContextState.Running 3) ∧
    GetFeedResult (listKeeper.HandlerResponse (btcStore RequestContextState.Running 3) [0]
      ["ab", "cde"]) "btc" 3 = some 5 := by
  obtain ⟨d, hd, _, _, _, hget, _, _⟩ := HandlerResponse_stores_aggregate listKeeper
    (btcStore RequestContextState.Running 3) [0] ["ab", "cde"] (btcFeed 3)
    (sampleRequestContext RequestContextState.Running 3) List.sum
    (by decide) (by decide) (by decide) rfl
  refine ⟨by decide, by decide, by decide, ?_⟩
  subst hd
  exact hget

/-- C7: `HandlerResponse` is a total function of its inputs, and it returns with the feed
records and feed results (and the guardian and service stores) as they were whenever the output
list is empty, or no feed references the request-context ID, or the service keeper has no such
context, or the aggregate function name of the feed does not resolve. -/
theorem HandlerResponse_skips (k : Keeper γ σ α β) (ctx : Context γ σ β)
    (requestContextID : List Nat) (responseOutput : List String)
    (h : responseOutput = [] ∨
      GetFeedByReqCtxID ctx requestContextID = none ∨
      k.sk.GetRequestContext ctx.service requestContextID = none ∨
      ∃ feed err, GetFeedByReqCtxID ctx requestContextID = some feed ∧
        k.GetAggregateFunc feed.AggregateFunc = Except.error err) :
    (k.HandlerResponse ctx requestContextID responseOutput).feeds = ctx.feeds ∧
    (k.HandlerResponse ctx requestContextID responseOutput).results = ctx.results ∧
    (k.HandlerResponse ctx requestContextID responseOutput).guardian = ctx.guardian ∧
    (k.HandlerResponse ctx requestContextID responseOutput).service = ctx.service := by
  unfold Keeper.HandlerResponse
  by_cases h0 : responseOutput.length = 0
  · simp [h0]
  · have hne : responseOutput ≠ [] := fun e => h0 (by simp [e])
    simp only [h0, if_false]
    cases hfeed : GetFeedByReqCtxID ctx requestContextID with
    | none => simp
    | some feed =>
      cases hctx : k.sk.GetRequestContext ctx.service requestContextID with
      | none => simp [Keeper.GetRequestContext, hctx]
      | some reqCtx =>
        cases hagg : k.GetAggregateFunc feed.AggregateFunc with
        | error e => simp [Keeper.GetRequestContext, hctx, hagg]
        | ok aggregate =>
          rcases h with h | h | h | ⟨feed2, err, hf2, he⟩
          · exact absurd h hne
          · simp [hfeed] at h
          · simp [hctx] at h
          · rw [hfeed] at hf2
            cases hf2
            rw [hagg] at he
            cases he

/-- C7, at concrete inputs: an empty output list, and outputs for a request context that no
feed references. -/
theorem HandlerResponse_skips_witness :
    (listKeeper.HandlerResponse (btcStore RequestContextState.Running 3) [0] []).results
      = (btcStore RequestContextState.Running 3).results ∧
    GetFeedByReqCtxID (btcStore RequestContextState.Running 3) [9] = none ∧
    (listKeeper.HandlerResponse (btcStore RequestContextState.Running 3) [9] ["ab"]).results
      = (btcStore RequestContextState.Running 3).results :=
  ⟨(HandlerResponse_skips listKeeper (btcStore RequestContextState.Running 3) [0] []
      (Or.inl rfl)).2.1,
    by decide,
    (HandlerResponse_skips listKeeper (btcStore RequestContextState.Running 3) [9] ["ab"]
      (Or.inr (Or.inl (by decide)))).2.1⟩

end Oracle

namespace Gov

/-! ## MsgSubmitProposal.ValidateBasic -/

/-- C18, on the code: a proposal whose title has 71 bytes and whose proposal type is not valid.
In the order "title, description, proposal type, ..." the title check is the first that fails,
but `ValidateBasic` returns the error of the proposal-type check: the upper bounds on the
lengths are only examined by `EnsureLength`, after the deposit checks. -/
theorem ValidateBasic_not_in_listed_order :
    len (sampleProposal longTitle 9 []).Title = 71 ∧
    sampleEnv.ValidProposalType (sampleProposal longTitle 9 []).ProposalType = false ∧
    (sampleProposal longTitle 9 []).ValidateBasic sampleEnv
      = some (Error.ErrInvalidProposalType "gov" 9) ∧
    (sampleProposal longTitle 9 []).ValidateBasic_inListedOrder sampleEnv
      = some (Error.ErrInvalidLength "gov" 8 "title" 71 70) ∧
    (sampleProposal longTitle 9 []).ValidateBasic sampleEnv
      ≠ (sampleProposal longTitle 9 []).ValidateBasic_inListedOrder sampleEnv := by
  refine ⟨by decide, by decide, by decide, by decide, by decide⟩

theorem validateBasic_checks (env : Env) (msg : MsgSubmitProposal) :
    (msg.ValidateBasic env = none ↔
      (1 ≤ len msg.Title ∧ len msg.Title ≤ 70) ∧
      (1 ≤ len msg.Description ∧ len msg.Description ≤ 280) ∧
      env.ValidProposalType msg.ProposalType = true ∧
      msg.Proposer ≠ [] ∧
      (env.IsValid msg.InitialDeposit = true ∧ env.IsNotNegative msg.InitialDeposit = true) ∧
      (msg.ProposalType = env.ProposalTypeParameterChange → msg.Params.length = 1)) ∧
    msg.ValidateBasic env = firstFailing
      [(decide (len msg.Title = 0), Error.ErrInvalidTitle env.DefaultCodespace msg.Title),
       (decide (len msg.Description = 0),
          Error.ErrInvalidDescription env.DefaultCodespace msg.Description),
       (!env.ValidProposalType msg.ProposalType,
          Error.ErrInvalidProposalType env.DefaultCodespace msg.ProposalType),
       (decide (msg.Proposer.length = 0), Error.ErrInvalidAddress msg.Proposer),
       (!env.IsValid msg.InitialDeposit, Error.ErrInvalidCoins msg.InitialDeposit),
       (!env.IsNotNegative msg.InitialDeposit, Error.ErrInvalidCoins msg.InitialDeposit),
       (decide (len msg.Title > 70),
          Error.ErrInvalidLength env.DefaultCodespace env.CodeInvalidProposal "title"
            (len msg.Title) 70),
       (decide (len msg.Description > 280),
          Error.ErrInvalidLength env.DefaultCodespace env.CodeInvalidProposal "description"
            (len msg.Description) 280),
       (decide (msg.ProposalType = env.ProposalTypeParameterChange ∧ msg.Params.length = 0),
          Error.ErrEmptyParam env.DefaultCodespace),
       (decide (msg.ProposalType = env.ProposalTypeParameterChange ∧ msg.Params.length > 1),
          Error.ErrInvalidParamNum env.DefaultCodespace)] := by
  have hprop : msg.Proposer.length = 0 ↔ msg.Proposer = [] := List.length_eq_zero
  unfold MsgSubmitProposal.ValidateBasic MsgSubmitProposal.EnsureLength
  by_cases h1 : len msg.Title = 0
  · simp [firstFailing, h1]
  by_cases h2 : len msg.Description = 0
  · simp [firstFailing, h1, h2]
  cases h3 : env.ValidProposalType msg.ProposalType
  · simp [firstFailing, h1, h2, h3]
  by_cases h4 : msg.Proposer.length = 0
  · simp [firstFailing, h1, h2, h3, h4, hprop.mp h4]
  have h4b : msg.Proposer ≠ [] := fun e => h4 (hprop.mpr e)
  cases h5 : env.IsValid msg.InitialDeposit
  · simp [firstFailing, h1, h2, h3, h4, h5]
  cases h6 : env.IsNotNegative msg.InitialDeposit
  · simp [firstFailing, h1, h2, h3, h4, h5, h6]
  by_cases h7 : len msg.Title > 70
  · have : ¬ len msg.Title ≤ 70 := by omega
    simp [firstFailing, h1, h2, h3, h4, h5, h6, h7, this]
  by_cases h8 : len msg.Description > 280
  · have : ¬ len msg.Description ≤ 280 := by omega
    simp [firstFailing, h1, h2, h3, h4, h5, h6, h7, h8, this]
  have h1b : 1 ≤ len msg.Title := by omega
  have h2b : 1 ≤ len msg.Description := by omega
  have h7b : len msg.Title ≤ 70 := by omega
  have h8b : len msg.Description ≤ 280 := by omega
  by_cases h9 : msg.ProposalType = env.ProposalTypeParameterChange
  · by_cases h10 : msg.Params.length = 0
    · simp [firstFailing, h1, h2, h3, h4, h5, h6, h7, h8, h9, h10, h1b, h2b, h7b, h8b, h4b]
    · by_cases h11 : msg.Params.length > 1
      · have : ¬ msg.Params.length = 1 := by omega
        simp [firstFailing, h1, h2, h3, h4, h5, h6, h7, h8, h9, h10, h11, h1b, h2b, h7b, h8b,
          h4b, this]
      · have : msg.Params.length = 1 := by omega
        simp [firstFailing, h1, h2, h3, h4, h5, h6, h7, h8, h9, h10, h11, h1b, h2b, h7b, h8b,
          h4b, this]
  · simp [firstFailing, h1, h2, h3, h4, h5, h6, h7, h8, h9, h1b, h2b, h7b, h8b, h4b]

/-- C18, as the code has it: `MsgSubmitProposal.ValidateBasic` returns nil exactly when the
title has 1 to 70 bytes, the description 1 to 280 bytes, the proposal type is valid, the
proposer is non-empty, the initial deposit is a valid and not negative coin set and, for a
parameter change only, there is exactly one parameter; and the error returned is that of the
first failing check in the order of the code: title empty, description empty, proposal type,
proposer, deposit valid, deposit not negative, title above 70 bytes, description above 280
bytes, no parameter (`ErrEmptyParam`), more than one parameter (`ErrInvalidParamNum`), the last
two for a parameter change only. -/
theorem ValidateBasic_characterisation (env : Env) (msg : MsgSubmitProposal) :
    (msg.ValidateBasic env = none ↔
      (1 ≤ len msg.Title ∧ len msg.Title ≤ 70) ∧
      (1 ≤ len msg.Description ∧ len msg.Description ≤ 280) ∧
      env.ValidProposalType msg.ProposalType = true ∧
      msg.Proposer ≠ [] ∧
      (env.IsValid msg.InitialDeposit = true ∧ env.IsNotNegative msg.InitialDeposit = true) ∧
      (msg.ProposalType = env.ProposalTypeParameterChange → msg.Params.length = 1)) ∧
    msg.ValidateBasic env = firstFailing
      [(decide (len msg.Title = 0), Error.ErrInvalidTitle env.DefaultCodespace msg.Title),
       (decide (len msg.Description = 0),
          Error.ErrInvalidDescription env.DefaultCodespace msg.Description),
       (!env.ValidProposalType msg.ProposalType,
          Error.ErrInvalidProposalType env.DefaultCodespace msg.ProposalType),
       (decide (msg.Proposer.length = 0), Error.ErrInvalidAddress msg.Proposer),
       (!env.IsValid msg.InitialDeposit, Error.ErrInvalidCoins msg.InitialDeposit),
       (!env.IsNotNegative msg.InitialDeposit, Error.ErrInvalidCoins msg.InitialDeposit),
       (decide (len msg.Title > 70),
          Error.ErrInvalidLength env.DefaultCodespace env.CodeInvalidProposal "title"
            (len msg.Title) 70),
       (decide (len msg.Description > 280),
          Error.ErrInvalidLength env.DefaultCodespace env.CodeInvalidProposal "description"
            (len msg.Description) 280),
       (decide (msg.ProposalType = env.ProposalTypeParameterChange ∧ msg.Params.length = 0),
          Error.ErrEmptyParam env.DefaultCodespace),
       (decide (msg.ProposalType = env.ProposalTypeParameterChange ∧ msg.Params.length > 1),
          Error.ErrInvalidParamNum env.DefaultCodespace)] :=
  validateBasic_checks env msg

/-- C18 as the code has it, at a concrete input: a parameter change with one parameter and a
title of 7 bytes validates. -/
theorem ValidateBasic_characterisation_witness :
    MsgSubmitProposal.ValidateBasic sampleEnv
      { sampleProposal "a title" 1 [("iris", 5)] with
        Params := [{ Subspace := "mint", Key := "Inflation", Value := "0.05" }] } = none :=
  (ValidateBasic_characterisation sampleEnv
    { sampleProposal "a title" 1 [("iris", 5)] with
      Params := [{ Subspace := "mint", Key := "Inflation", Value := "0.05" }] }).1.mpr
    ⟨by decide, by decide, by decide, by decide, by decide, fun _ => by decide⟩

/-- C12, on the code: a proposal with the empty coin set as initial deposit. The empty set is
valid and not negative, and `ValidateBasic` returns nil although the deposit is not strictly
positive. -/
theorem ValidateBasic_accepts_empty_deposit :
    (sampleProposal "a title" 2 []).InitialDeposit = [] ∧
    sampleEnv.IsValid [] = true ∧
    sampleEnv.IsNotNegative [] = true ∧
    (sampleProposal "a title" 2 []).ValidateBasic sampleEnv = none := by
  refine ⟨rfl, by decide, by decide, by decide⟩

theorem ValidateBasic_deposit_checks (env : Env) (msg : MsgSubmitProposal)
    (deposit : Oracle.Coins) (hnil : msg.ValidateBasic env = none)
    (hvalid : env.IsValid deposit = true) (hnonneg : env.IsNotNegative deposit = true) :
    MsgSubmitProposal.ValidateBasic env { msg with InitialDeposit := deposit } = none := by
  have h := (validateBasic_checks env msg).1.mp hnil
  exact (validateBasic_checks env { msg with InitialDeposit := deposit }).1.mpr
    ⟨h.1, h.2.1, h.2.2.1, h.2.2.2.1, ⟨hvalid, hnonneg⟩, h.2.2.2.2.2⟩

/-! ## The derived proposal messages -/

/-- C17: if `ValidateBasic` of the embedded `MsgSubmitProposal` returns an error, then
`ValidateBasic` of the software-upgrade, tax-usage and add-token proposal returns exactly that
error; hence a derived message that validates has a base that validates. -/
theorem derived_ValidateBasic_of_base (env : Env) (upgrade : MsgSubmitSoftwareUpgradeProposal)
    (usage : MsgSubmitTxTaxUsageProposal) (addToken : MsgSubmitAddTokenProposal) :
    (∀ err, upgrade.MsgSubmitProposal.ValidateBasic env = some err →
      upgrade.ValidateBasic env = some err) ∧
    (∀ err, usage.MsgSubmitProposal.ValidateBasic env = some err →
      usage.ValidateBasic env = some err) ∧
    (∀ err, addToken.MsgSubmitProposal.ValidateBasic env = some err →
      addToken.ValidateBasic env = Outcome.returned (some err)) ∧
    (upgrade.ValidateBasic env = none → upgrade.MsgSubmitProposal.ValidateBasic env = none) ∧
    (usage.ValidateBasic env = none → usage.MsgSubmitProposal.ValidateBasic env = none) ∧
    (addToken.ValidateBasic env = Outcome.returned none →
      addToken.MsgSubmitProposal.ValidateBasic env = none) := by
  refine ⟨?_, ?_, ?_, ?_, ?_, ?_⟩
  · intro err h
    simp [MsgSubmitSoftwareUpgradeProposal.ValidateBasic, h]
  · intro err h
    simp [MsgSubmitTxTaxUsageProposal.ValidateBasic, h]
  · intro err h
    simp [MsgSubmitAddTokenProposal.ValidateBasic, h]
  · intro h
    cases hb : upgrade.MsgSubmitProposal.ValidateBasic env with
    | none => rfl
    | some err => simp [MsgSubmitSoftwareUpgradeProposal.ValidateBasic, hb] at h
  · intro h
    cases hb : usage.MsgSubmitProposal.ValidateBasic env with
    | none => rfl
    | some err => simp [MsgSubmitTxTaxUsageProposal.ValidateBasic, hb] at h
  · intro h
    cases hb : addToken.MsgSubmitProposal.ValidateBasic env with
    | none => rfl
    | some err => simp [MsgSubmitAddTokenProposal.ValidateBasic, hb] at h

/-- C17, at a concrete input: a software-upgrade proposal with an empty title and a threshold
that is out of range returns the error of the title. -/
theorem derived_ValidateBasic_of_base_witness :
    (sampleProposal "" 2 []).ValidateBasic sampleEnv = some (Error.ErrInvalidTitle "gov" "") ∧
    MsgSubmitSoftwareUpgradeProposal.ValidateBasic sampleEnv
      { MsgSubmitProposal := sampleProposal "" 2 [], Version := 1, Software := "v1",
        SwitchHeight := 100, Threshold := NewDec 2 } = some (Error.ErrInvalidTitle "gov" "") :=
  ⟨by decide,
    (derived_ValidateBasic_of_base sampleEnv
      { MsgSubmitProposal := sampleProposal "" 2 [], Version := 1, Software := "v1",
        SwitchHeight := 100, Threshold := NewDec 2 }
      { MsgSubmitProposal := sampleProposal "" 2 [], Usage := 1, DestAddress := [],
        Percent := NewDec 1 }
      { MsgSubmitProposal := sampleProposal "" 2 [], Symbol := "btc", SymbolAtSource := "btc",
        Name := "bitcoin", Decimal := 8, SymbolMinAlias := "satoshi",
        InitialSupply := 21 }).1 _ (by decide)⟩

/-- The behaviour of `MsgSubmitSoftwareUpgradeProposal.ValidateBasic` on a valid base and a
software name of at most 70 bytes: `ErrInvalidUpgradeThreshold` is returned exactly when the
threshold is below 0.80 or at least 1. -/
theorem upgrade_threshold_iff (env : Env) (msg : MsgSubmitSoftwareUpgradeProposal)
    (hbase : msg.MsgSubmitProposal.ValidateBasic env = none) (hsoft : len msg.Software ≤ 70) :
    (msg.ValidateBasic env
        = some (Error.ErrInvalidUpgradeThreshold env.DefaultCodespace msg.Threshold) ↔
      ¬ ((NewDecWithPrec 80 2).raw ≤ msg.Threshold.raw ∧ msg.Threshold.raw < (NewDec 1).raw)) ∧
    (msg.ValidateBasic env = none ↔
      ((NewDecWithPrec 80 2).raw ≤ msg.Threshold.raw ∧ msg.Threshold.raw < (NewDec 1).raw)) := by
  have hs : ¬ len msg.Software > 70 := by omega
  by_cases h1 : msg.Threshold.raw < (NewDecWithPrec 80 2).raw
  · have : ¬ (NewDecWithPrec 80 2).raw ≤ msg.Threshold.raw := by omega
    simp [MsgSubmitSoftwareUpgradeProposal.ValidateBasic, hbase, hs, Dec.LT, Dec.GTE, h1, this]
  · have h1b : (NewDecWithPrec 80 2).raw ≤ msg.Threshold.raw := by omega
    by_cases h2 : msg.Threshold.raw ≥ (NewDec 1).raw
    · have : ¬ msg.Threshold.raw < (NewDec 1).raw := by omega
      simp [MsgSubmitSoftwareUpgradeProposal.ValidateBasic, hbase, hs, Dec.LT, Dec.GTE, h1, h2,
        this]
    · have : msg.Threshold.raw < (NewDec 1).raw := by omega
      simp [MsgSubmitSoftwareUpgradeProposal.ValidateBasic, hbase, hs, Dec.LT, Dec.GTE, h1, h2,
        this, h1b]

/-- C11, on the code: a software-upgrade proposal with a valid base, an empty software name and
the threshold 0.82. The threshold is below 0.85, outside the interval [0.85, 1) of the comment,
and `ValidateBasic` returns nil: the code compares with `NewDecWithPrec(80, 2)`, that is
0.80. -/
theorem upgrade_threshold_082_accepted :
    (sampleProposal "a title" 2 [("iris", 5)]).ValidateBasic sampleEnv = none ∧
    (NewDecWithPrec 82 2).LT (NewDecWithPrec 85 2) = true ∧
    MsgSubmitSoftwareUpgradeProposal.ValidateBasic sampleEnv
      { MsgSubmitProposal := sampleProposal "a title" 2 [("iris", 5)], Version := 1,
        Software := "", SwitchHeight := 100, Threshold := NewDecWithPrec 82 2 } = none := by
  refine ⟨by decide, by decide, by decide⟩

/-- C19: for a tax-usage proposal whose embedded base proposal validates, `ValidateBasic`
returns nil exactly when the usage type is valid, the destination address is non-empty unless
the usage is the burn, and the percent is above 0 and at most 1 as exact decimals; so the
percent 0 is rejected and the percent 1 is accepted. -/
theorem usage_ValidateBasic_iff (env : Env) (msg : MsgSubmitTxTaxUsageProposal)
    (hbase : msg.MsgSubmitProposal.ValidateBasic env = none) :
    (msg.ValidateBasic env = none ↔
      env.ValidUsageType msg.Usage = true ∧
      (msg.Usage ≠ env.UsageTypeBurn → msg.DestAddress ≠ []) ∧
      (NewDec 0).raw < msg.Percent.raw ∧ msg.Percent.raw ≤ (NewDec 1).raw) ∧
    MsgSubmitTxTaxUsageProposal.ValidateBasic env { msg with Percent := NewDec 0 } ≠ none ∧
    (env.ValidUsageType msg.Usage = true →
      (msg.Usage ≠ env.UsageTypeBurn → msg.DestAddress ≠ []) →
      MsgSubmitTxTaxUsageProposal.ValidateBasic env { msg with Percent := NewDec 1 } = none) := by
  have hlen : msg.DestAddress.length = 0 ↔ msg.DestAddress = [] := List.length_eq_zero
  have key : ∀ p : Dec, MsgSubmitTxTaxUsageProposal.ValidateBasic env { msg with Percent := p }
      = none ↔
        env.ValidUsageType msg.Usage = true ∧
        (msg.Usage ≠ env.UsageTypeBurn → msg.DestAddress ≠ []) ∧
        (NewDec 0).raw < p.raw ∧ p.raw ≤ (NewDec 1).raw := by
    intro p
    unfold MsgSubmitTxTaxUsageProposal.ValidateBasic
    simp only [hbase]
    cases hu : env.ValidUsageType msg.Usage
    · simp
    by_cases hb : msg.Usage = env.UsageTypeBurn
    · by_cases h0 : p.raw ≤ (NewDec 0).raw
      · have : ¬ (NewDec 0).raw < p.raw := by omega
        simp [hb, Dec.LTE, Dec.GT, h0, this]
      · have h0b : (NewDec 0).raw < p.raw := by omega
        by_cases h1 : p.raw > (NewDec 1).raw
        · have : ¬ p.raw ≤ (NewDec 1).raw := by omega
          simp [hb, Dec.LTE, Dec.GT, h0, h1, this]
        · have : p.raw ≤ (NewDec 1).raw := by omega
          simp [hb, Dec.LTE, Dec.GT, h0, h1, this, h0b]
    · by_cases hd : msg.DestAddress.length = 0
      · simp [hb, hd, hlen.mp hd]
      · have hd2 : msg.DestAddress ≠ [] := fun e => hd (hlen.mpr e)
        by_cases h0 : p.raw ≤ (NewDec 0).raw
        · have : ¬ (NewDec 0).raw < p.raw := by omega
          simp [hb, hd, Dec.LTE, Dec.GT, h0, this]
        · have h0b : (NewDec 0).raw < p.raw := by omega
          by_cases h1 : p.raw > (NewDec 1).raw
          · have : ¬ p.raw ≤ (NewDec 1).raw := by omega
            simp [hb, hd, Dec.LTE, Dec.GT, h0, h1, this]
          · have : p.raw ≤ (NewDec 1).raw := by omega
            simp [hb, hd, hd2, Dec.LTE, Dec.GT, h0, h1, this, h0b]
  refine ⟨key msg.Percent, ?_, ?_⟩
  · intro h
    have := ((key (NewDec 0)).mp h).2.2.1
    exact absurd this (lt_irrefl _)
  · intro hu hd
    exact (key (NewDec 1)).mpr ⟨hu, hd, by decide, le_refl _⟩

/-- C19, at a concrete input: a burn proposal without destination and with percent 1. -/
theorem usage_ValidateBasic_iff_witness :
    (sampleProposal "a title" 2 [("iris", 5)]).ValidateBasic sampleEnv = none ∧
    MsgSubmitTxTaxUsageProposal.ValidateBasic sampleEnv
      { MsgSubmitProposal := sampleProposal "a title" 2 [("iris", 5)], Usage := 1,
        DestAddress := [], Percent := NewDec 1 } = none :=
  ⟨by decide,
    (usage_ValidateBasic_iff sampleEnv
      { MsgSubmitProposal := sampleProposal "a title" 2 [("iris", 5)], Usage := 1,
        DestAddress := [], Percent := NewDec 1 } (by decide)).1.mpr
      ⟨by decide, by decide, by decide, by decide⟩⟩

/-- The behaviour of `MsgSubmitAddTokenProposal.ValidateBasic` on a valid base: it ends in a
nil dereference exactly when the issue-token validation returns nil, and otherwise returns nil
for the code `CodeInvalidAssetSource` and the error of the validation for any other code. -/
theorem addToken_ValidateBasic_outcome (env : Env) (msg : MsgSubmitAddTokenProposal)
    (hbase : msg.MsgSubmitProposal.ValidateBasic env = none) :
    (msg.ValidateBasic env = Outcome.nilDereference ↔
      env.issueTokenValidateBasic (msg.issueToken env) = none) ∧
    (∀ err, env.issueTokenValidateBasic (msg.issueToken env) = some err →
      msg.ValidateBasic env =
        if err.code = env.CodeInvalidAssetSource then Outcome.returned none
        else Outcome.returned (some (Error.foreign err))) := by
  unfold MsgSubmitAddTokenProposal.ValidateBasic
  simp only [hbase]
  cases hv : env.issueTokenValidateBasic (msg.issueToken env) with
  | none => simp
  | some err =>
    refine ⟨?_, ?_⟩
    · by_cases hc : err.code = env.CodeInvalidAssetSource <;> simp [hc]
    · intro e he
      cases he
      rfl


/-! ## MsgDeposit and MsgVote -/

/-- C21: the proposal-ID check of `MsgDeposit.ValidateBasic` and `MsgVote.ValidateBasic` is
never taken: for every `ProposalID` (0 included) neither function returns
`ErrUnknownProposal`; `MsgDeposit` validates exactly when the depositor is non-empty and the
amount is a valid and not negative coin set, `MsgVote` validates exactly when the voter is
non-empty and the option is a valid vote option, and the result of either function does not
depend on `ProposalID`. -/
theorem proposalID_check_unreachable (env : Env) (deposit : MsgDeposit) (vote : MsgVote) :
    (∀ codespace id, deposit.ValidateBasic env ≠ some (Error.ErrUnknownProposal codespace id)) ∧
    (∀ codespace id, vote.ValidateBasic env ≠ some (Error.ErrUnknownProposal codespace id)) ∧
    (deposit.ValidateBasic env = none ↔
      deposit.Depositor ≠ [] ∧ env.IsValid deposit.Amount = true ∧
        env.IsNotNegative deposit.Amount = true) ∧
    (vote.ValidateBasic env = none ↔
      vote.Voter ≠ [] ∧ env.ValidVoteOption vote.Option = true) ∧
    (∀ id, MsgDeposit.ValidateBasic env { deposit with ProposalID := id }
      = deposit.ValidateBasic env) ∧
    (∀ id, MsgVote.ValidateBasic env { vote with ProposalID := id }
      = vote.ValidateBasic env) := by
  have hd : deposit.Depositor.length = 0 ↔ deposit.Depositor = [] := List.length_eq_zero
  have hv : vote.Voter.length = 0 ↔ vote.Voter = [] := List.length_eq_zero
  refine ⟨?_, ?_, ?_, ?_, ?_, ?_⟩
  · intro codespace id
    unfold MsgDeposit.ValidateBasic
    simp only [Nat.not_lt_zero, if_false]
    split
    · simp
    · split
      · simp
      · split <;> simp
  · intro codespace id
    unfold MsgVote.ValidateBasic
    simp only [Nat.not_lt_zero, if_false]
    split
    · simp
    · split <;> simp
  · unfold MsgDeposit.ValidateBasic
    simp only [Nat.not_lt_zero, if_false]
    by_cases h1 : deposit.Depositor.length = 0
    · simp [h1, hd.mp h1]
    · have h1b : deposit.Depositor ≠ [] := fun e => h1 (hd.mpr e)
      cases h2 : env.IsValid deposit.Amount
      · simp [h1]
      · cases h3 : env.IsNotNegative deposit.Amount <;> simp [h1, h1b]
  · unfold MsgVote.ValidateBasic
    simp only [Nat.not_lt_zero, if_false]
    by_cases h1 : vote.Voter.length = 0
    · simp [h1, hv.mp h1]
    · have h1b : vote.Voter ≠ [] := fun e => h1 (hv.mpr e)
      cases h2 : env.ValidVoteOption vote.Option <;> simp [h1, h1b]
  · intro id
    simp [MsgDeposit.ValidateBasic]
  · intro id
    simp [MsgVote.ValidateBasic]

/-- C21, at concrete inputs: a deposit and a vote on the proposal ID 0 validate, and a vote
with the option 9 is rejected for its option. -/
theorem proposalID_check_unreachable_witness :
    MsgDeposit.ValidateBasic sampleEnv
      { ProposalID := 0, Depositor := [1], Amount := [("iris", 5)] } = none ∧
    MsgVote.ValidateBasic sampleEnv { ProposalID := 0, Voter := [1], Option := 1 } = none ∧
    MsgVote.ValidateBasic sampleEnv { ProposalID := 0, Voter := [1], Option := 9 }
      = some (Error.ErrInvalidVote "gov" 9) :=
  ⟨(proposalID_check_unreachable sampleEnv
      { ProposalID := 0, Depositor := [1], Amount := [("iris", 5)] }
      { ProposalID := 0, Voter := [1], Option := 1 }).2.2.1.mpr
      ⟨by decide, by decide, by decide⟩,
    (proposalID_check_unreachable sampleEnv
      { ProposalID := 0, Depositor := [1], Amount := [("iris", 5)] }
      { ProposalID := 0, Voter := [1], Option := 1 }).2.2.2.1.mpr ⟨by decide, by decide⟩,
    by decide⟩

end Gov

namespace Service

/-! ## The service module: lookups -/

theorem getContext_mapContexts (f : Nat → RequestContext → RequestContext)
    (contexts : List (Nat × RequestContext)) (id : Nat) :
    getContext (mapContexts f contexts) id = (getContext contexts id).map (f id) := by
  induction contexts with
  | nil => rfl
  | cons e es ih =>
    by_cases h : e.1 = id
    · simp [getContext, mapContexts, List.find?_cons, h]
    · simp only [getContext, mapContexts, List.map_cons, List.find?_cons, h, decide_False] at ih ⊢
      exact ih

theorem getContext_setContext (contexts : List (Nat × RequestContext)) (id : Nat)
    (c0 c : RequestContext) (h : getContext contexts id = some c0) :
    getContext (setContext contexts id c) id = some c := by
  simp [setContext, getContext_mapContexts, h]

theorem getBinding_map (f : ServiceBinding → ServiceBinding) (bindings : List ServiceBinding)
    (service : String) (provider : Oracle.AccAddress)
    (hkey : ∀ b, (f b).ServiceName = b.ServiceName ∧ (f b).Provider = b.Provider) :
    getBinding (bindings.map f) service provider
      = (getBinding bindings service provider).map f := by
  induction bindings with
  | nil => rfl
  | cons b bs ih =>
    simp only [getBinding, List.map_cons, List.find?_cons, (hkey b).1, (hkey b).2] at ih ⊢
    cases hb : (decide (b.ServiceName = service) && decide (b.Provider = provider)) with
    | true => simp
    | false => simpa using ih

theorem getBinding_key (bindings : List ServiceBinding) (service : String)
    (provider : Oracle.AccAddress) (b : ServiceBinding)
    (h : getBinding bindings service provider = some b) :
    b.ServiceName = service ∧ b.Provider = provider := by
  have := List.find?_some h
  simpa using this

theorem getBinding_setBinding (bindings : List ServiceBinding) (service : String)
    (provider : Oracle.AccAddress) (b0 b : ServiceBinding)
    (h : getBinding bindings service provider = some b0)
    (hk : b.ServiceName = service ∧ b.Provider = provider) :
    getBinding (setBinding bindings b) service provider = some b := by
  have hk0 := getBinding_key bindings service provider b0 h
  unfold setBinding
  rw [getBinding_map]
  · simp [h, hk0.1, hk0.2, hk.1, hk.2]
  · intro b1
    by_cases hb : b1.ServiceName = b.ServiceName ∧ b1.Provider = b.Provider
    · simp [hb, hb.1, hb.2]
    · simp [hb]

theorem balanceOf_setBalance_same (balances : List (Oracle.AccAddress × Nat))
    (addr : Oracle.AccAddress) (amount : Nat) :
    balanceOf (setBalance balances addr amount) addr = amount := by
  simp [balanceOf, setBalance]

theorem balanceOf_setBalance_other (balances : List (Oracle.AccAddress × Nat))
    (addr other : Oracle.AccAddress) (amount : Nat) (h : other ≠ addr) :
    balanceOf (setBalance balances addr amount) other = balanceOf balances other := by
  have hne : ¬ addr = other := fun e => h e.symm
  have hp : (fun a : Oracle.AccAddress × Nat => decide ((!decide (a.1 = addr)) = true ∧
      decide (a.1 = other) = true)) = fun e => decide (e.1 = other) := by
    funext e
    by_cases he : e.1 = other
    · have : ¬ e.1 = addr := fun e2 => h (he.symm.trans e2)
      simp [he, this]
      exact h
    · simp [he]
  simp only [balanceOf, setBalance, List.find?_cons, decide_eq_false hne, List.find?_filter,
    ne_eq, decide_not, hp]

/-! ## The service module: what a message leaves as it is -/

/-- A batch build that succeeds has built the batch of `newBatch`, which the consumer can pay,
and has moved its fee into escrow. -/
theorem buildBatch_ok (s s1 : State) (c c1 : RequestContext)
    (h : buildBatch s c = Except.ok (c1, s1)) :
    newBatch s.bindings s.height c = some c1 ∧
      batchFee c1 ≤ balanceOf s.balances c.Consumer ∧
      s1 = toEscrow s c.Consumer (batchFee c1) := by
  unfold buildBatch at h
  split at h
  · cases h
  · rename_i c2 hb
    split at h
    · cases h
    · rename_i hbal
      cases h
      exact ⟨hb, by omega, rfl⟩

/-- The builds of the scheduled batches change the bank only. -/
theorem buildDue_frame (es : List (Nat × RequestContext)) (s : State) :
    (buildDue es s).2.params = s.params ∧ (buildDue es s).2.height = s.height ∧
      (buildDue es s).2.bindings = s.bindings := by
  induction es generalizing s with
  | nil => exact ⟨rfl, rfl, rfl⟩
  | cons e es ih =>
    unfold buildDue
    split
    · split
      · rename_i c1 s1 hb
        obtain ⟨_, _, rfl⟩ := buildBatch_ok _ _ _ _ hb
        exact ih _
      · exact ih _
    · exact ih _

theorem tick_frame (s : State) :
    (tick s).params = s.params ∧ (tick s).height = s.height + 1 ∧
      (tick s).bindings
        = penalizeAll s.params s.height (missedAt s.height s.contexts) s.bindings := by
  refine ⟨?_, rfl, ?_⟩
  · exact (buildDue_frame _ _).1
  · exact (buildDue_frame _ _).2.2

/-! ## The service module: the progress invariant of a request context -/

theorem Disable_ok (s : State) (service : String) (provider : Oracle.AccAddress)
    (b : ServiceBinding) (hb : getBinding s.bindings service provider = some b)
    (hzero : b.DisabledTime = 0) :
    ∃ s1, Disable s service provider = Except.ok s1 ∧
      getBinding s1.bindings service provider
        = some { b with Available := false, DisabledTime := s.height } ∧
      s1.height = s.height ∧ s1.params = s.params ∧ s1.balances = s.balances := by
  have hk := getBinding_key _ _ _ _ hb
  refine ⟨{ s with
      bindings :=
        setBinding s.bindings ({ b with Available := false, DisabledTime := s.height }) },
    by simp [Disable, hb, hzero], ?_, rfl, rfl, rfl⟩
  exact getBinding_setBinding _ _ _ b _ hb hk

theorem RefundDeposit_cases (s : State) (service : String) (provider : Oracle.AccAddress)
    (b : ServiceBinding) (hb : getBinding s.bindings service provider = some b) :
    (b.DisabledTime = 0 →
      RefundDeposit s service provider = Except.error Error.StillAvailable) ∧
    (b.DisabledTime ≠ 0 → s.height - b.DisabledTime < s.params.RefundCooldown →
      RefundDeposit s service provider = Except.error Error.CooldownNotElapsed) ∧
    (b.DisabledTime ≠ 0 → s.params.RefundCooldown ≤ s.height - b.DisabledTime →
      ∃ s1, RefundDeposit s service provider = Except.ok s1 ∧
        getBinding s1.bindings service provider = some { b with Deposit := 0 } ∧
        balanceOf s1.balances b.WithdrawAddress
          = balanceOf s.balances b.WithdrawAddress + b.Deposit ∧
        (∀ other, other ≠ b.WithdrawAddress →
          balanceOf s1.balances other = balanceOf s.balances other) ∧
        s1.escrow = s.escrow - b.Deposit) := by
  have hk := getBinding_key _ _ _ _ hb
  refine ⟨?_, ?_, ?_⟩
  · intro h0
    simp [RefundDeposit, hb, h0]
  · intro h0 hlt
    simp [RefundDeposit, hb, h0, hlt]
  · intro h0 hge
    have hnl : ¬ s.height - b.DisabledTime < s.params.RefundCooldown := by omega
    refine ⟨_, by simp [RefundDeposit, hb, h0, hnl]; rfl, ?_, ?_, ?_, rfl⟩
    · exact getBinding_setBinding _ _ _ b _ hb hk
    · exact balanceOf_setBalance_same _ _ _
    · intro other hother
      exact balanceOf_setBalance_other _ _ _ _ hother

theorem penalize_unavailable (params : Params) (height : Nat) (service0 : String)
    (provider0 : Oracle.AccAddress) (bindings : List ServiceBinding) (service : String)
    (provider : Oracle.AccAddress) (b : ServiceBinding)
    (hb : getBinding bindings service provider = some b) (hoff : b.Available = false) :
    ∃ m, getBinding (penalize params height service0 provider0 bindings) service provider
      = some { b with Misses := m } := by
  unfold penalize
  rw [getBinding_map]
  · rw [hb]
    by_cases hk : b.ServiceName = service0 ∧ b.Provider = provider0
    · exact ⟨b.Misses + 1, by simp [hk, hoff]⟩
    · exact ⟨b.Misses, by simp [hk]⟩
  · intro b1
    by_cases hk : b1.ServiceName = service0 ∧ b1.Provider = provider0
    · by_cases hd : b1.Available = true ∧ params.MaxMisses ≤ b1.Misses + 1
      · simp [hk, hd]
      · simp [hk, hd]
    · simp [hk]

theorem penalizeAll_unavailable (params : Params) (height : Nat)
    (missed : List (String × Oracle.AccAddress)) (bindings : List ServiceBinding)
    (service : String) (provider : Oracle.AccAddress) (b : ServiceBinding)
    (hb : getBinding bindings service provider = some b) (hoff : b.Available = false) :
    ∃ m, getBinding (penalizeAll params height missed bindings) service provider
      = some { b with Misses := m } := by
  induction missed generalizing bindings b with
  | nil => exact ⟨b.Misses, by simpa [penalizeAll] using hb⟩
  | cons x xs ih =>
    obtain ⟨m, hm⟩ := penalize_unavailable params height x.1 x.2 bindings service provider b
      hb hoff
    obtain ⟨m2, hm2⟩ := ih _ { b with Misses := m } hm hoff
    exact ⟨m2, hm2⟩

theorem ticks_unavailable (n : Nat) (s : State) (service : String)
    (provider : Oracle.AccAddress) (b : ServiceBinding)
    (hb : getBinding s.bindings service provider = some b) (hoff : b.Available = false) :
    (∃ m, getBinding (ticks n s).bindings service provider = some { b with Misses := m }) ∧
    (ticks n s).height = s.height + n ∧ (ticks n s).params = s.params := by
  induction n generalizing s b with
  | zero => exact ⟨⟨b.Misses, hb⟩, rfl, rfl⟩
  | succ n ih =>
    obtain ⟨m, hm⟩ := penalizeAll_unavailable s.params s.height (missedAt s.height s.contexts)
      s.bindings service provider b hb hoff
    have hf := tick_frame s
    have hstep : getBinding (tick s).bindings service provider
        = some { b with Misses := m } := by
      rw [hf.2.2]; exact hm
    obtain ⟨⟨m2, hm2⟩, hh, hp⟩ := ih (tick s) { b with Misses := m } hstep hoff
    refine ⟨⟨m2, hm2⟩, ?_, ?_⟩
    · show (ticks n (tick s)).height = s.height + (n + 1)
      rw [hh, hf.2.1]; omega
    · show (ticks n (tick s)).params = s.params
      rw [hp, hf.1]

/-- The batch builds of a tick debit their consumers: no balance grows in a tick. -/
theorem balanceOf_toEscrow_le (s : State) (addr a : Oracle.AccAddress) (amount : Nat) :
    balanceOf (toEscrow s addr amount).balances a ≤ balanceOf s.balances a := by
  by_cases h : a = addr
  · subst h
    show balanceOf (setBalance s.balances a _) a ≤ _
    rw [balanceOf_setBalance_same]
    omega
  · show balanceOf (setBalance s.balances addr _) a ≤ _
    rw [balanceOf_setBalance_other _ _ _ _ h]

theorem buildDue_balance_le (es : List (Nat × RequestContext)) (s : State)
    (a : Oracle.AccAddress) :
    balanceOf (buildDue es s).2.balances a ≤ balanceOf s.balances a := by
  induction es generalizing s with
  | nil => exact Nat.le_refl _
  | cons e es ih =>
    unfold buildDue
    split
    · split
      · rename_i c1 s1 hb
        obtain ⟨_, _, rfl⟩ := buildBatch_ok _ _ _ _ hb
        exact Nat.le_trans (ih _) (balanceOf_toEscrow_le s _ a _)
      · exact ih _
    · exact ih _

theorem ticks_balance_le (n : Nat) (s : State) (a : Oracle.AccAddress) :
    balanceOf (ticks n s).balances a ≤ balanceOf s.balances a := by
  induction n generalizing s with
  | zero => exact Nat.le_refl _
  | succ n ih =>
    have h1 : balanceOf (tick s).balances a ≤ balanceOf s.balances a :=
      buildDue_balance_le (expireAll s).contexts (expireAll s) a
    exact Nat.le_trans (ih (tick s)) h1

/-! ## The service module: the request context through ticks and responses -/

theorem getContext_buildDue (es : List (Nat × RequestContext)) (s : State) (id : Nat)
    (c : RequestContext) (hc : getContext es id = some c) (hdue : isDue s.height c = false) :
    getContext (buildDue es s).1 id = some c := by
  induction es generalizing s with
  | nil => simp [getContext] at hc
  | cons e es ih =>
    by_cases hid : e.1 = id
    · have hec : e.2 = c := by
        simpa [getContext, List.find?_cons, hid] using hc
      have hdue2 : ¬ isDue s.height e.2 = true := by rw [hec, hdue]; simp
      unfold buildDue
      rw [if_neg hdue2]
      simp [getContext, List.find?_cons, hid, hec]
    · have hc2 : getContext es id = some c := by
        simpa [getContext, List.find?_cons, hid] using hc
      unfold buildDue
      split
      · split
        · rename_i c1 s1 hb
          obtain ⟨_, _, rfl⟩ := buildBatch_ok _ _ _ _ hb
          have := ih (toEscrow s e.2.Consumer (batchFee c1)) hc2 hdue
          simpa [getContext, List.find?_cons, hid] using this
        · have := ih s hc2 hdue
          simpa [getContext, List.find?_cons, hid] using this
      · have := ih s hc2 hdue
        simpa [getContext, List.find?_cons, hid] using this

/-- A context that the tick neither expires nor builds is the same after the tick. -/
theorem tick_getContext_quiet (s : State) (id : Nat) (c : RequestContext)
    (hc : getContext s.contexts id = some c) (hexp : expireContext s.height c = c)
    (hdue : isDue s.height c = false) : getContext (tick s).contexts id = some c := by
  have h1 : getContext (expireAll s).contexts id = some c := by
    show getContext (mapContexts (fun _ c => expireContext s.height c) s.contexts) id = _
    rw [getContext_mapContexts, hc]
    simp [hexp]
  exact getContext_buildDue _ (expireAll s) id c h1 hdue

theorem ticks_getContext_of_quiet (c : RequestContext) (id bound : Nat)
    (hquiet : ∀ height, height < bound → expireContext height c = c ∧ isDue height c = false)
    (n : Nat) (s : State) (hn : s.height + n ≤ bound)
    (hc : getContext s.contexts id = some c) :
    getContext (ticks n s).contexts id = some c ∧ (ticks n s).height = s.height + n := by
  induction n generalizing s with
  | zero => exact ⟨hc, rfl⟩
  | succ n ih =>
    have hq := hquiet s.height (by omega)
    have hstep : getContext (tick s).contexts id = some c :=
      tick_getContext_quiet s id c hc hq.1 hq.2
    have hh : (tick s).height = s.height + 1 := rfl
    obtain ⟨h1, h2⟩ := ih (tick s) (by omega) hstep
    exact ⟨h1, by show (ticks n (tick s)).height = _; omega⟩

theorem scenarioRunning_quiet (args : CreateArgs) (start : Nat)
    (pending : List (Nat × Oracle.AccAddress × Nat)) (answered : Nat)
    (hpending : pending ≠ []) (hans : answered < 2) (height : Nat)
    (hh : height < start + args.timeout) :
    expireContext height (scenarioRunning args start pending answered)
        = scenarioRunning args start pending answered ∧
      isDue height (scenarioRunning args start pending answered) = false := by
  have hne : ¬ start + args.timeout = height := by omega
  constructor
  · cases pending with
    | nil => exact absurd rfl hpending
    | cons p ps =>
      have hans2 : ¬ answered = 2 := by omega
      simp [expireContext, scenarioRunning, settle, expiresAt, hne, hans2, List.map_map,
        Function.comp_def]
  · simp [isDue, scenarioRunning]

theorem scenarioCompleted_quiet (args : CreateArgs) (start : Nat) (hfreq : args.frequency = 20)
    (height : Nat) (hh : height < start + 20) :
    expireContext height (scenarioCompleted args start) = scenarioCompleted args start ∧
      isDue height (scenarioCompleted args start) = false := by
  have hne : ¬ height = start + 20 := by omega
  constructor
  · simp [expireContext, scenarioCompleted, settle]
  · simp [isDue, scenarioCompleted, dormantContext, hfreq, hne]

theorem HandleResponse_scenario (s : State) (id : Nat) (args : CreateArgs) (start : Nat)
    (pending : List (Nat × Oracle.AccAddress × Nat)) (answered : Nat) (index : Nat)
    (provider : Oracle.AccAddress) (price : Nat) (payload : Payload)
    (hc : getContext s.contexts id
      = some (scenarioRunning args start ((index, provider, price) :: pending) answered)) :
    ∃ s1, HandleResponse s id 1 index payload = Except.ok s1 ∧
      getContext s1.contexts id
        = some (settle (scenarioRunning args start pending (answered + 1))) ∧
      s1.height = s.height := by
  refine ⟨{ s with
      responses := s.responses ++
        [{ RequestContextID := id, BatchCounter := 1, ProviderIndex := index,
           Provider := provider, Consumer := args.consumer, Payload := payload }]
      fees := addIncomingFee s.fees provider (charge args.superMode args.feeCap price)
      contexts := setContext s.contexts id
        (settle (scenarioRunning args start pending (answered + 1))) }, ?_, ?_, rfl⟩
  · simp [HandleResponse, hc, scenarioRunning]
  · exact getContext_setContext _ _ _ _ hc

theorem HandleResponse_scenario_second (s : State) (id : Nat) (args : CreateArgs) (start : Nat)
    (index0 : Nat) (provider0 : Oracle.AccAddress) (price0 : Nat) (answered : Nat) (index : Nat)
    (provider : Oracle.AccAddress) (price : Nat) (payload : Payload) (hne : index0 ≠ index)
    (hc : getContext s.contexts id
      = some (scenarioRunning args start
          [(index0, provider0, price0), (index, provider, price)] answered)) :
    ∃ s1, HandleResponse s id 1 index payload = Except.ok s1 ∧
      getContext s1.contexts id
        = some (settle
            (scenarioRunning args start [(index0, provider0, price0)] (answered + 1))) ∧
      s1.height = s.height := by
  refine ⟨{ s with
      responses := s.responses ++
        [{ RequestContextID := id, BatchCounter := 1, ProviderIndex := index,
           Provider := provider, Consumer := args.consumer, Payload := payload }]
      fees := addIncomingFee s.fees provider (charge args.superMode args.feeCap price)
      contexts := setContext s.contexts id
        (settle (scenarioRunning args start [(index0, provider0, price0)] (answered + 1))) },
    ?_, ?_, rfl⟩
  · simp [HandleResponse, hc, scenarioRunning, hne, List.eraseP_cons]
  · exact getContext_setContext _ _ _ _ hc

theorem settle_scenarioRunning (args : CreateArgs) (start : Nat)
    (pending : List (Nat × Oracle.AccAddress × Nat)) (answered : Nat) (hpending : pending ≠ [])
    (hans : answered < 2) :
    settle (scenarioRunning args start pending answered)
      = scenarioRunning args start pending answered := by
  cases pending with
  | nil => exact absurd rfl hpending
  | cons p ps =>
    have hans2 : ¬ answered = 2 := by omega
    simp [settle, scenarioRunning, hans2]

theorem settle_scenario_done (service : String) (providerA providerB consumer : Oracle.AccAddress)
    (input : String) (feeCap : Nat) (moduleName : String) (superMode : Bool) (start : Nat) :
    settle (scenarioRunning
        (scenarioArgs service providerA providerB consumer input feeCap moduleName superMode)
        start [] 2)
      = scenarioCompleted
        (scenarioArgs service providerA providerB consumer input feeCap moduleName superMode)
        start := by
  simp [settle, scenarioRunning, scenarioCompleted, finalize, dormantContext, scenarioArgs]

theorem contextFacts_running (args : CreateArgs) (start : Nat)
    (pending : List (Nat × Oracle.AccAddress × Nat)) (answered : Nat)
    (hst : args.initialState = Oracle.RequestContextState.Running) :
    (scenarioRunning args start pending answered).BatchCounter = 1 ∧
    (scenarioRunning args start pending answered).BatchRequestCount = 2 ∧
    (scenarioRunning args start pending answered).BatchResponseCount = answered ∧
    (scenarioRunning args start pending answered).BatchState = BatchState.BatchRunning ∧
    (scenarioRunning args start pending answered).State = Oracle.RequestContextState.Running :=
  ⟨rfl, rfl, rfl, rfl, hst⟩

/-- The creation of the scenario: with both providers bound and available and a consumer that
can pay the two charges, the context is stored with its first batch and the charges are in
escrow. -/
theorem CreateRequestContext_scenario (s : State) (service : String)
    (providerA providerB consumer : Oracle.AccAddress) (input : String) (feeCap : Nat)
    (moduleName : String) (superMode : Bool) (bindingA bindingB : ServiceBinding)
    (hservice : service ∈ s.services)
    (hA : getBinding s.bindings service providerA = some bindingA)
    (hAon : bindingA.Available = true)
    (hB : getBinding s.bindings service providerB = some bindingB)
    (hBon : bindingB.Available = true)
    (hfunds : charge superMode feeCap bindingA.Pricing + charge superMode feeCap bindingB.Pricing
      ≤ balanceOf s.balances consumer) :
    CreateRequestContext s
        (scenarioArgs service providerA providerB consumer input feeCap moduleName superMode)
      = Except.ok (s.nextID,
        { toEscrow s consumer
            (charge superMode feeCap bindingA.Pricing
              + charge superMode feeCap bindingB.Pricing) with
          contexts := (s.nextID, scenarioRunning
            (scenarioArgs service providerA providerB consumer input feeCap moduleName superMode)
            s.height [(0, providerA, bindingA.Pricing), (1, providerB, bindingB.Pricing)] 0)
            :: s.contexts
          nextID := s.nextID + 1 }) := by
  have hsel : selectProviders s.bindings service 0 [providerA, providerB]
      = [(0, providerA, bindingA.Pricing), (1, providerB, bindingB.Pricing)] := by
    simp [selectProviders, hA, hAon, hB, hBon]
  have hnot : ¬ balanceOf s.balances consumer
      < charge superMode feeCap bindingA.Pricing + charge superMode feeCap bindingB.Pricing := by
    omega
  simp [CreateRequestContext, scenarioArgs, hservice, buildBatch, newBatch, hsel,
    dormantContext, scenarioRunning, batchFee, hnot]

/-- A call that the consumer cannot pay fails with `InsufficientBalance`: the batch build
debits the charges or fails. -/
theorem CreateRequestContext_insufficient_balance (s : State) (service : String)
    (providerA providerB consumer : Oracle.AccAddress) (input : String) (feeCap : Nat)
    (moduleName : String) (superMode : Bool) (bindingA bindingB : ServiceBinding)
    (hservice : service ∈ s.services)
    (hA : getBinding s.bindings service providerA = some bindingA)
    (hAon : bindingA.Available = true)
    (hB : getBinding s.bindings service providerB = some bindingB)
    (hBon : bindingB.Available = true)
    (hfunds : balanceOf s.balances consumer
      < charge superMode feeCap bindingA.Pricing + charge superMode feeCap bindingB.Pricing) :
    CreateRequestContext s
        (scenarioArgs service providerA providerB consumer input feeCap moduleName superMode)
      = Except.error Error.InsufficientBalance := by
  have hsel : selectProviders s.bindings service 0 [providerA, providerB]
      = [(0, providerA, bindingA.Pricing), (1, providerB, bindingB.Pricing)] := by
    simp [selectProviders, hA, hAon, hB, hBon]
  simp [CreateRequestContext, scenarioArgs, hservice, buildBatch, newBatch, hsel,
    dormantContext, batchFee, hfunds]

/-! ## The service module: the claims -/

/-- C13: in a state where two providers are bound and available, the call that creates a
request context in state `Running` over them with threshold 0, timeout 10, repeated with
frequency 20 and total 10 succeeds exactly when the consumer can pay the two charges, and every
context so created has `BatchCounter = 1`, `BatchRequestCount = 2`, `BatchResponseCount = 0`,
`BatchRunning` and `Running` (its run count still 10), the charges having moved from the
consumer into escrow. After `a` ticks one provider responds: `BatchResponseCount = 1`, still
`BatchRunning`. After `b` more ticks (the requests have not expired: `a + b ≤ 10`) the other
provider responds, and from then on, through `n` further ticks that end before the tick of the
scheduled height (creation height + 20), `BatchResponseCount = 2`, `BatchCompleted`, `Running`
and `BatchCounter = 1`. -/
theorem scenario_two_providers (s : State) (service : String)
    (providerA providerB consumer : Oracle.AccAddress) (input : String) (feeCap : Nat)
    (moduleName : String) (superMode : Bool) (bindingA bindingB : ServiceBinding)
    (hservice : service ∈ s.services)
    (hA : getBinding s.bindings service providerA = some bindingA)
    (hAon : bindingA.Available = true)
    (hB : getBinding s.bindings service providerB = some bindingB)
    (hBon : bindingB.Available = true) :
    (charge superMode feeCap bindingA.Pricing + charge superMode feeCap bindingB.Pricing
        ≤ balanceOf s.balances consumer ↔
      ∃ id s1, CreateRequestContext s
          (scenarioArgs service providerA providerB consumer input feeCap moduleName superMode)
        = Except.ok (id, s1)) ∧
    ∀ id s1,
      CreateRequestContext s
          (scenarioArgs service providerA providerB consumer input feeCap moduleName superMode)
        = Except.ok (id, s1) →
      (∃ c, getContext s1.contexts id = some c ∧ c.BatchCounter = 1 ∧
        c.BatchRequestCount = 2 ∧ c.BatchResponseCount = 0 ∧
        c.BatchState = BatchState.BatchRunning ∧
        c.State = Oracle.RequestContextState.Running ∧ c.RepeatedTotal = 10) ∧
      balanceOf s1.balances consumer + (charge superMode feeCap bindingA.Pricing
        + charge superMode feeCap bindingB.Pricing) = balanceOf s.balances consumer ∧
      s1.escrow = s.escrow + (charge superMode feeCap bindingA.Pricing
        + charge superMode feeCap bindingB.Pricing) ∧
      ∀ (first second : Nat) (payload1 payload2 : Payload) (a b n : Nat),
        (first = 0 ∧ second = 1) ∨ (first = 1 ∧ second = 0) →
        a + b ≤ 10 → a + b + n ≤ 20 →
        ∃ s2, HandleResponse (ticks a s1) id 1 first payload1 = Except.ok s2 ∧
          (∃ c, getContext s2.contexts id = some c ∧ c.BatchCounter = 1 ∧
            c.BatchRequestCount = 2 ∧ c.BatchResponseCount = 1 ∧
            c.BatchState = BatchState.BatchRunning ∧
            c.State = Oracle.RequestContextState.Running) ∧
          ∃ s3, HandleResponse (ticks b s2) id 1 second payload2 = Except.ok s3 ∧
            (ticks n s3).height = s.height + (a + b + n) ∧
            ∃ c, getContext (ticks n s3).contexts id = some c ∧ c.BatchCounter = 1 ∧
              c.BatchRequestCount = 2 ∧ c.BatchResponseCount = 2 ∧
              c.BatchState = BatchState.BatchCompleted ∧
              c.State = Oracle.RequestContextState.Running := by
  by_cases hfunds : charge superMode feeCap bindingA.Pricing
      + charge superMode feeCap bindingB.Pricing ≤ balanceOf s.balances consumer
  swap
  · have hfail := CreateRequestContext_insufficient_balance s service providerA providerB
      consumer input feeCap moduleName superMode bindingA bindingB hservice hA hAon hB hBon
      (by omega)
    refine ⟨⟨fun h => absurd h hfunds, ?_⟩, ?_⟩
    · rintro ⟨id, s1, h⟩
      rw [hfail] at h
      cases h
    · intro id s1 h
      rw [hfail] at h
      cases h
  have hcreate := CreateRequestContext_scenario s service providerA providerB consumer input
    feeCap moduleName superMode bindingA bindingB hservice hA hAon hB hBon hfunds
  refine ⟨⟨fun _ => ⟨_, _, hcreate⟩, fun _ => hfunds⟩, ?_⟩
  intro id s1 hok
  rw [hcreate] at hok
  cases hok
  have hc1 : getContext ((s.nextID, scenarioRunning
      (scenarioArgs service providerA providerB consumer input feeCap moduleName superMode)
      s.height [(0, providerA, bindingA.Pricing), (1, providerB, bindingB.Pricing)] 0)
        :: s.contexts) s.nextID
      = some (scenarioRunning
        (scenarioArgs service providerA providerB consumer input feeCap moduleName superMode)
        s.height [(0, providerA, bindingA.Pricing), (1, providerB, bindingB.Pricing)] 0) := by
    simp [getContext]
  refine ⟨?_, ?_, rfl, ?_⟩
  · exact ⟨_, hc1, rfl, rfl, rfl, rfl, rfl, rfl⟩
  · show balanceOf (setBalance s.balances consumer _) consumer + _ = _
    rw [balanceOf_setBalance_same]
    omega
  · intro first second payload1 payload2 a b n horder hab habn
    -- the context through the first `a` ticks
    obtain ⟨hca, hha⟩ := ticks_getContext_of_quiet _ s.nextID (s.height + 10)
      (fun height hh => scenarioRunning_quiet _ s.height _ 0 (by simp) (by omega) height hh) a
      { toEscrow s consumer
          (charge superMode feeCap bindingA.Pricing
            + charge superMode feeCap bindingB.Pricing) with
        contexts := (s.nextID, scenarioRunning
          (scenarioArgs service providerA providerB consumer input feeCap moduleName superMode)
          s.height [(0, providerA, bindingA.Pricing), (1, providerB, bindingB.Pricing)] 0)
            :: s.contexts
        nextID := s.nextID + 1 } (by show s.height + a ≤ s.height + 10; omega) hc1
    have hha2 : (ticks a _).height = s.height + a := hha
    rcases horder with ⟨rfl, rfl⟩ | ⟨rfl, rfl⟩
    · obtain ⟨s2, hr2, hc2, hh2⟩ := HandleResponse_scenario _ s.nextID _ s.height
        [(1, providerB, bindingB.Pricing)] 0 0 providerA bindingA.Pricing payload1 hca
      rw [settle_scenarioRunning _ _ _ _ (by simp) (by omega)] at hc2
      refine ⟨s2, hr2, ⟨_, hc2, contextFacts_running _ _ _ _ rfl⟩, ?_⟩
      obtain ⟨hcb, hhb⟩ := ticks_getContext_of_quiet _ s.nextID (s.height + 10)
        (fun height hh => scenarioRunning_quiet _ s.height _ 1 (by simp) (by omega) height hh)
        b s2 (by omega) hc2
      obtain ⟨s3, hr3, hc3, hh3⟩ := HandleResponse_scenario _ s.nextID _ s.height
        [] 1 1 providerB bindingB.Pricing payload2 hcb
      rw [settle_scenario_done] at hc3
      obtain ⟨hcn, hhn⟩ := ticks_getContext_of_quiet _ s.nextID (s.height + 20)
        (fun height hh => scenarioCompleted_quiet _ s.height rfl height hh)
        n s3 (by omega) hc3
      exact ⟨s3, hr3, by omega, _, hcn, rfl, rfl, rfl, rfl, rfl⟩
    · obtain ⟨s2, hr2, hc2, hh2⟩ := HandleResponse_scenario_second _ s.nextID _ s.height
        0 providerA bindingA.Pricing 0 1 providerB bindingB.Pricing payload1 (by decide) hca
      rw [settle_scenarioRunning _ _ _ _ (by simp) (by omega)] at hc2
      refine ⟨s2, hr2, ⟨_, hc2, contextFacts_running _ _ _ _ rfl⟩, ?_⟩
      obtain ⟨hcb, hhb⟩ := ticks_getContext_of_quiet _ s.nextID (s.height + 10)
        (fun height hh => scenarioRunning_quiet _ s.height _ 1 (by simp) (by omega) height hh)
        b s2 (by omega) hc2
      obtain ⟨s3, hr3, hc3, hh3⟩ := HandleResponse_scenario _ s.nextID _ s.height
        [] 1 0 providerA bindingA.Pricing payload2 hcb
      rw [settle_scenario_done] at hc3
      obtain ⟨hcn, hhn⟩ := ticks_getContext_of_quiet _ s.nextID (s.height + 20)
        (fun height hh => scenarioCompleted_quiet _ s.height rfl height hh)
        n s3 (by omega) hc3
      exact ⟨s3, hr3, by omega, _, hcn, rfl, rfl, rfl, rfl, rfl⟩

/-- C13, at a concrete input: in the sample state where foo and bar are bound to "test" at
price 10, bar, holding 900, calls the service at both with fee cap 12 and pays 20; foo answers
at once, bar three blocks later, and ten blocks after that the first batch is completed with
both responses and the counter is still 1. -/
theorem scenario_two_providers_witness :
    "test" ∈ state3.services ∧
    (∃ bindingA, getBinding state3.bindings "test" foo = some bindingA ∧
      bindingA.Available = true ∧ bindingA.Pricing = 10) ∧
    (∃ bindingB, getBinding state3.bindings "test" bar = some bindingB ∧
      bindingB.Available = true ∧ bindingB.Pricing = 10) ∧
    charge false 12 10 + charge false 12 10 ≤ balanceOf state3.balances bar ∧
    ∃ id s1 s2 s3 c,
      CreateRequestContext state3 (scenarioArgs "test" foo bar bar "{}" 12 "" false)
        = Except.ok (id, s1) ∧
      balanceOf s1.balances bar + 20 = 900 ∧
      HandleResponse (ticks 0 s1) id 1 0 (Payload.output "{}") = Except.ok s2 ∧
      HandleResponse (ticks 3 s2) id 1 1 (Payload.output "{}") = Except.ok s3 ∧
      getContext (ticks 10 s3).contexts id = some c ∧ c.BatchCounter = 1 ∧
      c.BatchResponseCount = 2 ∧ c.BatchState = BatchState.BatchCompleted := by
  refine ⟨by decide, ⟨_, rfl, by decide, by decide⟩, ⟨_, rfl, by decide, by decide⟩,
    by decide, ?_⟩
  obtain ⟨hiff, hall⟩ := scenario_two_providers state3 "test" foo bar bar
    "{}" 12 "" false _ _ (by decide) rfl (by decide) rfl (by decide)
  obtain ⟨id, s1, hcreate⟩ := hiff.mp (by decide)
  obtain ⟨_, hbal, _, hrest⟩ := hall id s1 hcreate
  obtain ⟨s2, h2, _, s3, h3, _, c, hc, hcounter, _, hcount, hstate, _⟩ :=
    hrest 0 1 (Payload.output "{}") (Payload.output "{}") 0 3 10 (Or.inl ⟨rfl, rfl⟩)
      (by decide) (by decide)
  exact ⟨id, s1, s2, s3, c, hcreate, hbal, h2, h3, hc, hcounter, hcount, hstate⟩

/-- C15: for a binding found in the registry, `RefundDeposit` fails with `StillAvailable` when
the binding is not disabled and with `CooldownNotElapsed` when fewer blocks than the cool-down
have passed since its disablement (a failing call returns the error alone, the state stays as
it is); otherwise it succeeds, the deposit of the binding becomes zero and the balance of the
withdraw address grows by exactly the former deposit, no other balance changing. In
particular, after `Disable` and `n` ticks the refund fails for `n` below the cool-down and
succeeds from the cool-down on, adding the deposit to the balance that the withdraw address
has then, which is at most its balance before `Disable` (a tick pays nothing out). -/
theorem RefundDeposit_cooldown (s : State) (service : String) (provider : Oracle.AccAddress)
    (b : ServiceBinding) (hb : getBinding s.bindings service provider = some b) :
    (b.DisabledTime = 0 →
      RefundDeposit s service provider = Except.error Error.StillAvailable) ∧
    (b.DisabledTime ≠ 0 → s.height - b.DisabledTime < s.params.RefundCooldown →
      RefundDeposit s service provider = Except.error Error.CooldownNotElapsed) ∧
    (b.DisabledTime ≠ 0 → s.params.RefundCooldown ≤ s.height - b.DisabledTime →
      ∃ s1, RefundDeposit s service provider = Except.ok s1 ∧
        getBinding s1.bindings service provider = some { b with Deposit := 0 } ∧
        balanceOf s1.balances b.WithdrawAddress
          = balanceOf s.balances b.WithdrawAddress + b.Deposit ∧
        (∀ other, other ≠ b.WithdrawAddress →
          balanceOf s1.balances other = balanceOf s.balances other) ∧
        s1.escrow = s.escrow - b.Deposit) ∧
    (b.DisabledTime = 0 → 1 ≤ s.height →
      ∃ s1, Disable s service provider = Except.ok s1 ∧
        ∀ n,
          (n < s.params.RefundCooldown →
            RefundDeposit (ticks n s1) service provider
              = Except.error Error.CooldownNotElapsed) ∧
          (s.params.RefundCooldown ≤ n →
            ∃ s2 b2, RefundDeposit (ticks n s1) service provider = Except.ok s2 ∧
              getBinding s2.bindings service provider = some b2 ∧ b2.Deposit = 0 ∧
              balanceOf s2.balances b.WithdrawAddress
                = balanceOf (ticks n s1).balances b.WithdrawAddress + b.Deposit ∧
              balanceOf (ticks n s1).balances b.WithdrawAddress
                ≤ balanceOf s.balances b.WithdrawAddress)) := by
  obtain ⟨h1, h2, h3⟩ := RefundDeposit_cases s service provider b hb
  refine ⟨h1, h2, h3, ?_⟩
  intro hzero hheight
  obtain ⟨s1, hdis, hb1, hh1, hp1, hbal1⟩ := Disable_ok s service provider b hb hzero
  refine ⟨s1, hdis, ?_⟩
  intro n
  obtain ⟨⟨m, hbn⟩, hhn, hpn⟩ := ticks_unavailable n s1 service provider _ hb1 rfl
  obtain ⟨_, c2, c3⟩ := RefundDeposit_cases (ticks n s1) service provider _ hbn
  have hstamp : s.height ≠ 0 := by omega
  constructor
  · intro hn
    apply c2 hstamp
    simp only [hhn, hpn, hh1, hp1]
    omega
  · intro hn
    obtain ⟨s2, hok, hb2, hbal2, _, _⟩ := c3 hstamp (by
      simp only [hhn, hpn, hh1, hp1]
      omega)
    refine ⟨s2, _, hok, hb2, rfl, hbal2, ?_⟩
    rw [← hbal1]
    exact ticks_balance_le n s1 _

/-- C15, at a concrete input: bar disables its binding of deposit 100 in the sample state;
with a cool-down of 5 blocks the refund fails after 4 blocks and succeeds after 5, when the
balance of bar grows from 900 to 1000. -/
theorem RefundDeposit_cooldown_witness :
    (∃ b, getBinding state3.bindings "test" bar = some b ∧ b.DisabledTime = 0 ∧
      b.Deposit = 100 ∧ b.WithdrawAddress = bar) ∧
    1 ≤ state3.height ∧
    balanceOf state3.balances bar = 900 ∧
    ∃ s1, Disable state3 "test" bar = Except.ok s1 ∧
      RefundDeposit (ticks 4 s1) "test" bar = Except.error Error.CooldownNotElapsed ∧
      balanceOf (ticks 5 s1).balances bar = 900 ∧
      ∃ s2 b2, RefundDeposit (ticks 5 s1) "test" bar = Except.ok s2 ∧
        getBinding s2.bindings "test" bar = some b2 ∧ b2.Deposit = 0 ∧
        balanceOf s2.balances bar = 900 + 100 := by
  refine ⟨⟨_, rfl, by decide, by decide, by decide⟩, by decide, by decide, ?_⟩
  obtain ⟨s1, hdis, hn⟩ := (RefundDeposit_cooldown state3 "test" bar _ rfl).2.2.2
    (by decide) (by decide)
  obtain ⟨s2, b2, hok, hb2, hdep, hbal, _⟩ := (hn 5).2 (by decide)
  have hs1 : s1 = afterOk state3 (Disable state3 "test" bar) := by
    rw [hdis]; rfl
  have hticks : balanceOf (ticks 5 s1).balances bar = 900 := by
    rw [hs1]; decide
  refine ⟨s1, hdis, (hn 4).1 (by decide), hticks, s2, b2, hok, hb2, hdep, ?_⟩
  rw [hbal, hticks]

/-- The condition on the outcome of a short update in C16 is needed: where such an update is
accepted without disabling the binding, bar, raising its price to 20 on a deposit of 100, has a
binding that is unavailable (the minimum is 200) with a zero timestamp. -/
theorem short_update_unavailable_zero_timestamp :
    Reachable looseParams [(bar, 1000)] stateRaised ∧
    getBinding stateRaised.bindings "test" bar = some
      { ServiceName := "test", Provider := bar, Deposit := 100, Pricing := 20,
        WithdrawAddress := bar, Available := false, DisabledTime := 0, Misses := 0 } ∧
    minDeposit looseParams 20 = 200 :=
  ⟨Reachable.step stateLoose stateRaised
      (Reachable.step _ stateLoose
        (Reachable.step _ _ Reachable.genesis
          (Step.define (genesis looseParams [(bar, 1000)]) _ "test" rfl))
        (Step.bind _ stateLoose "test" bar 100 10 rfl))
      (Step.updateBinding stateLoose stateRaised "test" bar 0 (some 20) rfl),
    by decide, by decide⟩

end Service
